import Mathlib

/-!
# dbtool: MSSQL → PostgreSQL type and DDL converter

A shallow embedding of `internal/schema/converter/type_mapper.go` and the
descriptors of `internal/types/types.go` it works on.

Modelling conventions

* A Go `string` is a `Str`, the list of its runes.  String literals of the
  source are written as Lean string literals and coerced.
* Go `int` fields are `Int`; the only arithmetic the converter performs on them
  is `/ 2` (truncating, `Int.tdiv`) and comparisons, so no overflow can occur.
* The converter's `warnings` slice is explicit state: every method returns its
  result paired with the updated `TypeMapper`.
* Two standard-library behaviours that the repository does not define are
  parameters, collected in `GoStd`: the Unicode lower-casing of runes outside
  ASCII, and whether `fmt.Sscanf(s, "%f", _)` succeeds.
-/

namespace DbTool

/-- A Go string, as the list of its runes. -/
abbrev Str := List Char

instance : Coe String Str := ⟨String.toList⟩

/-! ## Standard-library helpers -/

/-- Behaviour of the Go standard library that the converter relies on and that is
not defined in the repository. -/
structure GoStd where
  /-- The function `unicode.ToLower` on runes outside the ASCII range. -/
  unicodeToLower : Char → Char
  /-- Whether `fmt.Sscanf(s, "%f", new(float64))` returns a nil error. -/
  sscanfFloatOk : Str → Bool

/-- The function `unicode.ToLower` on one rune: ASCII capitals are shifted by
`'a' - 'A'`, other ASCII runes are unchanged, the rest is table driven. -/
def toLowerRune (std : GoStd) (r : Char) : Char :=
  if r.toNat < 128 then
    if 'A'.toNat ≤ r.toNat ∧ r.toNat ≤ 'Z'.toNat then Char.ofNat (r.toNat + 32) else r
  else std.unicodeToLower r

/-- The function `strings.ToLower`. -/
def ToLower (std : GoStd) (s : Str) : Str := s.map (toLowerRune std)

/-- The function `strings.HasPrefix`. -/
def HasPrefix (s pre : Str) : Bool := pre.isPrefixOf s

/-- The function `strings.HasSuffix`. -/
def HasSuffix (s suf : Str) : Bool := suf.isSuffixOf s

/-- The function `strings.TrimPrefix`: drops `pre` from the front when present. -/
def TrimPrefix (s pre : Str) : Str := if HasPrefix s pre then s.drop pre.length else s

/-- The function `strings.TrimSuffix`: drops `suf` from the end when present. -/
def TrimSuffix (s suf : Str) : Str :=
  if HasSuffix s suf then s.take (s.length - suf.length) else s

/-- The function `strings.Join`. -/
def Join (elems : List Str) (sep : Str) : Str := sep.intercalate elems

/-- The call `strings.ReplaceAll(s, "_", " ")`: every underscore becomes a space. -/
def ReplaceUnderscores (s : Str) : Str := s.map (fun r => if r = '_' then ' ' else r)

/-- The verb `%d` of `fmt.Sprintf` on a Go `int`. -/
def fmtD : Int → Str
  | .ofNat n => Nat.toDigits 10 n
  | .negSucc n => '-' :: Nat.toDigits 10 (n + 1)

/-- The format `"\"%s\""` of `fmt.Sprintf`, used for every identifier. -/
def quoteIdent (s : Str) : Str := "\"" ++ s ++ "\""

/-! ## Descriptors (`internal/types/types.go`) -/

/-- Metadata about a database column. -/
structure ColumnInfo where
  Name : Str
  DataType : Str
  MaxLength : Int
  Precision : Int
  Scale : Int
  IsNullable : Bool
  IsIdentity : Bool
  DefaultValue : Option Str
  IsPrimaryKey : Bool
deriving DecidableEq

/-- A foreign key constraint. -/
structure ForeignKey where
  Name : Str
  Columns : List Str
  ReferencedSchema : Str
  ReferencedTable : Str
  ReferencedColumns : List Str
  OnDelete : Str
  OnUpdate : Str
deriving DecidableEq

/-- An index on a table. -/
structure IndexInfo where
  Name : Str
  Columns : List Str
  IsUnique : Bool
  IsClustered : Bool
deriving DecidableEq

/-- Metadata about a database table. -/
structure TableInfo where
  Schema : Str
  Name : Str
  RowCount : Int
  Columns : List ColumnInfo
  PrimaryKey : List Str
  ForeignKeys : List ForeignKey
  Indexes : List IndexInfo
deriving DecidableEq

/-! ## The type mapper -/

/-- The converter: its only state is the list of accumulated warnings. -/
structure TypeMapper where
  warnings : List Str
deriving DecidableEq

/-- A fresh converter with no warnings. -/
def NewTypeMapper : TypeMapper := ⟨[]⟩

/-- The accumulated warnings. -/
def TypeMapper.GetWarnings (tm : TypeMapper) : List Str := tm.warnings

/-- The converter with its warnings cleared. -/
def TypeMapper.ClearWarnings (_tm : TypeMapper) : TypeMapper := ⟨[]⟩

/-- The statement `tm.warnings = append(tm.warnings, w)`. -/
def TypeMapper.warn (tm : TypeMapper) (w : Str) : TypeMapper := ⟨tm.warnings ++ [w]⟩

/-- The `switch` of `MapType` on the lower-cased type name `dataType`, in source
order: each branch gives the returned type and the warnings it appends. -/
def mapTypeSwitch (dataType : Str) (col : ColumnInfo) : Str × List Str :=
  if dataType = "bigint" then
    if col.IsIdentity then ("BIGSERIAL", []) else ("BIGINT", [])
  else if dataType = "int" then
    if col.IsIdentity then ("SERIAL", []) else ("INTEGER", [])
  else if dataType = "smallint" then
    if col.IsIdentity then ("SMALLSERIAL", []) else ("SMALLINT", [])
  else if dataType = "tinyint" then
    if col.IsIdentity then ("SMALLSERIAL", []) else ("SMALLINT", [])
  else if dataType = "bit" then ("BOOLEAN", [])
  else if dataType = "decimal" ∨ dataType = "numeric" then
    if col.Precision > 0 then
      ("NUMERIC(" ++ fmtD col.Precision ++ "," ++ fmtD col.Scale ++ ")", [])
    else ("NUMERIC", [])
  else if dataType = "money" then ("NUMERIC(19,4)", [])
  else if dataType = "smallmoney" then ("NUMERIC(10,4)", [])
  else if dataType = "float" then
    if col.Precision ≤ 24 then ("REAL", []) else ("DOUBLE PRECISION", [])
  else if dataType = "real" then ("REAL", [])
  else if dataType = "date" then ("DATE", [])
  else if dataType = "time" then
    if col.Scale > 0 ∧ col.Scale ≤ 6 then ("TIME(" ++ fmtD col.Scale ++ ")", [])
    else ("TIME", [])
  else if dataType = "datetime" then ("TIMESTAMP(3)", [])
  else if dataType = "datetime2" then
    if col.Scale > 6 then
      ("TIMESTAMP(" ++ fmtD 6 ++ ")",
        [("Column " : Str) ++ col.Name ++ ": datetime2(" ++ fmtD col.Scale
          ++ ") precision truncated to 6 (PostgreSQL max)"])
    else ("TIMESTAMP(" ++ fmtD col.Scale ++ ")", [])
  else if dataType = "smalldatetime" then ("TIMESTAMP(0)", [])
  else if dataType = "datetimeoffset" then
    if col.Scale > 6 then
      ("TIMESTAMPTZ(" ++ fmtD 6 ++ ")",
        [("Column " : Str) ++ col.Name ++ ": datetimeoffset(" ++ fmtD col.Scale
          ++ ") precision truncated to 6"])
    else ("TIMESTAMPTZ(" ++ fmtD col.Scale ++ ")", [])
  else if dataType = "char" then
    if col.MaxLength > 0 then ("CHAR(" ++ fmtD col.MaxLength ++ ")", []) else ("CHAR(1)", [])
  else if dataType = "varchar" then
    if col.MaxLength = -1 then ("TEXT", [])
    else if col.MaxLength > 0 then ("VARCHAR(" ++ fmtD col.MaxLength ++ ")", [])
    else ("VARCHAR", [])
  else if dataType = "text" then ("TEXT", [])
  else if dataType = "nchar" then
    if Int.tdiv col.MaxLength 2 > 0 then
      ("CHAR(" ++ fmtD (Int.tdiv col.MaxLength 2) ++ ")", [])
    else ("CHAR(1)", [])
  else if dataType = "nvarchar" then
    if col.MaxLength = -1 then ("TEXT", [])
    else if Int.tdiv col.MaxLength 2 > 0 then
      ("VARCHAR(" ++ fmtD (Int.tdiv col.MaxLength 2) ++ ")", [])
    else ("VARCHAR", [])
  else if dataType = "ntext" then ("TEXT", [])
  else if dataType = "binary" then ("BYTEA", [])
  else if dataType = "varbinary" then ("BYTEA", [])
  else if dataType = "image" then ("BYTEA", [])
  else if dataType = "uniqueidentifier" then ("UUID", [])
  else if dataType = "xml" then ("XML", [])
  else if dataType = "sql_variant" then
    ("TEXT", [("Column " : Str) ++ col.Name ++ ": sql_variant converted to TEXT (lossy conversion)"])
  else if dataType = "hierarchyid" then
    ("TEXT", [("Column " : Str) ++ col.Name
      ++ ": hierarchyid converted to TEXT (custom handling may be needed)"])
  else if dataType = "geography" then
    ("GEOGRAPHY", [("Column " : Str) ++ col.Name ++ ": geography type requires PostGIS extension"])
  else if dataType = "geometry" then
    ("GEOMETRY", [("Column " : Str) ++ col.Name ++ ": geometry type requires PostGIS extension"])
  else if dataType = "timestamp" ∨ dataType = "rowversion" then ("BYTEA", [])
  else if dataType = "sysname" then ("VARCHAR(128)", [])
  else
    ("TEXT", [("Column " : Str) ++ col.Name ++ ": unknown type '" ++ dataType
      ++ "' defaulting to TEXT"])

/-- Maps a MSSQL data type to PostgreSQL: the type name is lower-cased, the
`switch` picks the target type, and the warnings of the chosen branch are
appended to the converter's warnings. -/
def MapType (std : GoStd) (tm : TypeMapper) (col : ColumnInfo) : Str × TypeMapper :=
  let r := mapTypeSwitch (ToLower std col.DataType) col
  (r.1, ⟨tm.warnings ++ r.2⟩)

/-- The four trimming statements that open `MapDefaultValue`: one leading `(`
and one trailing `)` are dropped, twice, each independently of the other. -/
def stripOuterParens (defaultValue : Str) : Str :=
  let defaultValue := TrimPrefix defaultValue "("
  let defaultValue := TrimSuffix defaultValue ")"
  let defaultValue := TrimPrefix defaultValue "("
  let defaultValue := TrimSuffix defaultValue ")"
  defaultValue

/-- The end of `MapDefaultValue`, reached when no earlier rule returned: numeric
defaults, `N'` string literals, and the final pass-through. -/
def mapDefaultRest (std : GoStd) (defaultValue : Str) : Str × List Str :=
  if std.sscanfFloatOk defaultValue then (defaultValue, [])
  else if HasPrefix defaultValue "N'" then (TrimPrefix defaultValue "N", [])
  else (defaultValue, [])

/-- The rules of `MapDefaultValue` on the trimmed default `defaultValue`: the
`switch` on its lower-cased form, the NULL rule and the BIT rule, in source
order, each with the returned text and the warnings it appends. -/
def mapDefaultRules (std : GoStd) (defaultValue dataType : Str) : Str × List Str :=
  let lower := ToLower std defaultValue
  if lower = "getdate()" ∨ lower = "current_timestamp" then ("CURRENT_TIMESTAMP", [])
  else if lower = "getutcdate()" then ("CURRENT_TIMESTAMP AT TIME ZONE 'UTC'", [])
  else if lower = "newid()" then ("gen_random_uuid()", [])
  else if lower = "newsequentialid()" then ("gen_random_uuid()", [])
  else if lower = "sysdatetime()" then ("CURRENT_TIMESTAMP", [])
  else if lower = "sysutcdatetime()" then ("CURRENT_TIMESTAMP AT TIME ZONE 'UTC'", [])
  else if HasPrefix lower "convert(" then
    ("", [("Default value '" : Str) ++ defaultValue
      ++ "' uses CONVERT - may need manual conversion"])
  else if HasPrefix lower "cast(" then
    ("", [("Default value '" : Str) ++ defaultValue
      ++ "' uses CAST - may need manual conversion"])
  else if lower = "null" then ("NULL", [])
  else if ToLower std dataType = "bit" then
    if defaultValue = "1" ∨ lower = "'1'" then ("TRUE", [])
    else if defaultValue = "0" ∨ lower = "'0'" then ("FALSE", [])
    else mapDefaultRest std defaultValue
  else mapDefaultRest std defaultValue

/-- The body of `MapDefaultValue`: the empty default is returned at once, any
other is trimmed and handed to the rules. -/
def mapDefaultBody (std : GoStd) (defaultValue dataType : Str) : Str × List Str :=
  if defaultValue = "" then ("", [])
  else mapDefaultRules std (stripOuterParens defaultValue) dataType

/-- Converts a MSSQL default value to PostgreSQL syntax, appending the warnings
of the chosen branch to the converter's warnings. -/
def MapDefaultValue (std : GoStd) (tm : TypeMapper) (defaultValue dataType : Str) :
    Str × TypeMapper :=
  let r := mapDefaultBody std defaultValue dataType
  (r.1, ⟨tm.warnings ++ r.2⟩)

/-- Generates the PostgreSQL column definition. -/
def GenerateColumnDDL (std : GoStd) (tm : TypeMapper) (col : ColumnInfo) : Str × TypeMapper :=
  let parts : List Str := [quoteIdent col.Name]
  let (pgType, tm) := MapType std tm col
  let parts := parts ++ [pgType]
  let isSerial := HasSuffix pgType "SERIAL"
  let parts := if !col.IsNullable && !isSerial then parts ++ [("NOT NULL" : Str)] else parts
  match col.DefaultValue with
  | some dv =>
    if !isSerial then
      let (defaultVal, tm) := MapDefaultValue std tm dv col.DataType
      if defaultVal ≠ "" then (Join (parts ++ [("DEFAULT" : Str), defaultVal]) " ", tm)
      else (Join parts " ", tm)
    else (Join parts " ", tm)
  | none => (Join parts " ", tm)

/-- The loop over `table.Columns` of `GenerateCreateTableDDL`: appends one indented
definition per column, threading the converter. -/
def columnDefsLoop (std : GoStd) (cols : List ColumnInfo) (acc : List Str) (tm : TypeMapper) :
    List Str × TypeMapper :=
  cols.foldl
    (fun (st : List Str × TypeMapper) col =>
      let (ddl, tm) := GenerateColumnDDL std st.2 col
      (st.1 ++ [("    " : Str) ++ ddl], tm))
    (acc, tm)

/-- Generates a CREATE TABLE statement. -/
def GenerateCreateTableDDL (std : GoStd) (tm : TypeMapper) (table : TableInfo) :
    Str × TypeMapper :=
  let sb : Str := "CREATE TABLE \"" ++ table.Schema ++ "\".\"" ++ table.Name ++ "\" (\n"
  let (columnDefs, tm) := columnDefsLoop std table.Columns [] tm
  let columnDefs :=
    if table.PrimaryKey.length > 0 then
      let pkCols := table.PrimaryKey.map quoteIdent
      columnDefs ++ [("    PRIMARY KEY (" : Str) ++ Join pkCols ", " ++ ")"]
    else columnDefs
  let sb := sb ++ Join columnDefs ",\n"
  let sb := sb ++ "\n)"
  (sb, tm)

/-- Generates a CREATE INDEX statement. -/
def GenerateIndexDDL (table : TableInfo) (index : IndexInfo) : Str :=
  let sb : Str := if index.IsUnique then "CREATE UNIQUE INDEX " else "CREATE INDEX "
  let sb := sb ++ (quoteIdent index.Name ++ " ON " ++ quoteIdent table.Schema ++ "."
    ++ quoteIdent table.Name ++ " (")
  let cols := index.Columns.map quoteIdent
  let sb := sb ++ Join cols ", "
  sb ++ ")"

/-- Generates an ALTER TABLE ADD FOREIGN KEY statement. -/
def GenerateForeignKeyDDL (table : TableInfo) (fk : ForeignKey) : Str :=
  let sb : Str := "ALTER TABLE \"" ++ table.Schema ++ "\".\"" ++ table.Name
    ++ "\" ADD CONSTRAINT \"" ++ fk.Name ++ "\" FOREIGN KEY ("
  let cols := fk.Columns.map quoteIdent
  let sb := sb ++ Join cols ", "
  let sb := sb ++ (") REFERENCES \"" ++ fk.ReferencedSchema ++ "\".\"" ++ fk.ReferencedTable
    ++ "\" (")
  let refCols := fk.ReferencedColumns.map quoteIdent
  let sb := sb ++ Join refCols ", "
  let sb := sb ++ ")"
  let sb :=
    if fk.OnDelete ≠ "" ∧ fk.OnDelete ≠ "NO_ACTION" then
      sb ++ " ON DELETE " ++ ReplaceUnderscores fk.OnDelete
    else sb
  let sb :=
    if fk.OnUpdate ≠ "" ∧ fk.OnUpdate ≠ "NO_ACTION" then
      sb ++ " ON UPDATE " ++ ReplaceUnderscores fk.OnUpdate
    else sb
  sb

/-! ## Helpers used to state properties -/

/-- Whitespace runes: space, newline, tab, carriage return. -/
def isWhitespace (r : Char) : Bool := r = ' ' || r = '\n' || r = '\t' || r = '\r'

/-- Collapses every run of whitespace to one space; `prev` records whether the
previous rune was whitespace. -/
def collapseFrom (prev : Bool) : Str → Str
  | [] => []
  | r :: rs =>
    if isWhitespace r then
      if prev then collapseFrom true rs else ' ' :: collapseFrom true rs
    else r :: collapseFrom false rs

/-- Collapses every run of whitespace in `s` to a single space. -/
def collapseWhitespace (s : Str) : Str := collapseFrom false s

/-- A library instance for evaluating the converter on concrete ASCII inputs:
runes outside ASCII are left as they are and the float scanner accepts the
strings that start with a decimal digit. -/
def asciiStd : GoStd where
  unicodeToLower := fun r => r
  sscanfFloatOk := fun s => (s.head?.map Char.isDigit).getD false

/-- A column descriptor with the given name and type and neutral other fields. -/
def mkColumn (name dataType : Str) : ColumnInfo :=
  { Name := name, DataType := dataType, MaxLength := 0, Precision := 0, Scale := 0,
    IsNullable := true, IsIdentity := false, DefaultValue := none, IsPrimaryKey := false }

/-- The table `dbo.Users(Id INT IDENTITY PRIMARY KEY, Name NVARCHAR(100) NOT NULL)`. -/
def usersTable : TableInfo :=
  { Schema := "dbo", Name := "Users", RowCount := 3,
    Columns :=
      [ { mkColumn "Id" "int" with
            MaxLength := 4, Precision := 10, IsNullable := false, IsIdentity := true,
            IsPrimaryKey := true },
        { mkColumn "Name" "nvarchar" with MaxLength := 100, IsNullable := false } ],
    PrimaryKey := [("Id" : Str)], ForeignKeys := [], Indexes := [] }

/-- The column `CreatedAt DATETIME DEFAULT (getdate())`, nullable. -/
def createdAtColumn : ColumnInfo :=
  { mkColumn "CreatedAt" "datetime" with DefaultValue := some ("(getdate())" : Str) }

/-- The column `Ref UNIQUEIDENTIFIER DEFAULT (newid())`, nullable. -/
def refColumn : ColumnInfo :=
  { mkColumn "Ref" "uniqueidentifier" with DefaultValue := some ("(newid())" : Str) }

/-- The column `IsActive BIT DEFAULT ((1))`, nullable. -/
def isActiveColumn : ColumnInfo :=
  { mkColumn "IsActive" "bit" with DefaultValue := some ("((1))" : Str) }

/-- The column `Title NVARCHAR(200)`, with the given nullability. -/
def titleColumn (nullable : Bool) : ColumnInfo :=
  { mkColumn "Title" "nvarchar" with MaxLength := 200, IsNullable := nullable }

/-- The table `dbo.Orders` with a column `CustomerId`. -/
def ordersTable : TableInfo :=
  { Schema := "dbo", Name := "Orders", RowCount := 0,
    Columns := [{ mkColumn "CustomerId" "int" with MaxLength := 4, Precision := 10 }],
    PrimaryKey := [], ForeignKeys := [], Indexes := [] }

/-- The foreign key `Orders.CustomerId → Customers.Id`, `ON DELETE SET NULL`,
with no update action. -/
def ordersCustomerFk : ForeignKey :=
  { Name := "FK_Orders_Customers", Columns := [("CustomerId" : Str)],
    ReferencedSchema := "dbo", ReferencedTable := "Customers",
    ReferencedColumns := [("Id" : Str)], OnDelete := "SET_NULL", OnUpdate := "NO_ACTION" }

/-- The type names that have a `case` of their own in the switch of `MapType`. -/
def knownTypeNames : List Str :=
  List.map String.toList
    ["bigint", "int", "smallint", "tinyint", "bit", "decimal",
      "numeric", "money", "smallmoney", "float", "real", "date",
      "time", "datetime", "datetime2", "smalldatetime", "datetimeoffset", "char",
      "varchar", "text", "nchar", "nvarchar", "ntext", "binary",
      "varbinary", "image", "uniqueidentifier", "xml", "sql_variant", "hierarchyid",
      "geography", "geometry", "timestamp", "rowversion", "sysname"]

/-! ## Identifier escaping as the specification words it -/

/-- The identifier-escape discipline of the specification (and of
`pgx.Identifier.Sanitize`, which the target adapter uses): the identifier is
enclosed in double quotes and every embedded double quote is doubled. -/
def escapedIdent (s : Str) : Str :=
  "\"" ++ (s.map (fun r => if r = Char.ofNat 34 then [r, r] else [r])).flatten ++ "\""

/-- A column `a"b` of type int, nullable, without default. -/
def quotedNameColumn : ColumnInfo := mkColumn "a\"b" "int"

/-- A table `s"x.t"y` with the single column `a"b` and primary key `a"b`. -/
def quotedNameTable : TableInfo :=
  { Schema := "s\"x", Name := "t\"y", RowCount := 0, Columns := [quotedNameColumn],
    PrimaryKey := [("a\"b" : Str)], ForeignKeys := [], Indexes := [] }

/-- An index `i"x` on the column `a"b`. -/
def quotedNameIndex : IndexInfo :=
  { Name := "i\"x", Columns := [("a\"b" : Str)], IsUnique := false, IsClustered := false }

/-- A foreign key `f"k` from `a"b` to `r"s.r"t (c"d)` without actions. -/
def quotedNameFk : ForeignKey :=
  { Name := "f\"k", Columns := [("a\"b" : Str)], ReferencedSchema := "r\"s",
    ReferencedTable := "r\"t", ReferencedColumns := [("c\"d" : Str)], OnDelete := "",
    OnUpdate := "" }

/-- The SERIAL-family target types. -/
def serialTypes : List Str := List.map String.toList ["SERIAL", "BIGSERIAL", "SMALLSERIAL"]

/-! ## Migration configuration and table selection (`internal/migration/engine.go`) -/

/-- Configuration for a migration job (the connection strings and database names
play no part in the engine's control flow and are omitted). -/
structure MigrationConfig where
  IncludeSchema : Bool
  IncludeData : Bool
  IncludeTables : List Str
  ExcludeTables : List Str
  IncludeViews : Bool
  IncludeProcedures : Bool
  IncludeFunctions : Bool
  IncludeTriggers : Bool
  BatchSize : Int
  ParallelTables : Int
  DropTargetIfExists : Bool
deriving DecidableEq

/-- The inner loops of `getTablestoMigrate`: scans `names` and stops with `true` at
the first entry equal to `fullName` or to `name`. -/
def matchesAny : List Str → Str → Str → Bool
  | [], _, _ => false
  | x :: xs, fullName, name =>
    if x = fullName ∨ x = name then true else matchesAny xs fullName name

/-- One iteration of the outer loop of `getTablestoMigrate`: `tables` with `table`
appended unless the table is excluded or, with a non-empty include list, not
included. -/
def selectStep (config : MigrationConfig) (tables : List TableInfo) (table : TableInfo) :
    List TableInfo :=
  let fullName : Str := table.Schema ++ "." ++ table.Name
  let excluded := matchesAny config.ExcludeTables fullName table.Name
  if excluded then tables
  else if config.IncludeTables.length > 0 then
    let included := matchesAny config.IncludeTables fullName table.Name
    if !included then tables else tables ++ [table]
  else tables ++ [table]

/-- The filter of `getTablestoMigrate` applied to the tables the source returned. -/
def selectTables (config : MigrationConfig) (allTables : List TableInfo) : List TableInfo :=
  allTables.foldl (selectStep config) []

/-! ## Value comparison (`internal/validation/validator.go`) -/

/-- A scanned database value (`interface{}`): `none` is the nil interface (SQL
NULL), `some s` a non-nil value whose `%v` rendering is `s`. -/
abbrev Value := Option Str

/-- Compares two values, handling type differences. -/
def valuesEqual (a b : Value) : Bool :=
  match a, b with
  | none, none => true
  | none, some _ => false
  | some _, none => false
  | some aStr, some bStr =>
    if aStr = "true" ∧ bStr = "1" then true
    else if aStr = "false" ∧ bStr = "0" then true
    else if aStr = "1" ∧ bStr = "true" then true
    else if aStr = "0" ∧ bStr = "false" then true
    else decide (aStr = bStr)

/-! ## The migration engine (`internal/migration/engine.go`)

The engine is embedded as state-passing functions on `Engine`.  Every call that
leaves the engine (source, target, storage, frontend) is appended to
`Engine.trace` as an `Event`; what such a call returns is decided by a `World`,
whose answers may depend on the whole trace so far, so that a `World` stands for
one arbitrary behaviour of the databases, of storage and of cancellation.  The
mutex, wall-clock fields (`StartTime`, `EndTime`) and the percentage sent with
progress events are not modelled; `checkPaused` is a no-op (a run that blocks in
it has performed a prefix of the events).  The only unbounded loop, the batch
loop of `migrateTableData`, runs on fuel and reports `Outcome.outOfFuel` when the
fuel does not suffice. -/

/-- The status of a migration or of one table. -/
inductive MigrationStatus where
  | pending | running | paused | completed | failed | cancelled
deriving DecidableEq, Repr

/-- The level of a log entry. -/
inductive LogLevel where
  | debug | info | warn | error
deriving DecidableEq, Repr

/-- A Go result pair `(value, error)`: either the value with a nil error, or an
error, represented by its message. -/
inductive Res (α : Type) where
  | ok (val : α)
  | err (msg : Str)
deriving DecidableEq

/-- A row of scanned values. -/
abbrev Row := List Value

/-- The state of a single table migration. -/
structure TableState where
  Name : Str
  Schema : Str
  Status : MigrationStatus
  TotalRows : Int
  MigratedRows : Int
  Error : Str
deriving DecidableEq

/-- The current state of a migration; `Tables` is the map from `schema.name` to
the table's state, kept as an association list with unique keys. -/
structure MigrationState where
  Status : MigrationStatus
  TotalTables : Int
  CompletedTables : Int
  TotalRows : Int
  MigratedRows : Int
  CurrentTable : Str
  Tables : List (Str × TableState)
  Errors : List Str
deriving DecidableEq

/-- A call that leaves the engine. -/
inductive Event where
  /-- The call `sourceConn.GetTables`. -/
  | getTables
  /-- The call `sourceConn.GetTableDetails(schema, name)`. -/
  | getTableDetails (schema name : Str)
  /-- The call `sourceConn.ReadBatch(schema, name, columns, orderBy, offset, limit)`. -/
  | readBatch (schema name : Str) (columns : List Str) (orderBy : Str) (offset limit : Int)
  /-- The calls `sourceConn.GetViews`, `GetStoredProcedures`, `GetFunctions`. -/
  | getViews
  | getStoredProcedures
  | getFunctions
  /-- The call `targetConn.CreateSchema(schema)`. -/
  | createSchema (schema : Str)
  /-- The call `targetConn.DropTableIfExists(schema, name)`. -/
  | dropTableIfExists (schema name : Str)
  /-- The call `targetConn.ExecuteDDL(ddl)`. -/
  | executeDDL (ddl : Str)
  /-- The call `targetConn.DisableTriggers(schema, name)`. -/
  | disableTriggers (schema name : Str)
  /-- The call `targetConn.EnableTriggers(schema, name)`. -/
  | enableTriggers (schema name : Str)
  /-- The call `targetConn.CopyFrom(schema, name, columns, rows)` with what it returned. -/
  | copyFrom (schema name : Str) (columns : List Str) (rows : List Row) (result : Res Int)
  /-- The call `targetConn.SyncSequence(schema, name, column)`. -/
  | syncSequence (schema name column : Str)
  /-- The calls `sourceConn.Close` and `targetConn.Close` of `cleanup`. -/
  | closeConnections
  /-- The call `storage.UpdateMigrationStatus(id, status)`. -/
  | updateMigrationStatus (status : MigrationStatus)
  /-- The call `storage.UpdateMigrationProgress(id, totalTables, completedTables, totalRows,
  migratedRows)`. -/
  | updateMigrationProgress (totalTables completedTables totalRows migratedRows : Int)
  /-- The method `log`: `storage.AddLog` and the `migration:log` event. -/
  | log (level : LogLevel) (message : Str)
  /-- The event `migration:progress` with its table, total rows and processed rows. -/
  | progress (table : Str) (totalRows processedRows : Int)
  /-- The event `migration:table-complete` with its table and `rowsMigrated`. -/
  | tableComplete (table : Str) (rowsMigrated : Int)
  /-- The event `migration:error` with its message. -/
  | errorEvent (message : Str)
  /-- The event `migration:complete`. -/
  | complete
deriving DecidableEq

/-- One behaviour of everything outside the engine: what each call returns, given
the trace of the calls made so far.  An `Option Str` is a Go `error` (`none` is nil). -/
structure World where
  std : GoStd
  /-- Whether `ctx.Done()` is ready at a checkpoint. -/
  done : List Event → Bool
  getTables : List Event → Res (List TableInfo)
  getTableDetails : List Event → Str → Str → Res TableInfo
  readBatch : List Event → Str → Str → List Str → Str → Int → Int → Res (List Row)
  getViews : List Event → Res (List (Str × Str))
  getStoredProcedures : List Event → Res (List (Str × Str))
  getFunctions : List Event → Res (List (Str × Str))
  createSchema : List Event → Str → Option Str
  dropTableIfExists : List Event → Str → Str → Option Str
  executeDDL : List Event → Str → Option Str
  disableTriggers : List Event → Str → Str → Option Str
  enableTriggers : List Event → Str → Str → Option Str
  copyFrom : List Event → Str → Str → List Str → List Row → Res Int
  syncSequence : List Event → Str → Str → Str → Option Str
  updateMigrationProgress : List Event → Option Str

/-- The engine: configuration, migration state, converter, pause flag, and the
trace of the calls made so far. -/
structure Engine where
  config : MigrationConfig
  state : MigrationState
  typeMapper : TypeMapper
  paused : Bool
  trace : List Event

/-- How a phase ended: normally, with an error, or not within the fuel. -/
inductive Outcome where
  | ok
  | err (msg : Str)
  | outOfFuel
deriving DecidableEq

/-- The message of `ctx.Err()` once the run's context is cancelled. -/
def ctxErr : Str := "context canceled"

/-- Sets up the migration configuration, with the defaults for batch size and
parallel degree. -/
def Configure (config : MigrationConfig) : MigrationConfig :=
  let config := if config.BatchSize ≤ 0 then { config with BatchSize := 10000 } else config
  let config := if config.ParallelTables ≤ 0 then { config with ParallelTables := 1 } else config
  config

/-- The state that `Start` initialises. -/
def initialState : MigrationState :=
  { Status := .running, TotalTables := 0, CompletedTables := 0, TotalRows := 0,
    MigratedRows := 0, CurrentTable := "", Tables := [], Errors := [] }

/-- An engine as `Start` leaves it before the run begins. -/
def startedEngine (config : MigrationConfig) : Engine :=
  { config := config, state := initialState, typeMapper := NewTypeMapper, paused := false,
    trace := [.updateMigrationStatus .running] }

/-- Appends a call to the trace. -/
def Engine.emit (e : Engine) (ev : Event) : Engine := { e with trace := e.trace ++ [ev] }

/-- Writes a log entry. -/
def Engine.log (e : Engine) (level : LogLevel) (message : Str) : Engine :=
  e.emit (.log level message)

/-- Applies an update to the migration state (the critical sections on `e.mu`). -/
def Engine.setState (e : Engine) (f : MigrationState → MigrationState) : Engine :=
  { e with state := f e.state }

/-- Replaces the converter (its warnings are the only thing that changes). -/
def Engine.setMapper (e : Engine) (tm : TypeMapper) : Engine := { e with typeMapper := tm }

/-- The assignment `m[k] = v` on the table map. -/
def tablesInsert (m : List (Str × TableState)) (k : Str) (v : TableState) :
    List (Str × TableState) :=
  if m.any (fun p => p.1 = k) then m.map (fun p => if p.1 = k then (k, v) else p)
  else m ++ [(k, v)]

/-- The statement `if ts, ok := m[k]; ok { ... }` updating the entry in place. -/
def tablesUpdate (m : List (Str × TableState)) (k : Str) (f : TableState → TableState) :
    List (Str × TableState) :=
  m.map (fun p => if p.1 = k then (p.1, f p.2) else p)

/-- The lookup `m[k]`. -/
def tablesFind (m : List (Str × TableState)) (k : Str) : Option TableState :=
  (m.find? (fun p => p.1 = k)).map (fun p => p.2)

/-- Marks the migration as failed. -/
def Engine.fail (e : Engine) (message : Str) : Engine :=
  let e := e.setState (fun s => { s with Status := .failed, Errors := s.Errors ++ [message] })
  let e := e.emit (.updateMigrationStatus .failed)
  let e := e.log .error message
  e.emit (.errorEvent message)

/-- Releases resources. -/
def Engine.cleanup (e : Engine) : Engine := e.emit .closeConnections

/-- Pauses the migration. -/
def Pause (e : Engine) : Engine :=
  let e := { e with paused := true }
  let e := e.setState (fun s => { s with Status := .paused })
  let e := e.emit (.updateMigrationStatus .paused)
  e.log .info "Migration paused"

/-- Resumes the migration. -/
def Resume (e : Engine) : Engine :=
  let e := { e with paused := false }
  let e := e.setState (fun s => { s with Status := .running })
  let e := e.emit (.updateMigrationStatus .running)
  e.log .info "Migration resumed"

/-- Cancels the migration.  The call of `cancelFunc` is what makes `World.done`
answer `true` at the checkpoints that follow. -/
def Cancel (e : Engine) : Engine :=
  let e := e.setState (fun s => { s with Status := .cancelled })
  let e := e.emit (.updateMigrationStatus .cancelled)
  e.log .info "Migration cancelled"

/-- A call `ev` whose error, if any, is only logged: the statement
`if err := call(); err != nil { e.log(level, msg(err)) }`. -/
def Engine.call (e : Engine) (ev : Event) (answer : List Event → Option Str)
    (level : LogLevel) (msg : Str → Str) : Engine :=
  match answer e.trace with
  | some m => (e.emit ev).log level (msg m)
  | none => e.emit ev

/-- Returns the list of tables to migrate. -/
def getTablestoMigrate (w : World) (e : Engine) : Res (List TableInfo) × Engine :=
  match w.getTables e.trace with
  | .err m => (.err m, e.emit .getTables)
  | .ok allTables => (.ok (selectTables e.config allTables), e.emit .getTables)

/-! ### Phase 1 -/

/-- The loop over `tableDetails.Indexes` of `migrateSchema`. -/
def createIndexes (w : World) (tableDetails : TableInfo) (indexes : List IndexInfo)
    (e : Engine) : Engine :=
  indexes.foldl
    (fun e idx =>
      e.call (.executeDDL (GenerateIndexDDL tableDetails idx))
        (fun h => w.executeDDL h (GenerateIndexDDL tableDetails idx)) .warn
        (fun m => "Failed to create index " ++ idx.Name ++ ": " ++ m))
    e

/-- `migrateSchema`, "Create schema if needed". -/
def createSchemaStep (w : World) (table : TableInfo) (e : Engine) : Engine :=
  e.call (.createSchema table.Schema) (fun h => w.createSchema h table.Schema) .warn
    (fun m => "Failed to create schema " ++ table.Schema ++ ": " ++ m)

/-- `migrateSchema`, "Drop table if requested". -/
def dropTableStep (w : World) (table : TableInfo) (e : Engine) : Engine :=
  if e.config.DropTargetIfExists then
    e.call (.dropTableIfExists table.Schema table.Name)
      (fun h => w.dropTableIfExists h table.Schema table.Name) .warn
      (fun m => "Failed to drop table " ++ table.Schema ++ "." ++ table.Name ++ ": " ++ m)
  else e

/-- `migrateSchema`, "Log type mapper warnings": every accumulated warning is
logged, then the converter's warnings are cleared. -/
def flushWarnings (e : Engine) : Engine :=
  (e.typeMapper.GetWarnings.foldl (fun e warn => e.log .warn warn) e).setMapper
    e.typeMapper.ClearWarnings

/-- `migrateSchema`, from "Generate and execute CREATE TABLE" to the end of the
loop body: a failed CREATE TABLE is logged and the table is left (`continue`). -/
def createTableStep (w : World) (table tableDetails : TableInfo) (e : Engine) : Engine :=
  let generated := GenerateCreateTableDDL w.std e.typeMapper tableDetails
  match w.executeDDL e.trace generated.1 with
  | some m =>
    ((e.setMapper generated.2).emit (.executeDDL generated.1)).log .error
      ("Failed to create table " ++ table.Schema ++ "." ++ table.Name ++ ": " ++ m)
  | none =>
    flushWarnings
      ((createIndexes w tableDetails tableDetails.Indexes
          ((e.setMapper generated.2).emit (.executeDDL generated.1))).log .info
        ("Created table " ++ table.Schema ++ "." ++ table.Name))

/-- The body of the loop of `migrateSchema` for one table, after the checkpoint:
a table whose details cannot be read is logged and left (`continue`). -/
def migrateSchemaTable (w : World) (e : Engine) (table : TableInfo) : Engine :=
  match w.getTableDetails e.trace table.Schema table.Name with
  | .err m =>
    (e.emit (.getTableDetails table.Schema table.Name)).log .error
      ("Failed to get details for " ++ table.Schema ++ "." ++ table.Name ++ ": " ++ m)
  | .ok tableDetails =>
    createTableStep w table tableDetails
      (dropTableStep w table
        (createSchemaStep w table (e.emit (.getTableDetails table.Schema table.Name))))

/-- Creates tables in the target database. -/
def migrateSchema (w : World) : List TableInfo → Engine → Option Str × Engine
  | [], e => (none, e)
  | table :: rest, e =>
    if w.done e.trace then (some ctxErr, e)
    else migrateSchema w rest (migrateSchemaTable w e table)

/-! ### Phase 2 -/

/-- The loop of `migrateTableData` that prepares the bracketed column list and
picks the first primary-key column as order-by column. -/
def prepareColumns (cols : List ColumnInfo) : List Str × Str :=
  cols.foldl
    (fun (acc : List Str × Str) col =>
      if col.IsPrimaryKey ∧ acc.2 = "" then
        (acc.1 ++ [("[" : Str) ++ col.Name ++ "]"], ("[" : Str) ++ col.Name ++ "]")
      else (acc.1 ++ [("[" : Str) ++ col.Name ++ "]"], acc.2))
    ([], "")

/-- The order-by column of `migrateTableData`: the first primary-key column, else
the first column, else the empty string. -/
def orderByColumn (cols : List ColumnInfo) : Str :=
  if (prepareColumns cols).2 = "" ∧ (prepareColumns cols).1.length > 0 then
    (prepareColumns cols).1.headD ""
  else (prepareColumns cols).2

/-- `migrateTableData`, "Update progress" after a batch of `n` rows was copied. -/
def recordBatch (table : TableInfo) (tableName : Str) (migratedRows n : Int) (e : Engine) :
    Engine :=
  (e.setState (fun s =>
      { s with
        MigratedRows := s.MigratedRows + n,
        Tables := tablesUpdate s.Tables tableName
          (fun ts => { ts with MigratedRows := migratedRows }) })).emit
    (.progress tableName table.RowCount migratedRows)

/-- The batch loop of `migrateTableData`: returns how it ended, the local
`migratedRows`, and the engine. -/
def batchLoop (w : World) (table tableDetails : TableInfo) (tableName : Str) :
    Nat → Int → Int → Engine → Outcome × Int × Engine
  | 0, migratedRows, _, e => (.outOfFuel, migratedRows, e)
  | fuel + 1, migratedRows, offset, e =>
    if w.done e.trace then (.err ctxErr, migratedRows, e)
    else
      match w.readBatch e.trace table.Schema table.Name (prepareColumns tableDetails.Columns).1
          (orderByColumn tableDetails.Columns) offset e.config.BatchSize with
      | .err m =>
        (.err ("failed to read batch at offset " ++ fmtD offset ++ ": " ++ m), migratedRows,
          e.emit (.readBatch table.Schema table.Name (prepareColumns tableDetails.Columns).1
            (orderByColumn tableDetails.Columns) offset e.config.BatchSize))
      | .ok rows =>
        if rows.length = 0 then
          (.ok, migratedRows,
            e.emit (.readBatch table.Schema table.Name (prepareColumns tableDetails.Columns).1
              (orderByColumn tableDetails.Columns) offset e.config.BatchSize))
        else
          match w.copyFrom
              (e.emit (.readBatch table.Schema table.Name (prepareColumns tableDetails.Columns).1
                (orderByColumn tableDetails.Columns) offset e.config.BatchSize)).trace
              table.Schema table.Name (tableDetails.Columns.map (fun col => col.Name)) rows with
          | .err m =>
            (.err ("failed to insert batch at offset " ++ fmtD offset ++ ": " ++ m),
              migratedRows,
              (e.emit (.readBatch table.Schema table.Name (prepareColumns tableDetails.Columns).1
                (orderByColumn tableDetails.Columns) offset e.config.BatchSize)).emit
                (.copyFrom table.Schema table.Name
                  (tableDetails.Columns.map (fun col => col.Name)) rows (.err m)))
          | .ok n =>
            batchLoop w table tableDetails tableName fuel (migratedRows + rows.length)
              (offset + rows.length)
              (recordBatch table tableName (migratedRows + rows.length) rows.length
                ((e.emit (.readBatch table.Schema table.Name
                  (prepareColumns tableDetails.Columns).1
                  (orderByColumn tableDetails.Columns) offset e.config.BatchSize)).emit
                  (.copyFrom table.Schema table.Name
                    (tableDetails.Columns.map (fun col => col.Name)) rows (.ok n))))

/-- The loop of `migrateTableData` that syncs the sequences of identity columns. -/
def syncSequences (w : World) (table : TableInfo) (tableName : Str) (cols : List ColumnInfo)
    (e : Engine) : Engine :=
  cols.foldl
    (fun e col =>
      if col.IsIdentity then
        e.call (.syncSequence table.Schema table.Name col.Name)
          (fun h => w.syncSequence h table.Schema table.Name col.Name) .warn
          (fun m => "Failed to sync sequence for " ++ tableName ++ "." ++ col.Name ++ ": " ++ m)
      else e)
    e

/-- `migrateTableData`, the opening: the log entry and the table's fresh state. -/
def registerTable (table : TableInfo) (tableName : Str) (e : Engine) : Engine :=
  (e.log .info
      ("Migrating data for " ++ tableName ++ " (" ++ fmtD table.RowCount ++ " rows)")).setState
    (fun s =>
      { s with
        CurrentTable := tableName,
        Tables := tablesInsert s.Tables tableName
          { Name := table.Name, Schema := table.Schema, Status := .running,
            TotalRows := table.RowCount, MigratedRows := 0, Error := "" } })

/-- `migrateTableData`, "Disable triggers for faster insert". -/
def disableTriggersStep (w : World) (table : TableInfo) (tableName : Str) (e : Engine) :
    Engine :=
  e.call (.disableTriggers table.Schema table.Name)
    (fun h => w.disableTriggers h table.Schema table.Name) .warn
    (fun m => "Failed to disable triggers for " ++ tableName ++ ": " ++ m)

/-- `migrateTableData`, "Re-enable triggers". -/
def enableTriggersStep (w : World) (table : TableInfo) (tableName : Str) (e : Engine) :
    Engine :=
  e.call (.enableTriggers table.Schema table.Name)
    (fun h => w.enableTriggers h table.Schema table.Name) .warn
    (fun m => "Failed to enable triggers for " ++ tableName ++ ": " ++ m)

/-- `migrateTableData`, "Mark table as completed" and the two reports that follow. -/
def completeTable (tableName : Str) (migratedRows : Int) (e : Engine) : Engine :=
  (((e.setState (fun s =>
      { s with
        Tables := tablesUpdate s.Tables tableName
          (fun ts => { ts with Status := .completed }) })).emit
    (.tableComplete tableName migratedRows)).log .info
    ("Completed " ++ tableName ++ ": " ++ fmtD migratedRows ++ " rows migrated"))

/-- `migrateTableData` after the batch loop has ended normally. -/
def finishTable (w : World) (table tableDetails : TableInfo) (tableName : Str)
    (migratedRows : Int) (e : Engine) : Engine :=
  completeTable tableName migratedRows
    (syncSequences w table tableName tableDetails.Columns
      (enableTriggersStep w table tableName e))

/-- `migrateTableData` once the table details are known: triggers are disabled,
the batches are streamed, and only a loop that ended normally reaches the rest;
a loop that ended with an error returns that error at once. -/
def streamTable (w : World) (fuel : Nat) (table tableDetails : TableInfo) (tableName : Str)
    (e : Engine) : Outcome × Engine :=
  match batchLoop w table tableDetails tableName fuel 0 0
      (disableTriggersStep w table tableName e) with
  | (.ok, migratedRows, e) => (.ok, finishTable w table tableDetails tableName migratedRows e)
  | (out, _, e) => (out, e)

/-- Migrates data for a single table. -/
def migrateTableData (w : World) (fuel : Nat) (e : Engine) (table : TableInfo) :
    Outcome × Engine :=
  match w.getTableDetails
      (registerTable table (table.Schema ++ "." ++ table.Name) e).trace
      table.Schema table.Name with
  | .err m =>
    (.err m, (registerTable table (table.Schema ++ "." ++ table.Name) e).emit
      (.getTableDetails table.Schema table.Name))
  | .ok tableDetails =>
    streamTable w fuel table tableDetails (table.Schema ++ "." ++ table.Name)
      ((registerTable table (table.Schema ++ "." ++ table.Name) e).emit
        (.getTableDetails table.Schema table.Name))

/-- Updates overall migration progress. -/
def updateProgress (w : World) (e : Engine) : Engine :=
  e.call
    (.updateMigrationProgress e.state.TotalTables e.state.CompletedTables e.state.TotalRows
      e.state.MigratedRows)
    w.updateMigrationProgress .warn (fun m => "Failed to update progress: " ++ m)

/-- `migrateData`, the loop body after `migrateTableData` has returned `out`: an
error is logged ("Continue with other tables"), the table is counted as done and
the progress is written. -/
def afterTable (w : World) (table : TableInfo) (out : Outcome) (e : Engine) : Engine :=
  updateProgress w
    ((match out with
      | .err m =>
        e.log .error
          ("Failed to migrate data for " ++ table.Schema ++ "." ++ table.Name ++ ": " ++ m)
      | _ => e).setState (fun s => { s with CompletedTables := s.CompletedTables + 1 }))

/-- The loop over the tables of `migrateData`. -/
def migrateDataLoop (w : World) (fuel : Nat) : List TableInfo → Engine → Outcome × Engine
  | [], e => (.ok, e)
  | table :: rest, e =>
    if w.done e.trace then (.err ctxErr, e)
    else
      match migrateTableData w fuel e table with
      | (.outOfFuel, e) => (.outOfFuel, e)
      | (out, e) => migrateDataLoop w fuel rest (afterTable w table out e)

/-- Migrates data for all tables. -/
def migrateData (w : World) (fuel : Nat) (tables : List TableInfo) (e : Engine) :
    Outcome × Engine :=
  migrateDataLoop w fuel tables
    (e.setState (fun s =>
      { s with TotalRows := tables.foldl (fun (acc : Int) table => acc + table.RowCount) 0 }))

/-! ### Phases 3 and 4 -/

/-- The loop over `tableDetails.ForeignKeys` of `createForeignKeys`. -/
def createTableForeignKeys (w : World) (tableDetails : TableInfo) (fks : List ForeignKey)
    (e : Engine) : Engine :=
  fks.foldl
    (fun e fk =>
      e.call (.executeDDL (GenerateForeignKeyDDL tableDetails fk))
        (fun h => w.executeDDL h (GenerateForeignKeyDDL tableDetails fk)) .warn
        (fun m => "Failed to create foreign key " ++ fk.Name ++ ": " ++ m))
    e

/-- Creates foreign key constraints; it always returns a nil error. -/
def createForeignKeys (w : World) (tables : List TableInfo) (e : Engine) : Engine :=
  tables.foldl
    (fun e table =>
      match w.getTableDetails e.trace table.Schema table.Name with
      | .err _ => e.emit (.getTableDetails table.Schema table.Name)
      | .ok tableDetails =>
        createTableForeignKeys w tableDetails tableDetails.ForeignKeys
          (e.emit (.getTableDetails table.Schema table.Name)))
    e

/-- One of the three blocks of `migrateProgrammableObjects`: the listing call
`call` is answered by `answer`; a failure is logged as a warning, and otherwise
one warning is logged per object, `what schema.name` followed by `advice`. -/
def warnObjects (answer : List Event → Res (List (Str × Str))) (call : Event)
    (failure what advice : Str) (e : Engine) : Engine :=
  match answer e.trace with
  | .err m => (e.emit call).log .warn (failure ++ m)
  | .ok objs =>
    objs.foldl (fun e o => e.log .warn (what ++ o.1 ++ "." ++ o.2 ++ advice)) (e.emit call)

/-- `migrateProgrammableObjects`, the block for views. -/
def warnViews (w : World) (e : Engine) : Engine :=
  if e.config.IncludeViews then
    warnObjects w.getViews .getViews "Failed to get views: " "View "
      ": Manual conversion required" e
  else e

/-- `migrateProgrammableObjects`, the block for stored procedures. -/
def warnProcedures (w : World) (e : Engine) : Engine :=
  if e.config.IncludeProcedures then
    warnObjects w.getStoredProcedures .getStoredProcedures
      "Failed to get stored procedures: " "Stored procedure "
      ": Manual conversion to PL/pgSQL required" e
  else e

/-- `migrateProgrammableObjects`, the block for functions. -/
def warnFunctions (w : World) (e : Engine) : Engine :=
  if e.config.IncludeFunctions then
    warnObjects w.getFunctions .getFunctions "Failed to get functions: " "Function "
      ": Manual conversion to PL/pgSQL required" e
  else e

/-- Migrates views, procedures, and functions: advisory warnings only. -/
def migrateProgrammableObjects (w : World) (e : Engine) : Engine :=
  warnFunctions w (warnProcedures w (warnViews w e))

/-- Phase 3 of `runMigration`. -/
def phase3 (w : World) (tables : List TableInfo) (e : Engine) : Engine :=
  if e.config.IncludeSchema then
    createForeignKeys w tables (e.log .info "Phase 3: Creating foreign keys...")
  else e

/-- Phase 4 of `runMigration`. -/
def phase4 (w : World) (e : Engine) : Engine :=
  if e.config.IncludeViews ∨ e.config.IncludeProcedures ∨ e.config.IncludeFunctions then
    migrateProgrammableObjects w (e.log .info "Phase 4: Migrating programmable objects...")
  else e

/-- The completion step of `runMigration`, "Mark as completed". -/
def markCompleted (e : Engine) : Engine :=
  (((e.setState (fun s => { s with Status := .completed })).emit
    (.updateMigrationStatus .completed)).emit .complete).log .info
    "Migration completed successfully"

/-- The end of `runMigration` once Phase 2 is over: Phases 3 and 4, the
completion step, and the deferred `cleanup`. -/
def finishMigration (w : World) (tables : List TableInfo) (e : Engine) : Engine :=
  (markCompleted (phase4 w (phase3 w tables e))).cleanup

/-- A run that ends through `fail`, with the deferred `cleanup`. -/
def failMigration (message : Str) (e : Engine) : Engine := (e.fail message).cleanup

/-- Phase 2 of `runMigration` and what follows it. -/
def runData (w : World) (fuel : Nat) (tables : List TableInfo) (e : Engine) :
    Outcome × Engine :=
  if e.config.IncludeData then
    match migrateData w fuel tables (e.log .info "Phase 2: Migrating data...") with
    | (.err m, e) => (.err m, failMigration ("Data migration failed: " ++ m) e)
    | (.outOfFuel, e) => (.outOfFuel, e)
    | (.ok, e) => (.ok, finishMigration w tables e)
  else (.ok, finishMigration w tables e)

/-- Phase 1 of `runMigration` and what follows it. -/
def runSchema (w : World) (fuel : Nat) (tables : List TableInfo) (e : Engine) :
    Outcome × Engine :=
  if e.config.IncludeSchema then
    match migrateSchema w tables (e.log .info "Phase 1: Migrating schema...") with
    | (some m, e) => (.err m, failMigration ("Schema migration failed: " ++ m) e)
    | (none, e) => runData w fuel tables e
  else runData w fuel tables e

/-- `runMigration` once the tables are known: the table count is recorded and
logged, then the phases run. -/
def announceTables (tables : List TableInfo) (e : Engine) : Engine :=
  (e.setState (fun s => { s with TotalTables := tables.length })).log .info
    ("Starting migration of " ++ fmtD tables.length ++ " tables")

/-- Executes the migration workflow.  The outcome is `ok` when the run reached
the completion step, `err` when it ended through `fail`, and `outOfFuel` when
the fuel did not suffice (the run is still inside a batch loop). -/
def runMigration (w : World) (fuel : Nat) (e : Engine) : Outcome × Engine :=
  match getTablestoMigrate w e with
  | (.err m, e) => (.err m, failMigration ("Failed to get tables: " ++ m) e)
  | (.ok tables, e) => runSchema w fuel tables (announceTables tables e)

/-! ## Reading traces -/

/-- Whether the event is a write of the migration status to storage. -/
def Event.isStatusWrite : Event → Bool
  | .updateMigrationStatus _ => true
  | _ => false

/-- The statuses written to storage, in order. -/
def statusWrites : List Event → List MigrationStatus
  | [] => []
  | .updateMigrationStatus s :: rest => s :: statusWrites rest
  | _ :: rest => statusWrites rest

/-- Whether the event is a bulk-copy call. -/
def Event.isCopy : Event → Bool
  | .copyFrom _ _ _ _ _ => true
  | _ => false

/-- Whether the event executes a foreign-key statement, `ALTER TABLE ...`. -/
def Event.isFkStatement : Event → Bool
  | .executeDDL ddl => HasPrefix ddl "ALTER TABLE "
  | _ => false

/-- Whether the event is a call of `EnableTriggers` on the given table. -/
def Event.isEnableTriggers (schema name : Str) : Event → Bool
  | .enableTriggers s n => decide (s = schema ∧ n = name)
  | _ => false

/-- Whether the event is a call of `DisableTriggers` on the given table. -/
def Event.isDisableTriggers (schema name : Str) : Event → Bool
  | .disableTriggers s n => decide (s = schema ∧ n = name)
  | _ => false

/-- The number of rows handed to the bulk-copy calls of the trace that returned
without error. -/
def copiedCount : List Event → Int
  | [] => 0
  | .copyFrom _ _ _ rows (.ok _) :: rest => rows.length + copiedCount rest
  | _ :: rest => copiedCount rest

/-- The sum of the row counts returned by the bulk-copy calls of the trace that
returned without error. -/
def writtenCount : List Event → Int
  | [] => 0
  | .copyFrom _ _ _ _ (.ok n) :: rest => n + writtenCount rest
  | _ :: rest => writtenCount rest

/-- Every successful bulk-copy call of the trace returned the number of rows it
was handed (the contract of COPY: all rows or an error). -/
def copiesReturnLength : List Event → Prop
  | [] => True
  | .copyFrom _ _ _ rows (.ok n) :: rest => n = rows.length ∧ copiesReturnLength rest
  | _ :: rest => copiesReturnLength rest

/-- The row batches handed to the bulk-copy calls of the trace, in call order. -/
def copiedBatches : List Event → List (List Row)
  | [] => []
  | .copyFrom _ _ _ rows _ :: rest => rows :: copiedBatches rest
  | _ :: rest => copiedBatches rest

/-- The offsets of the read-batch calls of the trace, in call order. -/
def readOffsets : List Event → List Int
  | [] => []
  | .readBatch _ _ _ _ offset _ :: rest => offset :: readOffsets rest
  | _ :: rest => readOffsets rest

/-- The `rowsMigrated` values of the table-complete events of the trace. -/
def reportedRowsMigrated : List Event → List Int
  | [] => []
  | .tableComplete _ n :: rest => n :: reportedRowsMigrated rest
  | _ :: rest => reportedRowsMigrated rest

/-- The `migratedRows` values written by `UpdateMigrationProgress`, in order. -/
def progressWrites : List Event → List Int
  | [] => []
  | .updateMigrationProgress _ _ _ m :: rest => m :: progressWrites rest
  | _ :: rest => progressWrites rest

/-- Every `UpdateMigrationProgress` of the trace carries `m` plus the number of
rows successfully bulk-copied before it in the trace. -/
def progressAccurate : Int → List Event → Prop
  | _, [] => True
  | m, .copyFrom _ _ _ rows (.ok _) :: rest => progressAccurate (m + rows.length) rest
  | m, .updateMigrationProgress _ _ _ r :: rest => r = m ∧ progressAccurate m rest
  | m, _ :: rest => progressAccurate m rest

/-- A stretch of a run from `e` to `e'`: configuration and status are unchanged,
the trace grew by events that all satisfy `P`, `MigratedRows` grew by exactly the
rows successfully bulk-copied in that stretch, and every progress write of the
stretch carries the running total. -/
def Stretch (P : Event → Prop) (e e' : Engine) : Prop :=
  e'.config = e.config ∧ e'.state.Status = e.state.Status
    ∧ ∃ new, e'.trace = e.trace ++ new ∧ (∀ ev ∈ new, P ev)
      ∧ e'.state.MigratedRows = e.state.MigratedRows + copiedCount new
      ∧ progressAccurate e.state.MigratedRows new

/-- An event of Phases 1 and 2: neither a status write nor a foreign-key
statement. -/
def Event.early (ev : Event) : Prop := ev.isStatusWrite = false ∧ ev.isFkStatement = false

/-- An event of Phases 3 and 4: neither a status write nor a bulk copy. -/
def Event.late (ev : Event) : Prop := ev.isStatusWrite = false ∧ ev.isCopy = false

/-- An event of `migrateTableData` outside its batch loop, other than the
table-complete report: not a read, a bulk copy, or a table-complete event. -/
def Event.quiet : Event → Prop
  | .readBatch _ _ _ _ _ _ => False
  | .copyFrom _ _ _ _ _ => False
  | .tableComplete _ _ => False
  | _ => True

/-- What a run of `runMigration` from `e` to `e'` with outcome `out` did: its
events are a part `A` of Phases 1 and 2 followed by a part `B` without bulk copy;
configuration is unchanged; `A` contains no status write and no foreign-key
statement; a run out of fuel has written no status and has an empty `B`, a
completed run has written `completed` once, and a failed run has written
`failed` once and issued no foreign-key statement. -/
def RunSummary (e : Engine) (out : Outcome) (e' : Engine) : Prop :=
  ∃ A B, e'.trace = e.trace ++ (A ++ B) ∧ (∀ a ∈ A, Event.early a)
    ∧ (∀ b ∈ B, Event.isCopy b = false)
    ∧ match out with
      | .outOfFuel => B = [] ∧ e'.state.Status = e.state.Status
      | .ok => statusWrites B = [.completed] ∧ e'.state.Status = .completed
      | .err _ => statusWrites B = [.failed] ∧ e'.state.Status = .failed
          ∧ ∀ b ∈ B, Event.isFkStatement b = false

/-! ## Worlds and tables used to evaluate runs -/

/-- A configuration with schema and data migration enabled and a batch size of 2. -/
def sampleConfig : MigrationConfig :=
  { IncludeSchema := true, IncludeData := true, IncludeTables := [], ExcludeTables := [],
    IncludeViews := false, IncludeProcedures := false, IncludeFunctions := false,
    IncludeTriggers := false, BatchSize := 2, ParallelTables := 1, DropTargetIfExists := false }

/-- The table `dbo.Customers(Id INT PRIMARY KEY)`. -/
def customersTable : TableInfo :=
  { Schema := "dbo", Name := "Customers", RowCount := 3,
    Columns := [{ mkColumn "Id" "int" with IsNullable := false, IsPrimaryKey := true }],
    PrimaryKey := [("Id" : Str)], ForeignKeys := [], Indexes := [] }

/-- The table `dbo.Orders(CustomerId INT)` with its foreign key to `Customers`. -/
def ordersWithFk : TableInfo := { ordersTable with ForeignKeys := [ordersCustomerFk] }

/-- Three rows with one value each: 1, 2, 3. -/
def threeRows : List Row := [[some ("1" : Str)], [some ("2" : Str)], [some ("3" : Str)]]

/-- A world in which every call succeeds and nothing is cancelled: the source
lists `Customers` and `Orders`, each holding `threeRows`, read by offset and limit. -/
def quietWorld : World :=
  { std := asciiStd
    done := fun _ => false
    getTables := fun _ => .ok [customersTable, ordersWithFk]
    getTableDetails := fun _ _ name =>
      if name = ("Customers" : Str) then .ok customersTable else .ok ordersWithFk
    readBatch := fun _ _ _ _ _ offset limit =>
      .ok ((threeRows.drop offset.toNat).take limit.toNat)
    getViews := fun _ => .ok []
    getStoredProcedures := fun _ => .ok []
    getFunctions := fun _ => .ok []
    createSchema := fun _ _ => none
    dropTableIfExists := fun _ _ _ => none
    executeDDL := fun _ _ => none
    disableTriggers := fun _ _ _ => none
    enableTriggers := fun _ _ _ => none
    copyFrom := fun _ _ _ _ rows => .ok rows.length
    syncSequence := fun _ _ _ _ => none
    updateMigrationProgress := fun _ => none }

/-- As `quietWorld`, but every read of `Customers` fails. -/
def readFailWorld : World :=
  { quietWorld with
    readBatch := fun _ _ name _ _ offset limit =>
      if name = ("Customers" : Str) then .err "connection reset"
      else .ok ((threeRows.drop offset.toNat).take limit.toNat) }

/-- As `quietWorld`, but every bulk copy into `Customers` fails. -/
def copyFailWorld : World :=
  { quietWorld with
    copyFrom := fun _ _ name _ rows =>
      if name = ("Customers" : Str) then .err "disk full" else .ok rows.length }

/-- As `quietWorld`, but the run is cancelled once the first batch has been copied. -/
def cancelAfterFirstBatchWorld : World :=
  { quietWorld with done := fun trace => trace.any Event.isCopy }

/-- As `quietWorld`, but the context is already cancelled. -/
def cancelledWorld : World := { quietWorld with done := fun _ => true }

/-- As `cancelledWorld`, but the source lists no table, so that no loop reaches a
cancellation checkpoint. -/
def cancelledEmptyWorld : World := { cancelledWorld with getTables := fun _ => .ok [] }

/-! ## Validation (`internal/validation/validator.go`) -/

/-- Configuration for data validation (the migration id plays no part). -/
structure ValidationConfig where
  RowCountValidation : Bool
  ChecksumValidation : Bool
  SampleComparison : Bool
  SampleSize : Int
  Tables : List Str
deriving DecidableEq

/-- A difference in a column value. -/
structure ColumnDifference where
  Column : Str
  SourceValue : Str
  TargetValue : Str
deriving DecidableEq

/-- Details about a mismatched row; `DetailType` is the field `Type` of the
source: `source_error`, `missing` or `value_diff`. -/
structure MismatchDetail where
  PrimaryKey : List Value
  DetailType : Str
  ColumnDifferences : List ColumnDifference
deriving DecidableEq

/-- The result of validating a table (the duration is left out). -/
structure ValidationResult where
  TableName : Str
  RowCountMatch : Bool
  SourceRowCount : Int
  TargetRowCount : Int
  ChecksumMatch : Bool
  SourceChecksum : Str
  TargetChecksum : Str
  SampleMatches : Int
  SampleMismatches : Int
  MismatchedRows : List MismatchDetail
  Status : Str
deriving DecidableEq

/-- The queries the validator sends to the source and the target, each named by
the parameters its text is built from. -/
inductive VEvent where
  | getTableDetails (schema name : Str)
  | sourceRowCount (schema name : Str)
  | targetRowCount (schema name : Str)
  | sourceChecksum (schema name : Str) (columns : List Str) (orderBy : Str)
  | sourceRows (schema name : Str) (columns : List Str) (orderBy : Str)
  | targetChecksum (schema name : Str) (columns : List Str) (orderBy : Str)
  | sampleKeys (schema name : Str) (sampleSize : Int) (pkList : List Str) (orderBy : Str)
  | sourceRow (schema name : Str) (columns pkColumns : List Str) (keyValues : List Value)
  | targetRow (schema name : Str) (columns pkColumns : List Str) (keyValues : List Value)
deriving DecidableEq

/-- What the two databases and the library answer to the validator: each answer
may depend on the queries sent so far.  `sourceChecksum` is the aggregate
HASHBYTES query (its bytes in hexadecimal), `sourceRows` the plain SELECT of the
client-side fallback, `md5Hex` the hexadecimal MD5 digest of `crypto/md5`. -/
structure VWorld where
  std : GoStd
  md5Hex : Str → Str
  getTableDetails : List VEvent → Str → Str → Res TableInfo
  sourceRowCount : List VEvent → Str → Str → Res Int
  targetRowCount : List VEvent → Str → Str → Res Int
  sourceChecksum : List VEvent → Str → Str → List Str → Str → Res Str
  sourceRows : List VEvent → Str → Str → List Str → Str → Res (List Row)
  targetChecksum : List VEvent → Str → Str → List Str → Str → Res Str
  sampleKeys : List VEvent → Str → Str → Int → List Str → Str → Res (List (List Value))
  sourceRow : List VEvent → Str → Str → List Str → List Str → List Value → Res (List Value)
  targetRow : List VEvent → Str → Str → List Str → List Str → List Value → Res (List Value)

/-- The validator: its configuration and the queries sent so far. -/
structure Validator where
  config : ValidationConfig
  trace : List VEvent

/-- Appends a query to the trace. -/
def Validator.emit (v : Validator) (ev : VEvent) : Validator :=
  { v with trace := v.trace ++ [ev] }

/-- How a function of the validator ended: it returned a nil error, it returned
an error, or it stopped on an index expression out of range. -/
inductive Ended where
  | done
  | failed (message : Str)
  | indexOutOfRange (index length : Nat)
deriving DecidableEq

/-- The verb `%v` of `fmt.Sprintf` on a scanned value: a nil prints `<nil>`. -/
def fmtV : Value → Str
  | none => "<nil>"
  | some s => s

/-- The verb `%v` on the slice of the values of a row: `[v1 v2 ...]`. -/
def fmtRow (values : List Value) : Str := "[" ++ Join (values.map fmtV) " " ++ "]"

/-- Compares row counts between source and target. -/
def validateRowCount (w : VWorld) (v : Validator) (table : TableInfo)
    (result : ValidationResult) : Option Str × ValidationResult × Validator :=
  match w.sourceRowCount v.trace table.Schema table.Name with
  | .err m => (some m, result, v.emit (.sourceRowCount table.Schema table.Name))
  | .ok sourceCount =>
    match w.targetRowCount (v.emit (.sourceRowCount table.Schema table.Name)).trace
        table.Schema table.Name with
    | .err m =>
      (some m, { result with SourceRowCount := sourceCount },
        (v.emit (.sourceRowCount table.Schema table.Name)).emit
          (.targetRowCount table.Schema table.Name))
    | .ok targetCount =>
      (none,
        { result with
          SourceRowCount := sourceCount, TargetRowCount := targetCount,
          RowCountMatch := decide (sourceCount = targetCount) },
        (v.emit (.sourceRowCount table.Schema table.Name)).emit
          (.targetRowCount table.Schema table.Name))

/-- Whether `validateChecksum` skips a column of this type: the lower-cased type
name is image, varbinary, binary, text or ntext. -/
def skippedForChecksum (std : GoStd) (col : ColumnInfo) : Bool :=
  decide (ToLower std col.DataType = "image" ∨ ToLower std col.DataType = "varbinary"
    ∨ ToLower std col.DataType = "binary" ∨ ToLower std col.DataType = "text"
    ∨ ToLower std col.DataType = "ntext")

/-- The first loop of `validateChecksum`: the column list and the order-by column
(empty while no primary-key column has been met). -/
def checksumColumns (std : GoStd) (cols : List ColumnInfo) : List Str × Str :=
  cols.foldl
    (fun (acc : List Str × Str) col =>
      if skippedForChecksum std col then acc
      else if col.IsPrimaryKey ∧ acc.2 = "" then (acc.1 ++ [col.Name], col.Name)
      else (acc.1 ++ [col.Name], acc.2))
    ([], "")

/-- The order-by column of `validateChecksum` once the column list is known to
be non-empty: `columns[0]` when no primary-key column was met. -/
def checksumOrderBy (std : GoStd) (cols : List ColumnInfo) : Str :=
  if (checksumColumns std cols).2 = "" then (checksumColumns std cols).1.headD ""
  else (checksumColumns std cols).2

/-- Calculates a simple checksum by hashing row data on the client. -/
def calculateSimpleChecksum (w : VWorld) (v : Validator) (schema tableName : Str)
    (columns : List Str) (orderBy : Str) : Res Str × Validator :=
  match w.sourceRows v.trace schema tableName columns orderBy with
  | .err m => (.err m, v.emit (.sourceRows schema tableName columns orderBy))
  | .ok rows =>
    (.ok (w.md5Hex (rows.map fmtRow).flatten),
      v.emit (.sourceRows schema tableName columns orderBy))

/-- Calculates the checksum of the source table: the aggregate query, and the
client-side fallback when that query fails. -/
def calculateSourceChecksum (w : VWorld) (v : Validator) (schema tableName : Str)
    (columns : List Str) (orderBy : Str) : Res Str × Validator :=
  match w.sourceChecksum v.trace schema tableName columns orderBy with
  | .err _ =>
    calculateSimpleChecksum w (v.emit (.sourceChecksum schema tableName columns orderBy))
      schema tableName columns orderBy
  | .ok checksum => (.ok checksum, v.emit (.sourceChecksum schema tableName columns orderBy))

/-- `validateChecksum` once the column list and the order-by column are chosen. -/
def compareChecksums (w : VWorld) (v : Validator) (table : TableInfo)
    (result : ValidationResult) (columns : List Str) (orderByCol : Str) :
    Option Str × ValidationResult × Validator :=
  match calculateSourceChecksum w v table.Schema table.Name columns orderByCol with
  | (.err m, v) => (some m, result, v)
  | (.ok sourceChecksum, v) =>
    match w.targetChecksum v.trace table.Schema table.Name columns orderByCol with
    | .err m =>
      (some m, { result with SourceChecksum := sourceChecksum },
        v.emit (.targetChecksum table.Schema table.Name columns orderByCol))
    | .ok targetChecksum =>
      (none,
        { result with
          SourceChecksum := sourceChecksum, TargetChecksum := targetChecksum,
          ChecksumMatch := decide (sourceChecksum = targetChecksum) },
        v.emit (.targetChecksum table.Schema table.Name columns orderByCol))

/-- Compares checksums between source and target. -/
def validateChecksum (w : VWorld) (v : Validator) (table : TableInfo)
    (result : ValidationResult) : Option Str × ValidationResult × Validator :=
  if (checksumColumns w.std table.Columns).1.length = 0 then
    (some "no comparable columns found", result, v)
  else
    compareChecksums w v table result (checksumColumns w.std table.Columns).1
      (checksumOrderBy w.std table.Columns)

/-- The sample size of `validateSampleData`: 100 when the configured one is not
positive. -/
def effectiveSampleSize (config : ValidationConfig) : Int :=
  if config.SampleSize ≤ 0 then 100 else config.SampleSize

/-- The first loop of `validateSampleData`: all column names, and the names of
the columns flagged as primary-key members. -/
def sampleColumns (cols : List ColumnInfo) : List Str × List Str :=
  cols.foldl
    (fun (acc : List Str × List Str) col =>
      if col.IsPrimaryKey then (acc.1 ++ [col.Name], acc.2 ++ [col.Name])
      else (acc.1 ++ [col.Name], acc.2))
    ([], [])

/-- The loop "Compare values" of `compareRow`: `sourceValues` and `targetValues`
are the slots the two scans filled (a slot that was not filled is nil). -/
def columnDiffs (columns : List Str) (sourceValues targetValues : List Value) :
    List ColumnDifference :=
  columns.enum.foldl
    (fun (diffs : List ColumnDifference) (ic : Nat × Str) =>
      if valuesEqual (sourceValues.getD ic.1 none) (targetValues.getD ic.1 none) then diffs
      else
        diffs ++ [{ Column := ic.2, SourceValue := fmtV (sourceValues.getD ic.1 none),
                    TargetValue := fmtV (targetValues.getD ic.1 none) }])
    []

/-- Compares a single row between source and target. -/
def compareRow (w : VWorld) (v : Validator) (table : TableInfo) (columns pkColumns : List Str)
    (keyValues : List Value) : (Bool × Option MismatchDetail) × Validator :=
  match w.sourceRow v.trace table.Schema table.Name columns pkColumns keyValues with
  | .err _ =>
    ((false, some { PrimaryKey := keyValues, DetailType := "source_error",
                    ColumnDifferences := [] }),
      v.emit (.sourceRow table.Schema table.Name columns pkColumns keyValues))
  | .ok sourceValues =>
    match w.targetRow
        (v.emit (.sourceRow table.Schema table.Name columns pkColumns keyValues)).trace
        table.Schema table.Name columns pkColumns keyValues with
    | .err _ =>
      ((false, some { PrimaryKey := keyValues, DetailType := "missing",
                      ColumnDifferences := [] }),
        (v.emit (.sourceRow table.Schema table.Name columns pkColumns keyValues)).emit
          (.targetRow table.Schema table.Name columns pkColumns keyValues))
    | .ok targetValues =>
      (if (columnDiffs columns sourceValues targetValues).length > 0 then
          (false, some { PrimaryKey := keyValues, DetailType := "value_diff",
                         ColumnDifferences := columnDiffs columns sourceValues targetValues })
        else (true, none),
        (v.emit (.sourceRow table.Schema table.Name columns pkColumns keyValues)).emit
          (.targetRow table.Schema table.Name columns pkColumns keyValues))

/-- The counters `matches`, `mismatches` and `mismatchDetails` of the loop
"Compare each sample row". -/
structure SampleTally where
  matchCount : Int
  mismatchCount : Int
  mismatchDetails : List MismatchDetail
deriving DecidableEq

/-- One round of the loop "Compare each sample row". -/
def tallyRow (tally : SampleTally) (outcome : Bool × Option MismatchDetail) : SampleTally :=
  if outcome.1 then { tally with matchCount := tally.matchCount + 1 }
  else
    match outcome.2 with
    | some detail =>
      { tally with
        mismatchCount := tally.mismatchCount + 1,
        mismatchDetails := tally.mismatchDetails ++ [detail] }
    | none => { tally with mismatchCount := tally.mismatchCount + 1 }

/-- The loop "Compare each sample row" of `validateSampleData`. -/
def compareSamples (w : VWorld) (table : TableInfo) (columns pkColumns : List Str) :
    List (List Value) → SampleTally → Validator → SampleTally × Validator
  | [], tally, v => (tally, v)
  | keyValues :: rest, tally, v =>
    compareSamples w table columns pkColumns rest
      (tallyRow tally (compareRow w v table columns pkColumns keyValues).1)
      (compareRow w v table columns pkColumns keyValues).2

/-- The end of `validateSampleData`: the counters are stored and the details are
limited to the first 10. -/
def storeTally (result : ValidationResult) (tally : SampleTally) : ValidationResult :=
  { result with
    SampleMatches := tally.matchCount, SampleMismatches := tally.mismatchCount,
    MismatchedRows :=
      if tally.mismatchDetails.length > 10 then tally.mismatchDetails.take 10
      else tally.mismatchDetails }

/-- `validateSampleData` once the key columns are known: the bracketed key list
is built, `pkList[0]` is taken as order-by column, the sample keys are read and
each sampled row is compared. -/
def sampleWithKeys (w : VWorld) (v : Validator) (table : TableInfo)
    (result : ValidationResult) (columns pkColumns : List Str) :
    Ended × ValidationResult × Validator :=
  match (pkColumns.map (fun pk => ("[" : Str) ++ pk ++ "]"))[0]? with
  | none => (.indexOutOfRange 0 pkColumns.length, result, v)
  | some orderBy =>
    match w.sampleKeys v.trace table.Schema table.Name (effectiveSampleSize v.config)
        (pkColumns.map (fun pk => ("[" : Str) ++ pk ++ "]")) orderBy with
    | .err m =>
      (.failed m, result,
        v.emit (.sampleKeys table.Schema table.Name (effectiveSampleSize v.config)
          (pkColumns.map (fun pk => ("[" : Str) ++ pk ++ "]")) orderBy))
    | .ok sampleKeys =>
      (.done,
        storeTally result
          (compareSamples w table columns pkColumns sampleKeys ⟨0, 0, []⟩
            (v.emit (.sampleKeys table.Schema table.Name (effectiveSampleSize v.config)
              (pkColumns.map (fun pk => ("[" : Str) ++ pk ++ "]")) orderBy))).1,
        (compareSamples w table columns pkColumns sampleKeys ⟨0, 0, []⟩
          (v.emit (.sampleKeys table.Schema table.Name (effectiveSampleSize v.config)
            (pkColumns.map (fun pk => ("[" : Str) ++ pk ++ "]")) orderBy))).2)

/-- Compares sample rows between source and target.  When no column is flagged
as primary key the key is `columns[0]`, an index expression that is out of range
on an empty column list. -/
def validateSampleData (w : VWorld) (v : Validator) (table : TableInfo)
    (result : ValidationResult) : Ended × ValidationResult × Validator :=
  if (sampleColumns table.Columns).2.length = 0 then
    match (sampleColumns table.Columns).1[0]? with
    | none => (.indexOutOfRange 0 (sampleColumns table.Columns).1.length, result, v)
    | some first =>
      sampleWithKeys w v table result (sampleColumns table.Columns).1
        ((sampleColumns table.Columns).2 ++ [first])
  else
    sampleWithKeys w v table result (sampleColumns table.Columns).1
      (sampleColumns table.Columns).2

/-- The result `validateTable` starts from. -/
def freshResult (table : TableInfo) : ValidationResult :=
  { TableName := table.Schema ++ "." ++ table.Name, RowCountMatch := false,
    SourceRowCount := 0, TargetRowCount := 0, ChecksumMatch := false, SourceChecksum := "",
    TargetChecksum := "", SampleMatches := 0, SampleMismatches := 0, MismatchedRows := [],
    Status := "success" }

/-- `validateTable`, "1. Row count validation". -/
def rowCountStep (w : VWorld) (table : TableInfo) (rv : ValidationResult × Validator) :
    ValidationResult × Validator :=
  if rv.2.config.RowCountValidation then
    match validateRowCount w rv.2 table rv.1 with
    | (some _, result, v) => ({ result with Status := "warning" }, v)
    | (none, result, v) => (result, v)
  else rv

/-- `validateTable`, "2. Checksum validation". -/
def checksumStep (w : VWorld) (tableDetails : TableInfo) (rv : ValidationResult × Validator) :
    ValidationResult × Validator :=
  if rv.2.config.ChecksumValidation then
    match validateChecksum w rv.2 tableDetails rv.1 with
    | (some _, result, v) => ({ result with Status := "warning" }, v)
    | (none, result, v) => (result, v)
  else rv

/-- `validateTable`, "3. Sample data comparison". -/
def sampleStep (w : VWorld) (tableDetails : TableInfo) (rv : ValidationResult × Validator) :
    Ended × ValidationResult × Validator :=
  if rv.2.config.SampleComparison then
    match validateSampleData w rv.2 tableDetails rv.1 with
    | (.done, result, v) => (.done, result, v)
    | (.failed _, result, v) => (.done, { result with Status := "warning" }, v)
    | (.indexOutOfRange i n, result, v) => (.indexOutOfRange i n, result, v)
  else (.done, rv.1, rv.2)

/-- `validateTable`, "Determine final status". -/
def finalStatus (result : ValidationResult) : ValidationResult :=
  if !result.RowCountMatch || !result.ChecksumMatch || decide (result.SampleMismatches > 0) then
    { result with Status := "mismatch" }
  else result

/-- Validates a single table. -/
def validateTable (w : VWorld) (v : Validator) (table : TableInfo) :
    Ended × ValidationResult × Validator :=
  match w.getTableDetails v.trace table.Schema table.Name with
  | .err m =>
    (.failed m, { freshResult table with Status := "error" },
      v.emit (.getTableDetails table.Schema table.Name))
  | .ok tableDetails =>
    match sampleStep w tableDetails
        (checksumStep w tableDetails
          (rowCountStep w table
            (freshResult table, v.emit (.getTableDetails table.Schema table.Name)))) with
    | (.done, result, v) => (.done, finalStatus result, v)
    | (out, result, v) => (out, result, v)

/-! ## Worlds and tables used to evaluate validations -/

/-- The table `dbo.Contacts(Id INT PRIMARY KEY, Email NVARCHAR(100))`. -/
def contactsTable : TableInfo :=
  { Schema := "dbo", Name := "Contacts", RowCount := 1,
    Columns :=
      [{ mkColumn "Id" "int" with IsNullable := false, IsPrimaryKey := true },
       { mkColumn "Email" "nvarchar" with MaxLength := 200 }],
    PrimaryKey := [("Id" : Str)], ForeignKeys := [], Indexes := [] }

/-- A table descriptor `dbo.Empty` without any column. -/
def emptyTable : TableInfo :=
  { Schema := "dbo", Name := "Empty", RowCount := 0, Columns := [], PrimaryKey := [],
    ForeignKeys := [], Indexes := [] }

/-- All three sub-checks enabled, sample size left at its default. -/
def fullValidation : ValidationConfig :=
  { RowCountValidation := true, ChecksumValidation := true, SampleComparison := true,
    SampleSize := 0, Tables := [] }

/-- Only the row-count sub-check enabled. -/
def rowCountOnly : ValidationConfig :=
  { RowCountValidation := true, ChecksumValidation := false, SampleComparison := false,
    SampleSize := 0, Tables := [] }

/-- Source and target agree on `Contacts`: one row `(7, a@x)` on both sides, equal
row counts and equal checksums. -/
def agreeingWorld : VWorld :=
  { std := asciiStd
    md5Hex := fun _ => "0cc175b9c0f1b6a831c399e269772661"
    getTableDetails := fun _ _ _ => .ok contactsTable
    sourceRowCount := fun _ _ _ => .ok 1
    targetRowCount := fun _ _ _ => .ok 1
    sourceChecksum := fun _ _ _ _ _ =>
      .ok "ca978112ca1bbdcafac231b39a23dc4da786eff8147c4e72b9807785afee48bb"
    sourceRows := fun _ _ _ _ _ => .ok [[some ("7" : Str), some ("a@x" : Str)]]
    targetChecksum := fun _ _ _ _ _ =>
      .ok "ca978112ca1bbdcafac231b39a23dc4da786eff8147c4e72b9807785afee48bb"
    sampleKeys := fun _ _ _ _ _ _ => .ok [[some ("7" : Str)]]
    sourceRow := fun _ _ _ _ _ _ => .ok [some ("7" : Str), some ("a@x" : Str)]
    targetRow := fun _ _ _ _ _ _ => .ok [some ("7" : Str), some ("a@x" : Str)] }

/-- As `agreeingWorld`, but the source row is `(7, A@x)` and the source checksum
differs from the target one. -/
def emailCaseWorld : VWorld :=
  { agreeingWorld with
    sourceChecksum := fun _ _ _ _ _ =>
      .ok "3e23e8160039594a33894f6564e1b1348bbd7a0088d42c4acb73eeaed59c009d"
    sourceRow := fun _ _ _ _ _ _ => .ok [some ("7" : Str), some ("A@x" : Str)] }

/-- As `agreeingWorld`, but the aggregate query of the source fails, so that the
source checksum comes from the client-side fallback. -/
def fallbackWorld : VWorld :=
  { agreeingWorld with sourceChecksum := fun _ _ _ _ _ => .err "STRING_AGG is not recognized" }

/-- As `agreeingWorld`, but the row count of the source cannot be read. -/
def countErrorWorld : VWorld :=
  { agreeingWorld with sourceRowCount := fun _ _ _ => .err "timeout" }

/-- As `agreeingWorld`, but the source describes the table without any column. -/
def emptyColumnsWorld : VWorld :=
  { agreeingWorld with getTableDetails := fun _ _ _ => .ok emptyTable }

/-! ## Worlds and tables used to evaluate runs with a failing or empty table -/

/-- The table `dbo.Events(At DATETIME2(7))`, whose column makes the converter warn. -/
def eventsTable : TableInfo :=
  { Schema := "dbo", Name := "Events", RowCount := 3,
    Columns := [{ mkColumn "At" "datetime2" with Scale := 7 }],
    PrimaryKey := [], ForeignKeys := [], Indexes := [] }

/-- As `quietWorld` with the tables `Events` and `Customers`. -/
def eventsWorld : World :=
  { quietWorld with
    getTables := fun _ => .ok [eventsTable, customersTable]
    getTableDetails := fun _ _ name =>
      if name = ("Events" : Str) then .ok eventsTable else .ok customersTable }

/-- As `eventsWorld`, but the CREATE TABLE of `Events` fails. -/
def createFailWorld : World :=
  { eventsWorld with
    executeDDL := fun _ ddl =>
      if HasPrefix ddl "CREATE TABLE \"dbo\".\"Events\"" then some "permission denied"
      else none }

/-- As `quietWorld` with the tables `Empty` and `Customers`, where a read of
`Empty` fails as a query without column list does. -/
def emptyTableWorld : World :=
  { quietWorld with
    getTables := fun _ => .ok [emptyTable, customersTable]
    getTableDetails := fun _ _ name =>
      if name = ("Empty" : Str) then .ok emptyTable else .ok customersTable
    readBatch := fun _ _ name _ _ offset limit =>
      if name = ("Empty" : Str) then .err "incorrect syntax near FROM"
      else .ok ((threeRows.drop offset.toNat).take limit.toNat) }

/-- Twelve sample keys `0` to `11`. -/
def twelveKeys : List (List Value) := (List.range 12).map (fun i => [some (Nat.toDigits 10 i)])

/-- As `agreeingWorld`, but twelve keys are sampled and none is found on the target. -/
def missingRowsWorld : VWorld :=
  { agreeingWorld with
    sampleKeys := fun _ _ _ _ _ _ => .ok twelveKeys
    targetRow := fun _ _ _ _ _ _ => .err "no rows in result set" }

/-! ## Reading validations and runs -/

/-- The outcomes of `compareRow` on the sampled keys, in sample order, each at the
validator state the preceding comparisons have left. -/
def sampleOutcomes (w : VWorld) (table : TableInfo) (columns pkColumns : List Str) :
    List (List Value) → Validator → List (Bool × Option MismatchDetail)
  | [], _ => []
  | keyValues :: rest, v =>
    (compareRow w v table columns pkColumns keyValues).1
      :: sampleOutcomes w table columns pkColumns rest
          (compareRow w v table columns pkColumns keyValues).2

/-- Whether the event is a checksum query (aggregate, fallback or target) for
the given table, column list and order-by column. -/
def VEvent.isChecksumOf (schema name : Str) (columns : List Str) (orderBy : Str) :
    VEvent → Bool
  | .sourceChecksum s n c o => decide (s = schema ∧ n = name ∧ c = columns ∧ o = orderBy)
  | .sourceRows s n c o => decide (s = schema ∧ n = name ∧ c = columns ∧ o = orderBy)
  | .targetChecksum s n c o => decide (s = schema ∧ n = name ∧ c = columns ∧ o = orderBy)
  | _ => false

/-- Whether the event is a bulk-copy call on the given table. -/
def Event.isCopyOf (schema name : Str) : Event → Bool
  | .copyFrom s n _ _ _ => decide (s = schema ∧ n = name)
  | _ => false

/-- The messages logged at the given level, in order. -/
def loggedAt (level : LogLevel) : List Event → List Str
  | [] => []
  | .log l m :: rest => if l = level then m :: loggedAt level rest else loggedAt level rest
  | _ :: rest => loggedAt level rest

/-! ## Worlds and tables used to evaluate the remaining cases -/

/-- As `quietWorld`, but every bulk copy reports one row written, whatever it
was handed. -/
def shortCopyWorld : World := { quietWorld with copyFrom := fun _ _ _ _ _ => .ok 1 }

/-- A column whose name carries double quotes and the words of a foreign-key
clause. -/
def clauseNameColumn : ColumnInfo :=
  mkColumn "a\" INTEGER, FOREIGN KEY (\"a\") REFERENCES \"dbo\".\"U\" (\"b\"), \"c" "int"

/-- The table `dbo.T` with the single column `clauseNameColumn`. -/
def clauseNameTable : TableInfo :=
  { Schema := "dbo", Name := "T", RowCount := 0, Columns := [clauseNameColumn],
    PrimaryKey := [], ForeignKeys := [], Indexes := [] }

/-- As `quietWorld` with the single table `clauseNameTable`. -/
def clauseNameWorld : World :=
  { quietWorld with
    getTables := fun _ => .ok [clauseNameTable]
    getTableDetails := fun _ _ _ => .ok clauseNameTable }

/-- The row stored under a key in a list of keyed rows, as a single-row query
answers: the row, or an error when there is none. -/
def rowOf (rows : List (List Value × List Value)) (key : List Value) : Res (List Value) :=
  match rows.find? (fun r => decide (r.1 = key)) with
  | some r => .ok r.2
  | none => .err "no rows in result set"

/-- A source and a target that each hold the given keyed rows of `Contacts`: the
sample keys are the keys of the source, and a row is found on a side exactly
when that side holds its key.  The other answers are those of `agreeingWorld`. -/
def keyedWorld (source target : List (List Value × List Value)) : VWorld :=
  { agreeingWorld with
    sampleKeys := fun _ _ _ _ _ _ => .ok (source.map (fun r => r.1))
    sourceRow := fun _ _ _ _ _ key => rowOf source key
    targetRow := fun _ _ _ _ _ key => rowOf target key }

/-- The keyed row `7 ↦ (7, a@x)`. -/
def contactSeven : List (List Value × List Value) :=
  [([some ("7" : Str)], [some ("7" : Str), some ("a@x" : Str)])]

/-! ## Independence of the produced text from the warning state -/

theorem MapType_fst (std : GoStd) (tm : TypeMapper) (col : ColumnInfo) :
    (MapType std tm col).1 = (mapTypeSwitch (ToLower std col.DataType) col).1 := rfl

theorem MapDefaultValue_fst (std : GoStd) (tm : TypeMapper) (d t : Str) :
    (MapDefaultValue std tm d t).1 = (mapDefaultBody std d t).1 := rfl

theorem mapDefaultRest_fst_of_not_N (std : GoStd) (d : Str) (h : HasPrefix d "N'" = false) :
    (mapDefaultRest std d).1 = d := by
  unfold mapDefaultRest
  split_ifs <;> simp_all

/-- The text of a column definition in closed form: name and type, then
`NOT NULL` and the `DEFAULT` clause under their guards. -/
theorem GenerateColumnDDL_fst (std : GoStd) (tm : TypeMapper) (col : ColumnInfo) :
    (GenerateColumnDDL std tm col).1
      = Join
          ([quoteIdent col.Name, (mapTypeSwitch (ToLower std col.DataType) col).1]
            ++ (if col.IsNullable = false
                  ∧ HasSuffix (mapTypeSwitch (ToLower std col.DataType) col).1 "SERIAL" = false
                then [("NOT NULL" : Str)] else [])
            ++ (match col.DefaultValue with
                | some dv =>
                  if HasSuffix (mapTypeSwitch (ToLower std col.DataType) col).1 "SERIAL" = false
                      ∧ (mapDefaultBody std dv col.DataType).1 ≠ []
                  then [("DEFAULT" : Str), (mapDefaultBody std dv col.DataType).1] else []
                | none => []))
          " " := by
  unfold GenerateColumnDDL
  simp only [MapType_fst, MapDefaultValue_fst]
  generalize (mapTypeSwitch (ToLower std col.DataType) col).1 = pg
  generalize HasSuffix pg "SERIAL" = ser
  cases col.DefaultValue with
  | none => cases col.IsNullable <;> cases ser <;> rfl
  | some dv =>
    simp only []
    generalize (mapDefaultBody std dv col.DataType).1 = out
    by_cases ho : out = []
    · subst ho
      cases col.IsNullable <;> cases ser <;> rfl
    · cases col.IsNullable <;> cases ser <;> simp [ho]

theorem GenerateColumnDDL_fst_indep (std : GoStd) (tm tm' : TypeMapper) (col : ColumnInfo) :
    (GenerateColumnDDL std tm col).1 = (GenerateColumnDDL std tm' col).1 := by
  rw [GenerateColumnDDL_fst, GenerateColumnDDL_fst]

/-- Evaluation of a column definition from the mapped type and the mapped default. -/
theorem GenerateColumnDDL_of (std : GoStd) (tm : TypeMapper) (col : ColumnInfo)
    (pg dv out : Str) (hT : (MapType std tm col).1 = pg) (hdv : col.DefaultValue = some dv)
    (hD : (MapDefaultValue std tm dv col.DataType).1 = out) :
    (GenerateColumnDDL std tm col).1
      = Join
          ([quoteIdent col.Name, pg]
            ++ (if col.IsNullable = false ∧ HasSuffix pg "SERIAL" = false
                then [("NOT NULL" : Str)] else [])
            ++ (if HasSuffix pg "SERIAL" = false ∧ out ≠ []
                then [("DEFAULT" : Str), out] else []))
          " " := by
  rw [MapType_fst] at hT
  rw [MapDefaultValue_fst] at hD
  rw [GenerateColumnDDL_fst, hdv]
  simp only [hT, hD]

theorem columnDefsLoop_fst (std : GoStd) (cols : List ColumnInfo) (acc : List Str)
    (tm : TypeMapper) :
    (columnDefsLoop std cols acc tm).1
      = acc ++ cols.map (fun c => ("    " : Str) ++ (GenerateColumnDDL std NewTypeMapper c).1) := by
  induction cols generalizing acc tm with
  | nil => simp [columnDefsLoop]
  | cons c cs ih =>
    have step : columnDefsLoop std (c :: cs) acc tm
        = columnDefsLoop std cs (acc ++ [("    " : Str) ++ (GenerateColumnDDL std tm c).1])
            (GenerateColumnDDL std tm c).2 := rfl
    rw [step, ih, GenerateColumnDDL_fst_indep std tm NewTypeMapper c]
    simp

/-! ## C1: the CREATE TABLE statement -/

/-- C1. For the table `dbo.Users` (Id int identity, Name nvarchar(100) not null,
primary key Id) the generated DDL, with every run of whitespace collapsed to one
space, is exactly the expected statement.  For every table, the output is the
header `CREATE TABLE "schema"."name" (`, one line per column in column order,
then a `PRIMARY KEY (...)` line exactly when the key list is non-empty, the lines
joined by commas, and a closing parenthesis as the last character. -/
theorem create_table_ddl_shape :
    (∀ (std : GoStd) (tm : TypeMapper),
      collapseWhitespace (GenerateCreateTableDDL std tm usersTable).1
        = ("CREATE TABLE \"dbo\".\"Users\" ( \"Id\" SERIAL, \"Name\" VARCHAR(50) NOT NULL, PRIMARY KEY (\"Id\") )" : Str))
    ∧ (∀ (std : GoStd) (tm : TypeMapper) (table : TableInfo),
      (GenerateCreateTableDDL std tm table).1
        = ("CREATE TABLE \"" : Str) ++ table.Schema ++ "\".\"" ++ table.Name ++ "\" (\n"
          ++ Join
              (table.Columns.map
                  (fun c => ("    " : Str) ++ (GenerateColumnDDL std NewTypeMapper c).1)
                ++ (if table.PrimaryKey = [] then []
                    else [("    PRIMARY KEY (" : Str)
                      ++ Join (table.PrimaryKey.map quoteIdent) ", " ++ ")"]))
              ",\n"
          ++ "\n)"
      ∧ (GenerateCreateTableDDL std tm table).1.getLast? = some ')') := by
  have shape : ∀ (std : GoStd) (tm : TypeMapper) (table : TableInfo),
      (GenerateCreateTableDDL std tm table).1
        = ("CREATE TABLE \"" : Str) ++ table.Schema ++ "\".\"" ++ table.Name ++ "\" (\n"
          ++ Join
              (table.Columns.map
                  (fun c => ("    " : Str) ++ (GenerateColumnDDL std NewTypeMapper c).1)
                ++ (if table.PrimaryKey = [] then []
                    else [("    PRIMARY KEY (" : Str)
                      ++ Join (table.PrimaryKey.map quoteIdent) ", " ++ ")"]))
              ",\n"
          ++ "\n)" := by
    intro std tm table
    unfold GenerateCreateTableDDL
    simp only [columnDefsLoop_fst, List.nil_append]
    by_cases hpk : table.PrimaryKey = []
    · simp [hpk]
    · have hlen : table.PrimaryKey.length > 0 := List.length_pos.mpr hpk
      simp [hpk, hlen]
  refine ⟨?_, fun std tm table => ⟨shape std tm table, ?_⟩⟩
  · intro std tm
    rw [shape]
    rfl
  · rw [shape, List.getLast?_append]
    rfl


/-! ## C2: recognised date and uuid functions -/

/-- C2 (evaluation at the failing inputs). The default `(getdate())` on a
datetime column and the bare default `getdate()` are both translated to
`getdate(`: the trailing `)` of the call is trimmed and the function is no longer
recognised, so the column DDL is `"CreatedAt" TIMESTAMP(3) DEFAULT getdate(`;
likewise `(newid())` gives `"Ref" UUID DEFAULT newid(`.  Only the doubly wrapped
`((getdate()))` reaches `CURRENT_TIMESTAMP`. -/
theorem default_function_call_trimmed :
    (∀ (std : GoStd) (tm : TypeMapper),
      (MapDefaultValue std tm "(getdate())" "datetime").1 = ("getdate(" : Str))
    ∧ (∀ (std : GoStd) (tm : TypeMapper),
      (MapDefaultValue std tm "getdate()" "datetime").1 = ("getdate(" : Str))
    ∧ (∀ (std : GoStd) (tm : TypeMapper),
      (MapDefaultValue std tm "(newid())" "uniqueidentifier").1 = ("newid(" : Str))
    ∧ (∀ (std : GoStd) (tm : TypeMapper),
      (GenerateColumnDDL std tm createdAtColumn).1
        = ("\"CreatedAt\" TIMESTAMP(3) DEFAULT getdate(" : Str))
    ∧ (∀ (std : GoStd) (tm : TypeMapper),
      (GenerateColumnDDL std tm refColumn).1 = ("\"Ref\" UUID DEFAULT newid(" : Str))
    ∧ (∀ (std : GoStd) (tm : TypeMapper),
      (MapDefaultValue std tm "((getdate()))" "datetime").1 = ("CURRENT_TIMESTAMP" : Str)) := by
  refine ⟨fun std _ => ?_, fun std _ => ?_, fun std _ => ?_, fun std tm => ?_,
    fun std tm => ?_, fun _ _ => rfl⟩
  · exact mapDefaultRest_fst_of_not_N std "getdate(" (by decide)
  · exact mapDefaultRest_fst_of_not_N std "getdate(" (by decide)
  · exact mapDefaultRest_fst_of_not_N std "newid(" (by decide)
  · exact (GenerateColumnDDL_of std tm createdAtColumn "TIMESTAMP(3)" "(getdate())" "getdate("
      rfl rfl (mapDefaultRest_fst_of_not_N std "getdate(" (by decide))).trans (by decide)
  · exact (GenerateColumnDDL_of std tm refColumn "UUID" "(newid())" "newid("
      rfl rfl (mapDefaultRest_fst_of_not_N std "newid(" (by decide))).trans (by decide)


/-! ## Lemmas on the default-value rules -/

theorem TrimPrefix_of_not (s p : Str) (h : HasPrefix s p = false) : TrimPrefix s p = s := by
  unfold TrimPrefix
  rw [h]
  rfl

theorem TrimSuffix_of_not (s p : Str) (h : HasSuffix s p = false) : TrimSuffix s p = s := by
  unfold TrimSuffix
  rw [h]
  rfl

theorem stripOuterParens_noop (s : Str) (h1 : HasPrefix s "(" = false)
    (h2 : HasSuffix s ")" = false) : stripOuterParens s = s := by
  unfold stripOuterParens
  simp only [TrimPrefix_of_not s _ h1, TrimSuffix_of_not s _ h2]

/-- A trimmed default that no rule recognises and that does not start with `N'`
is returned as it is. -/
theorem mapDefaultRules_passthrough (std : GoStd) (d t l : Str) (hl : ToLower std d = l)
    (h : ¬ (l = "getdate()" ∨ l = "current_timestamp") ∧ l ≠ "getutcdate()" ∧ l ≠ "newid()"
      ∧ l ≠ "newsequentialid()" ∧ l ≠ "sysdatetime()" ∧ l ≠ "sysutcdatetime()"
      ∧ HasPrefix l "convert(" = false ∧ HasPrefix l "cast(" = false ∧ l ≠ "null"
      ∧ HasPrefix d "N'" = false)
    (hbit : ToLower std t = "bit" → ¬ (d = "1" ∨ l = "'1'") ∧ ¬ (d = "0" ∨ l = "'0'")) :
    (mapDefaultRules std d t).1 = d := by
  obtain ⟨h1, h2, h3, h4, h5, h6, h7, h8, h9, h12⟩ := h
  unfold mapDefaultRules
  simp only [hl, if_neg h1, if_neg h2, if_neg h3, if_neg h4, if_neg h5, if_neg h6, h7, h8,
    if_neg h9, Bool.false_eq_true, if_false]
  by_cases cb : ToLower std t = "bit"
  · rw [if_pos cb, if_neg (hbit cb).1, if_neg (hbit cb).2]
    exact mapDefaultRest_fst_of_not_N std d h12
  · rw [if_neg cb]
    exact mapDefaultRest_fst_of_not_N std d h12

/-- Either the rules return one of their constants, or they fall through to the
numeric / string / pass-through tail. -/
theorem mapDefaultRules_cases (std : GoStd) (d t : Str) :
    ((mapDefaultRules std d t).1 = "CURRENT_TIMESTAMP"
      ∨ (mapDefaultRules std d t).1 = "CURRENT_TIMESTAMP AT TIME ZONE 'UTC'"
      ∨ (mapDefaultRules std d t).1 = "gen_random_uuid()"
      ∨ (mapDefaultRules std d t).1 = ""
      ∨ (mapDefaultRules std d t).1 = "NULL"
      ∨ (mapDefaultRules std d t).1 = "TRUE"
      ∨ (mapDefaultRules std d t).1 = "FALSE")
    ∨ mapDefaultRules std d t = mapDefaultRest std d := by
  by_cases c1 : ToLower std d = "getdate()" ∨ ToLower std d = "current_timestamp"
  · refine Or.inl (Or.inl ?_)
    simp only [mapDefaultRules, c1, Bool.false_eq_true, ↓reduceIte]
  by_cases c2 : ToLower std d = "getutcdate()"
  · refine Or.inl (Or.inr (Or.inl ?_))
    simp only [mapDefaultRules, c1, c2, Bool.false_eq_true, ↓reduceIte]
    rfl
  by_cases c3 : ToLower std d = "newid()"
  · refine Or.inl (Or.inr (Or.inr (Or.inl ?_)))
    simp only [mapDefaultRules, c1, c2, c3, Bool.false_eq_true, ↓reduceIte]
    rfl
  by_cases c4 : ToLower std d = "newsequentialid()"
  · refine Or.inl (Or.inr (Or.inr (Or.inl ?_)))
    simp only [mapDefaultRules, c1, c2, c3, c4, Bool.false_eq_true, ↓reduceIte]
    rfl
  by_cases c5 : ToLower std d = "sysdatetime()"
  · refine Or.inl (Or.inl ?_)
    simp only [mapDefaultRules, c1, c2, c3, c4, c5, Bool.false_eq_true, ↓reduceIte]
    rfl
  by_cases c6 : ToLower std d = "sysutcdatetime()"
  · refine Or.inl (Or.inr (Or.inl ?_))
    simp only [mapDefaultRules, c1, c2, c3, c4, c5, c6, Bool.false_eq_true, ↓reduceIte]
    rfl
  by_cases c7 : HasPrefix (ToLower std d) "convert(" = true
  · refine Or.inl (Or.inr (Or.inr (Or.inr (Or.inl ?_))))
    simp only [mapDefaultRules, c1, c2, c3, c4, c5, c6, c7, Bool.false_eq_true, ↓reduceIte]
  by_cases c8 : HasPrefix (ToLower std d) "cast(" = true
  · refine Or.inl (Or.inr (Or.inr (Or.inr (Or.inl ?_))))
    simp only [mapDefaultRules, c1, c2, c3, c4, c5, c6, c7, c8, Bool.false_eq_true, ↓reduceIte]
  by_cases c9 : ToLower std d = "null"
  · refine Or.inl (Or.inr (Or.inr (Or.inr (Or.inr (Or.inl ?_)))))
    simp only [mapDefaultRules, c1, c2, c3, c4, c5, c6, c7, c8, c9, Bool.false_eq_true, ↓reduceIte]
    rfl
  by_cases cb : ToLower std t = "bit"
  · by_cases c10 : d = "1" ∨ ToLower std d = "'1'"
    · refine Or.inl (Or.inr (Or.inr (Or.inr (Or.inr (Or.inr (Or.inl ?_))))))
      simp only [mapDefaultRules, c1, c2, c3, c4, c5, c6, c7, c8, c9, cb, c10,
        Bool.false_eq_true, ↓reduceIte]
    by_cases c11 : d = "0" ∨ ToLower std d = "'0'"
    · refine Or.inl (Or.inr (Or.inr (Or.inr (Or.inr (Or.inr (Or.inr (?_)))))))
      simp only [mapDefaultRules, c1, c2, c3, c4, c5, c6, c7, c8, c9, cb, c10, c11,
        Bool.false_eq_true, ↓reduceIte]
    · refine Or.inr ?_
      simp only [mapDefaultRules, c1, c2, c3, c4, c5, c6, c7, c8, c9, cb, c10, c11,
        Bool.false_eq_true, ↓reduceIte]
  · refine Or.inr ?_
    simp only [mapDefaultRules, c1, c2, c3, c4, c5, c6, c7, c8, c9, cb, Bool.false_eq_true, ↓reduceIte]

/-- Applying the body to an output of the rules that has no parenthesis at either
end, and is not a quoted 0/1 on a BIT column, returns that output. -/
theorem mapDefaultBody_rules_fixed (std : GoStd) (d t : Str)
    (h1 : HasPrefix (mapDefaultRules std d t).1 "(" = false)
    (h2 : HasSuffix (mapDefaultRules std d t).1 ")" = false)
    (h3 : ¬ (ToLower std t = "bit"
      ∧ (ToLower std (mapDefaultRules std d t).1 = "'1'"
        ∨ ToLower std (mapDefaultRules std d t).1 = "'0'"))) :
    (mapDefaultBody std (mapDefaultRules std d t).1 t).1 = (mapDefaultRules std d t).1 := by
  rcases mapDefaultRules_cases std d t with hc | hr
  · rcases hc with hc | hc | hc | hc | hc | hc | hc <;> rw [hc] at h2 ⊢
    · rfl
    · exact mapDefaultRules_passthrough std "CURRENT_TIMESTAMP AT TIME ZONE 'UTC'" t
        "current_timestamp at time zone 'utc'" rfl (by decide) (fun _ => by decide)
    · exact absurd h2 (by decide)
    · rfl
    · rfl
    · exact mapDefaultRules_passthrough std "TRUE" t "true" rfl (by decide) (fun _ => by decide)
    · exact mapDefaultRules_passthrough std "FALSE" t "false" rfl (by decide) (fun _ => by decide)
  · have ho : (mapDefaultRules std d t).1 = (mapDefaultRest std d).1 := by rw [hr]
    have hd : (mapDefaultRules std d t).1 = d →
        (mapDefaultBody std (mapDefaultRules std d t).1 t).1 = (mapDefaultRules std d t).1 := by
      intro hod
      rw [hod] at h1 h2 ⊢
      by_cases hnil : d = ""
      · subst hnil
        rfl
      · unfold mapDefaultBody
        rw [if_neg hnil, stripOuterParens_noop d h1 h2]
        exact hod
    unfold mapDefaultRest at ho
    split_ifs at ho with s1 s2
    · exact hd ho
    · obtain ⟨d', rfl⟩ : ∃ d', d = 'N' :: Char.ofNat 39 :: d' := by
        have hp : ("N'" : Str) <+: d := List.isPrefixOf_iff_prefix.mp s2
        obtain ⟨r, hr'⟩ := hp
        exact ⟨r, hr'.symm⟩
      have ho' : (mapDefaultRules std ('N' :: Char.ofNat 39 :: d') t).1 = Char.ofNat 39 :: d' := ho
      rw [ho'] at h2 h3 ⊢
      have hstrip : stripOuterParens (Char.ofNat 39 :: d') = Char.ofNat 39 :: d' :=
        stripOuterParens_noop _ rfl h2
      have hbody : mapDefaultBody std (Char.ofNat 39 :: d') t
          = mapDefaultRules std (stripOuterParens (Char.ofNat 39 :: d')) t := rfl
      rw [hbody, hstrip]
      refine mapDefaultRules_passthrough std _ t (Char.ofNat 39 :: ToLower std d') rfl ?_ ?_
      · refine ⟨?_, ?_, ?_, ?_, ?_, ?_, rfl, rfl, ?_, rfl⟩ <;> simp
      · intro cb
        have hl : ToLower std (Char.ofNat 39 :: d') = Char.ofNat 39 :: ToLower std d' := rfl
        rw [hl] at h3
        refine ⟨?_, ?_⟩
        · rintro (hx | hx)
          · simp at hx
          · exact h3 ⟨cb, Or.inl hx⟩
        · rintro (hx | hx)
          · simp at hx
          · exact h3 ⟨cb, Or.inr hx⟩
    · exact hd ho

/-- The rules on a BIT column, once the `switch` and the NULL rule have not
matched. -/
theorem mapDefaultRules_bit (std : GoStd) (d t l : Str) (hl : ToLower std d = l)
    (ht : ToLower std t = "bit")
    (h : ¬ (l = "getdate()" ∨ l = "current_timestamp") ∧ l ≠ "getutcdate()" ∧ l ≠ "newid()"
      ∧ l ≠ "newsequentialid()" ∧ l ≠ "sysdatetime()" ∧ l ≠ "sysutcdatetime()"
      ∧ HasPrefix l "convert(" = false ∧ HasPrefix l "cast(" = false ∧ l ≠ "null") :
    mapDefaultRules std d t
      = if d = "1" ∨ l = "'1'" then (("TRUE" : Str), [])
        else if d = "0" ∨ l = "'0'" then (("FALSE" : Str), [])
        else mapDefaultRest std d := by
  obtain ⟨h1, h2, h3, h4, h5, h6, h7, h8, h9⟩ := h
  unfold mapDefaultRules
  simp only [hl, if_neg h1, if_neg h2, if_neg h3, if_neg h4, if_neg h5, if_neg h6, h7, h8,
    if_neg h9, Bool.false_eq_true, if_false, if_pos ht]

/-- The body on a non-empty default is the rules on the trimmed default. -/
theorem mapDefaultBody_of_ne (std : GoStd) (e t : Str) (he : e ≠ "") :
    mapDefaultBody std e t = mapDefaultRules std (stripOuterParens e) t := by
  unfold mapDefaultBody
  rw [if_neg he]

/-! ## C3: idempotence of the default translation -/

/-- C3 (counterexample). The default `(((1)))` on an int column is translated to
`(1)`, and `(1)` is translated to `1`: the output of the first application is not
a fixed point, so the translation is not idempotent.  Likewise, when the float
scanner rejects `N'1'`, that default on a bit column is translated to `'1'`,
which is translated to `TRUE`. -/
theorem default_idempotence_counterexample :
    (∀ (std : GoStd) (tm : TypeMapper),
      (MapDefaultValue std tm "(((1)))" "int").1 = ("(1)" : Str))
    ∧ (∀ (std : GoStd) (tm : TypeMapper),
      (MapDefaultValue std tm "(1)" "int").1 = ("1" : Str))
    ∧ (∀ (std : GoStd) (tm : TypeMapper), std.sscanfFloatOk "N'1'" = false →
      (MapDefaultValue std tm "N'1'" "bit").1 = ("'1'" : Str)
        ∧ (MapDefaultValue std tm "'1'" "bit").1 = ("TRUE" : Str))
    ∧ ¬ (∀ (std : GoStd) (tm : TypeMapper) (e t : Str),
      (MapDefaultValue std tm (MapDefaultValue std tm e t).1 t).1
        = (MapDefaultValue std tm e t).1) := by
  have hint : ∀ std : GoStd, ToLower std "int" = ("bit" : Str) → False :=
    fun _ h => absurd h (by decide : ¬ (("int" : Str) = "bit"))
  refine ⟨fun std _ => ?_, fun std _ => ?_, fun std _ hs => ⟨?_, ?_⟩, fun H => ?_⟩
  · exact mapDefaultRules_passthrough std "(1)" "int" "(1)" rfl (by decide)
      (fun h => (hint std h).elim)
  · exact mapDefaultRules_passthrough std "1" "int" "1" rfl (by decide)
      (fun h => (hint std h).elim)
  · have hr : mapDefaultRules std "N'1'" "bit" = mapDefaultRest std "N'1'" :=
      (mapDefaultRules_bit std "N'1'" "bit" "n'1'" rfl rfl (by decide)).trans rfl
    have hb : mapDefaultBody std "N'1'" "bit" = mapDefaultRest std "N'1'" := hr
    rw [MapDefaultValue_fst, hb]
    unfold mapDefaultRest
    rw [hs]
    rfl
  · exact congrArg Prod.fst
      ((mapDefaultRules_bit std "'1'" "bit" "'1'" rfl rfl (by decide)).trans rfl)
  · exact absurd (H asciiStd NewTypeMapper "(((1)))" "int") (by decide)

/-- C3 (amended). Whenever the output of `MapDefaultValue` neither begins with
`(` nor ends with `)`, and is not a quoted `'1'` or `'0'` on a BIT column,
applying `MapDefaultValue` to it again returns it unchanged. -/
theorem default_fixed_point (std : GoStd) (tm tm' : TypeMapper) (e t : Str)
    (h1 : HasPrefix (MapDefaultValue std tm e t).1 "(" = false)
    (h2 : HasSuffix (MapDefaultValue std tm e t).1 ")" = false)
    (h3 : ¬ (ToLower std t = "bit"
      ∧ (ToLower std (MapDefaultValue std tm e t).1 = "'1'"
        ∨ ToLower std (MapDefaultValue std tm e t).1 = "'0'"))) :
    (MapDefaultValue std tm' (MapDefaultValue std tm e t).1 t).1
      = (MapDefaultValue std tm e t).1 := by
  simp only [MapDefaultValue_fst] at h1 h2 h3 ⊢
  by_cases he : e = ""
  · subst he
    rfl
  · rw [mapDefaultBody_of_ne std e t he] at h1 h2 h3 ⊢
    exact mapDefaultBody_rules_fixed std (stripOuterParens e) t h1 h2 h3

/-- C3 (witness). The doubly wrapped `((getdate()))` is translated to
`CURRENT_TIMESTAMP`, which is translated to itself. -/
theorem default_fixed_point_witness :
    (MapDefaultValue asciiStd NewTypeMapper "((getdate()))" "datetime").1
        = ("CURRENT_TIMESTAMP" : Str)
    ∧ (MapDefaultValue asciiStd NewTypeMapper "CURRENT_TIMESTAMP" "datetime").1
        = ("CURRENT_TIMESTAMP" : Str) :=
  ⟨by decide,
    default_fixed_point asciiStd NewTypeMapper NewTypeMapper "((getdate()))" "datetime"
      (by decide) (by decide) (by decide)⟩

/-! ## C4: pass-through of unrecognised defaults -/

/-- C4 (evaluation at the failing inputs). For every data type, the default
`suser_sname()` is returned as `suser_sname(`, and so is `(suser_sname())`: the
closing parenthesis of the call is trimmed although no outer pair surrounds it. -/
theorem default_passthrough_loses_paren :
    (∀ (std : GoStd) (tm : TypeMapper) (t : Str),
      (MapDefaultValue std tm "suser_sname()" t).1 = ("suser_sname(" : Str))
    ∧ (∀ (std : GoStd) (tm : TypeMapper) (t : Str),
      (MapDefaultValue std tm "(suser_sname())" t).1 = ("suser_sname(" : Str)) := by
  refine ⟨fun std _ t => ?_, fun std _ t => ?_⟩
  · exact mapDefaultRules_passthrough std "suser_sname(" t "suser_sname(" rfl (by decide)
      (fun _ => by decide)
  · exact mapDefaultRules_passthrough std "suser_sname(" t "suser_sname(" rfl (by decide)
      (fun _ => by decide)

/-! ## C5: BIT defaults -/

/-- C5 (counterexample). On a `bit` column the default `(((1)))` is `1` after
stripping its outer parentheses, yet it is translated to `(1)`, not to `TRUE`:
one application removes two pairs of parentheses only.  The column definition
carries `DEFAULT (1)`. -/
theorem bit_default_three_pairs :
    (MapDefaultValue asciiStd NewTypeMapper "(((1)))" "bit").1 = ("(1)" : Str)
    ∧ (MapDefaultValue asciiStd NewTypeMapper "(((0)))" "bit").1 = ("(0)" : Str)
    ∧ (GenerateColumnDDL asciiStd NewTypeMapper
        { isActiveColumn with DefaultValue := some ("(((1)))" : Str) }).1
        = ("\"IsActive\" BOOLEAN DEFAULT (1)" : Str) := by
  refine ⟨by rfl, by rfl, by rfl⟩

/-- C5 (amended). On a column whose type is `bit` in any letter case, the
literals `1` and `'1'`, written bare or inside one or two pairs of parentheses,
are translated to `TRUE`, and `0` and `'0'` likewise to `FALSE`; more generally
so is every default that the two trimming steps of the code reduce to such a
literal; the column `IsActive BIT DEFAULT ((1))` gives
`"IsActive" BOOLEAN DEFAULT TRUE`; and on a column of any other type the literals
`1` and `0`, bare or inside one or two pairs of parentheses, are returned as the
bare literal. -/
theorem bit_default_translation :
    (∀ (std : GoStd) (tm : TypeMapper) (t lit : Str), ToLower std t = "bit" →
      lit ∈ [("1" : Str), "'1'"] →
      (MapDefaultValue std tm lit t).1 = ("TRUE" : Str)
        ∧ (MapDefaultValue std tm ("(" ++ lit ++ ")") t).1 = ("TRUE" : Str)
        ∧ (MapDefaultValue std tm ("((" ++ lit ++ "))") t).1 = ("TRUE" : Str))
    ∧ (∀ (std : GoStd) (tm : TypeMapper) (t lit : Str), ToLower std t = "bit" →
      lit ∈ [("0" : Str), "'0'"] →
      (MapDefaultValue std tm lit t).1 = ("FALSE" : Str)
        ∧ (MapDefaultValue std tm ("(" ++ lit ++ ")") t).1 = ("FALSE" : Str)
        ∧ (MapDefaultValue std tm ("((" ++ lit ++ "))") t).1 = ("FALSE" : Str))
    ∧ (∀ (std : GoStd) (tm : TypeMapper) (t lit : Str), ToLower std t ≠ "bit" →
      lit ∈ [("1" : Str), "0"] →
      (MapDefaultValue std tm lit t).1 = lit
        ∧ (MapDefaultValue std tm ("(" ++ lit ++ ")") t).1 = lit
        ∧ (MapDefaultValue std tm ("((" ++ lit ++ "))") t).1 = lit)
    ∧ (∀ (std : GoStd) (tm : TypeMapper) (e t : Str), ToLower std t = "bit" →
      (stripOuterParens e = "1" ∨ stripOuterParens e = "'1'") →
      (MapDefaultValue std tm e t).1 = ("TRUE" : Str))
    ∧ (∀ (std : GoStd) (tm : TypeMapper) (e t : Str), ToLower std t = "bit" →
      (stripOuterParens e = "0" ∨ stripOuterParens e = "'0'") →
      (MapDefaultValue std tm e t).1 = ("FALSE" : Str))
    ∧ (∀ lit : Str, lit ∈ [("1" : Str), "'1'", "0", "'0'"] →
      stripOuterParens lit = lit
        ∧ stripOuterParens ("(" ++ lit ++ ")") = lit
        ∧ stripOuterParens ("((" ++ lit ++ "))") = lit)
    ∧ (∀ (std : GoStd) (tm : TypeMapper),
      (GenerateColumnDDL std tm isActiveColumn).1
        = ("\"IsActive\" BOOLEAN DEFAULT TRUE" : Str))
    ∧ (∀ (std : GoStd) (tm : TypeMapper) (e t : Str), ToLower std t ≠ "bit" →
      (stripOuterParens e = "1" ∨ stripOuterParens e = "0") →
      (MapDefaultValue std tm e t).1 = stripOuterParens e) := by
  have hne : ∀ e : Str, stripOuterParens e ≠ "" → e ≠ "" := by
    intro e h he
    subst he
    exact h rfl
  have hT : ∀ (std : GoStd) (tm : TypeMapper) (e t : Str), ToLower std t = "bit" →
      (stripOuterParens e = "1" ∨ stripOuterParens e = "'1'") →
      (MapDefaultValue std tm e t).1 = ("TRUE" : Str) := by
    intro std tm e t ht h
    have he : e ≠ "" := hne e (by rcases h with h | h <;> rw [h] <;> decide)
    rw [MapDefaultValue_fst, mapDefaultBody_of_ne std e t he]
    rcases h with h | h <;> rw [h]
    · exact congrArg Prod.fst
        ((mapDefaultRules_bit std "1" t "1" rfl ht (by decide)).trans rfl)
    · exact congrArg Prod.fst
        ((mapDefaultRules_bit std "'1'" t "'1'" rfl ht (by decide)).trans rfl)
  have hF : ∀ (std : GoStd) (tm : TypeMapper) (e t : Str), ToLower std t = "bit" →
      (stripOuterParens e = "0" ∨ stripOuterParens e = "'0'") →
      (MapDefaultValue std tm e t).1 = ("FALSE" : Str) := by
    intro std tm e t ht h
    have he : e ≠ "" := hne e (by rcases h with h | h <;> rw [h] <;> decide)
    rw [MapDefaultValue_fst, mapDefaultBody_of_ne std e t he]
    rcases h with h | h <;> rw [h]
    · exact congrArg Prod.fst
        ((mapDefaultRules_bit std "0" t "0" rfl ht (by decide)).trans rfl)
    · exact congrArg Prod.fst
        ((mapDefaultRules_bit std "'0'" t "'0'" rfl ht (by decide)).trans rfl)
  have hN : ∀ (std : GoStd) (tm : TypeMapper) (e t : Str), ToLower std t ≠ "bit" →
      (stripOuterParens e = "1" ∨ stripOuterParens e = "0") →
      (MapDefaultValue std tm e t).1 = stripOuterParens e := by
    intro std tm e t ht h
    have he : e ≠ "" := hne e (by rcases h with h | h <;> rw [h] <;> decide)
    rw [MapDefaultValue_fst, mapDefaultBody_of_ne std e t he]
    rcases h with h | h <;> rw [h]
    · exact mapDefaultRules_passthrough std "1" t "1" rfl (by decide) (fun hb => (ht hb).elim)
    · exact mapDefaultRules_passthrough std "0" t "0" rfl (by decide) (fun hb => (ht hb).elim)
  refine ⟨?_, ?_, ?_, hT, hF, by decide, fun _ _ => rfl, hN⟩
  · intro std tm t lit ht hl
    simp only [List.mem_cons, List.mem_singleton, List.not_mem_nil, or_false] at hl
    rcases hl with h | h <;> subst h
    · exact ⟨hT std tm _ t ht (Or.inl (by decide)), hT std tm _ t ht (Or.inl (by decide)),
        hT std tm _ t ht (Or.inl (by decide))⟩
    · exact ⟨hT std tm _ t ht (Or.inr (by decide)), hT std tm _ t ht (Or.inr (by decide)),
        hT std tm _ t ht (Or.inr (by decide))⟩
  · intro std tm t lit ht hl
    simp only [List.mem_cons, List.mem_singleton, List.not_mem_nil, or_false] at hl
    rcases hl with h | h <;> subst h
    · exact ⟨hF std tm _ t ht (Or.inl (by decide)), hF std tm _ t ht (Or.inl (by decide)),
        hF std tm _ t ht (Or.inl (by decide))⟩
    · exact ⟨hF std tm _ t ht (Or.inr (by decide)), hF std tm _ t ht (Or.inr (by decide)),
        hF std tm _ t ht (Or.inr (by decide))⟩
  · intro std tm t lit ht hl
    simp only [List.mem_cons, List.mem_singleton, List.not_mem_nil, or_false] at hl
    rcases hl with h | h <;> subst h
    · exact ⟨(hN std tm _ t ht (Or.inl (by decide))).trans (by decide),
        (hN std tm _ t ht (Or.inl (by decide))).trans (by decide),
        (hN std tm _ t ht (Or.inl (by decide))).trans (by decide)⟩
    · exact ⟨(hN std tm _ t ht (Or.inr (by decide))).trans (by decide),
        (hN std tm _ t ht (Or.inr (by decide))).trans (by decide),
        (hN std tm _ t ht (Or.inr (by decide))).trans (by decide)⟩

/-- C5 (witness). On a column of type `BIT` the default `((1))` gives `TRUE`. -/
theorem bit_default_translation_witness :
    (MapDefaultValue asciiStd NewTypeMapper "((1))" "BIT").1 = ("TRUE" : Str) :=
  (bit_default_translation.1 asciiStd NewTypeMapper "BIT" "1" (by decide) (by decide)).2.2

/-! ## Lemmas on `MapType` -/

theorem ite_pred {α : Type} (P : α → Prop) (c : Prop) [Decidable c] (a b : α)
    (ha : P a) (hb : P b) : P (if c then a else b) := by
  split <;> assumption

theorem mapTypeSwitch_nonempty (dataType : Str) (col : ColumnInfo) :
    (mapTypeSwitch dataType col).1 ≠ [] := by
  unfold mapTypeSwitch
  repeat' apply ite_pred (fun r : Str × List Str => r.1 ≠ [])
  all_goals simp

/-- A branch of the switch that appends no warning leaves the converter as it is. -/
theorem MapType_of_switch (std : GoStd) (tm : TypeMapper) (col : ColumnInfo) (x : Str)
    (h : mapTypeSwitch (ToLower std col.DataType) col = (x, [])) :
    MapType std tm col = (x, tm) := by
  unfold MapType
  simp only [h, List.append_nil]

/-- A branch of the switch that appends one warning. -/
theorem MapType_of_switch_warn (std : GoStd) (tm : TypeMapper) (col : ColumnInfo) (x w : Str)
    (h : mapTypeSwitch (ToLower std col.DataType) col = (x, [w])) :
    MapType std tm col = (x, tm.warn w) := by
  unfold MapType
  simp only [h, TypeMapper.warn]

/-! ## C6: non-empty result, SERIAL on identity columns -/

/-- C6. For every column descriptor the mapped type is a non-empty string, and an
identity column whose type name is, up to letter case, bigint, int, smallint or
tinyint is mapped to BIGSERIAL, SERIAL, SMALLSERIAL, SMALLSERIAL respectively. -/
theorem map_type_nonempty_and_serial (std : GoStd) (tm : TypeMapper) (c : ColumnInfo) :
    (MapType std tm c).1 ≠ ("" : Str)
    ∧ (c.IsIdentity = true →
        (ToLower std c.DataType = "bigint" → (MapType std tm c).1 = ("BIGSERIAL" : Str))
        ∧ (ToLower std c.DataType = "int" → (MapType std tm c).1 = ("SERIAL" : Str))
        ∧ (ToLower std c.DataType = "smallint" → (MapType std tm c).1 = ("SMALLSERIAL" : Str))
        ∧ (ToLower std c.DataType = "tinyint"
            → (MapType std tm c).1 = ("SMALLSERIAL" : Str))) := by
  refine ⟨mapTypeSwitch_nonempty _ c, fun hid => ⟨fun h => ?_, fun h => ?_, fun h => ?_,
    fun h => ?_⟩⟩ <;>
  · rw [MapType_fst, h]
    simp [mapTypeSwitch, hid]

/-- C6 (witness). The identity column `Id` of type `INT` is mapped to SERIAL. -/
theorem map_type_nonempty_and_serial_witness :
    (MapType asciiStd NewTypeMapper
        { mkColumn "Id" "INT" with IsIdentity := true }).1 = ("SERIAL" : Str) :=
  (map_type_nonempty_and_serial asciiStd NewTypeMapper
    { mkColumn "Id" "INT" with IsIdentity := true }).2 rfl |>.2.1 (by decide)

/-! ## C7: Unicode length halving -/

/-- C7. An nvarchar column with max byte length `n ≥ 2` is mapped to
`VARCHAR(n/2)` and an nchar column to `CHAR(n/2)`; nvarchar with max byte length
`-1` and ntext are mapped to TEXT; none of these appends a warning.  The column
`Title NVARCHAR(200)` is mapped to `VARCHAR(100)` and its definition is
`"Title" VARCHAR(100)`, followed by ` NOT NULL` when it is not nullable. -/
theorem unicode_length_halving :
    (∀ (std : GoStd) (tm : TypeMapper) (c : ColumnInfo),
      ToLower std c.DataType = "nvarchar" → 2 ≤ c.MaxLength →
      MapType std tm c = (("VARCHAR(" : Str) ++ fmtD (c.MaxLength / 2) ++ ")", tm))
    ∧ (∀ (std : GoStd) (tm : TypeMapper) (c : ColumnInfo),
      ToLower std c.DataType = "nchar" → 2 ≤ c.MaxLength →
      MapType std tm c = (("CHAR(" : Str) ++ fmtD (c.MaxLength / 2) ++ ")", tm))
    ∧ (∀ (std : GoStd) (tm : TypeMapper) (c : ColumnInfo),
      ToLower std c.DataType = "nvarchar" → c.MaxLength = -1 →
      MapType std tm c = (("TEXT" : Str), tm))
    ∧ (∀ (std : GoStd) (tm : TypeMapper) (c : ColumnInfo),
      ToLower std c.DataType = "ntext" → MapType std tm c = (("TEXT" : Str), tm))
    ∧ (∀ (std : GoStd) (tm : TypeMapper) (nullable : Bool),
      (MapType std tm (titleColumn nullable)).1 = ("VARCHAR(100)" : Str))
    ∧ (∀ (std : GoStd) (tm : TypeMapper),
      (GenerateColumnDDL std tm (titleColumn true)).1 = ("\"Title\" VARCHAR(100)" : Str)
      ∧ (GenerateColumnDDL std tm (titleColumn false)).1
          = ("\"Title\" VARCHAR(100) NOT NULL" : Str)) := by
  refine ⟨?_, ?_, ?_, ?_, fun _ _ _ => rfl, fun _ _ => ⟨rfl, rfl⟩⟩
  · intro std tm c h hn
    have hdiv : Int.tdiv c.MaxLength 2 = c.MaxLength / 2 :=
      Int.tdiv_eq_ediv (by omega) (by decide)
    have hpos : c.MaxLength / 2 > 0 := by omega
    have hne : ¬ c.MaxLength = -1 := by omega
    apply MapType_of_switch
    rw [h]
    simp [mapTypeSwitch, hdiv, hpos, hne]
  · intro std tm c h hn
    have hdiv : Int.tdiv c.MaxLength 2 = c.MaxLength / 2 :=
      Int.tdiv_eq_ediv (by omega) (by decide)
    have hpos : c.MaxLength / 2 > 0 := by omega
    apply MapType_of_switch
    rw [h]
    simp [mapTypeSwitch, hdiv, hpos]
  · intro std tm c h hn
    apply MapType_of_switch
    rw [h]
    simp [mapTypeSwitch, hn]
  · intro std tm c h
    apply MapType_of_switch
    rw [h]
    simp [mapTypeSwitch]

/-- C7 (witness). An `NVARCHAR` column of 200 bytes is mapped to `VARCHAR(100)`. -/
theorem unicode_length_halving_witness :
    MapType asciiStd NewTypeMapper { mkColumn "Title" "NVARCHAR" with MaxLength := 200 }
      = (("VARCHAR(100)" : Str), NewTypeMapper) :=
  unicode_length_halving.1 asciiStd NewTypeMapper
    { mkColumn "Title" "NVARCHAR" with MaxLength := 200 } (by decide) (by decide)

/-! ## C8: datetime2 and datetimeoffset precision -/

/-- C8. A datetime2 column of scale `s` is mapped to `TIMESTAMP(min(s,6))` and a
datetimeoffset column to `TIMESTAMPTZ(min(s,6))`; when `s > 6` exactly one warning,
which names the column, is appended to the converter's warnings, and when
`s ≤ 6` the converter is unchanged. -/
theorem datetime_precision_capped :
    (∀ (std : GoStd) (tm : TypeMapper) (c : ColumnInfo),
      ToLower std c.DataType = "datetime2" →
      (MapType std tm c).1 = ("TIMESTAMP(" : Str) ++ fmtD (min c.Scale 6) ++ ")"
      ∧ (6 < c.Scale → (MapType std tm c).2.warnings
          = tm.warnings ++ [("Column " : Str) ++ c.Name ++ ": datetime2(" ++ fmtD c.Scale
              ++ ") precision truncated to 6 (PostgreSQL max)"])
      ∧ (c.Scale ≤ 6 → (MapType std tm c).2 = tm))
    ∧ (∀ (std : GoStd) (tm : TypeMapper) (c : ColumnInfo),
      ToLower std c.DataType = "datetimeoffset" →
      (MapType std tm c).1 = ("TIMESTAMPTZ(" : Str) ++ fmtD (min c.Scale 6) ++ ")"
      ∧ (6 < c.Scale → (MapType std tm c).2.warnings
          = tm.warnings ++ [("Column " : Str) ++ c.Name ++ ": datetimeoffset(" ++ fmtD c.Scale
              ++ ") precision truncated to 6"])
      ∧ (c.Scale ≤ 6 → (MapType std tm c).2 = tm)) := by
  constructor
  · intro std tm c h
    by_cases hs : 6 < c.Scale
    · have hmin : min c.Scale 6 = 6 := min_eq_right (le_of_lt hs)
      have hsw : mapTypeSwitch (ToLower std c.DataType) c
          = (("TIMESTAMP(" : Str) ++ fmtD 6 ++ ")",
              [("Column " : Str) ++ c.Name ++ ": datetime2(" ++ fmtD c.Scale
                ++ ") precision truncated to 6 (PostgreSQL max)"]) := by
        rw [h]
        simp [mapTypeSwitch, hs]
      rw [MapType_of_switch_warn std tm c _ _ hsw, hmin]
      exact ⟨rfl, fun _ => rfl, fun h6 => absurd hs (not_lt.mpr h6)⟩
    · have hmin : min c.Scale 6 = c.Scale := min_eq_left (not_lt.mp hs)
      have hsw : mapTypeSwitch (ToLower std c.DataType) c
          = (("TIMESTAMP(" : Str) ++ fmtD c.Scale ++ ")", []) := by
        rw [h]
        simp [mapTypeSwitch, hs]
      rw [MapType_of_switch std tm c _ hsw, hmin]
      exact ⟨rfl, fun h6 => absurd h6 hs, fun _ => rfl⟩
  · intro std tm c h
    by_cases hs : 6 < c.Scale
    · have hmin : min c.Scale 6 = 6 := min_eq_right (le_of_lt hs)
      have hsw : mapTypeSwitch (ToLower std c.DataType) c
          = (("TIMESTAMPTZ(" : Str) ++ fmtD 6 ++ ")",
              [("Column " : Str) ++ c.Name ++ ": datetimeoffset(" ++ fmtD c.Scale
                ++ ") precision truncated to 6"]) := by
        rw [h]
        simp [mapTypeSwitch, hs]
      rw [MapType_of_switch_warn std tm c _ _ hsw, hmin]
      exact ⟨rfl, fun _ => rfl, fun h6 => absurd hs (not_lt.mpr h6)⟩
    · have hmin : min c.Scale 6 = c.Scale := min_eq_left (not_lt.mp hs)
      have hsw : mapTypeSwitch (ToLower std c.DataType) c
          = (("TIMESTAMPTZ(" : Str) ++ fmtD c.Scale ++ ")", []) := by
        rw [h]
        simp [mapTypeSwitch, hs]
      rw [MapType_of_switch std tm c _ hsw, hmin]
      exact ⟨rfl, fun h6 => absurd h6 hs, fun _ => rfl⟩

/-- C8 (witness). A `datetime2(7)` column `At` gives `TIMESTAMP(6)` and one warning. -/
theorem datetime_precision_capped_witness :
    (MapType asciiStd NewTypeMapper { mkColumn "At" "datetime2" with Scale := 7 }).1
        = ("TIMESTAMP(6)" : Str)
    ∧ (MapType asciiStd NewTypeMapper { mkColumn "At" "datetime2" with Scale := 7 }).2.warnings
        = [("Column At: datetime2(7) precision truncated to 6 (PostgreSQL max)" : Str)] :=
  ⟨(datetime_precision_capped.1 asciiStd NewTypeMapper
      { mkColumn "At" "datetime2" with Scale := 7 } (by decide)).1,
    (datetime_precision_capped.1 asciiStd NewTypeMapper
      { mkColumn "At" "datetime2" with Scale := 7 } (by decide)).2.1 (by decide)⟩

/-! ## C9: the type table and case-insensitivity -/

theorem toLowerRune_ascii_idem (std : GoStd) (r : Char) (h : r.toNat < 128) :
    toLowerRune std (toLowerRune std r) = toLowerRune std r := by
  have key : ∀ n : Nat, n < 128 →
      toLowerRune std (toLowerRune std (Char.ofNat n)) = toLowerRune std (Char.ofNat n) := by
    intro n hn
    have hclosed : ∀ m : Nat, m < 128 →
        (Char.ofNat m).toNat < 128 ∧ (toLowerRune asciiStd (Char.ofNat m)).toNat < 128
          ∧ toLowerRune asciiStd (toLowerRune asciiStd (Char.ofNat m))
              = toLowerRune asciiStd (Char.ofNat m) := by
      decide
    have hstd : ∀ x : Char, x.toNat < 128 → toLowerRune std x = toLowerRune asciiStd x := by
      intro x hx
      unfold toLowerRune
      rw [if_pos hx, if_pos hx]
    obtain ⟨a, b, e⟩ := hclosed n hn
    rw [hstd _ a, hstd _ b, e]
  have := key r.toNat h
  rwa [Char.ofNat_toNat] at this

theorem ToLower_ascii_idem (std : GoStd) (s : Str) (h : ∀ r ∈ s, r.toNat < 128) :
    ToLower std (ToLower std s) = ToLower std s := by
  unfold ToLower
  rw [List.map_map]
  apply List.map_congr_left
  intro r hr
  exact toLowerRune_ascii_idem std r (h r hr)

theorem mapTypeSwitch_DataType (dataType n : Str) (c : ColumnInfo) :
    mapTypeSwitch dataType { c with DataType := n } = mapTypeSwitch dataType c := rfl

/-- Case-insensitivity of `MapType`: it depends on the type name only through its
lower-cased form: two descriptors that differ only in type names with the same
lower-cased form get the same result and the same warnings; in particular the
name and its lower-cased form agree whenever lower-casing is idempotent on the
name, which is the case for every name made of ASCII runes. -/
theorem map_type_case_insensitive (std : GoStd) (tm : TypeMapper) (c : ColumnInfo) (n : Str)
    (h : ToLower std n = ToLower std c.DataType) :
    MapType std tm { c with DataType := n } = MapType std tm c := by
  unfold MapType
  simp only [h, mapTypeSwitch_DataType]

/-- C9. `MapType` agrees with the type table: for every column, whose type name is
compared in lower-cased form, the mapped type is the table's entry, with no
warning, or with exactly one warning for sql_variant, hierarchyid, geography,
geometry and every unknown type name; and the result for a type name made of
ASCII runes is the result for its lower-cased form. -/
theorem map_type_table (std : GoStd) (tm : TypeMapper) (c : ColumnInfo) :
    (ToLower std c.DataType = "bit" → MapType std tm c = (("BOOLEAN" : Str), tm)) ∧
    (ToLower std c.DataType = "decimal" → 0 < c.Precision → MapType std tm c = (("NUMERIC(" : Str) ++ fmtD c.Precision ++ "," ++ fmtD c.Scale ++ ")", tm)) ∧
    (ToLower std c.DataType = "numeric" → 0 < c.Precision → MapType std tm c = (("NUMERIC(" : Str) ++ fmtD c.Precision ++ "," ++ fmtD c.Scale ++ ")", tm)) ∧
    (ToLower std c.DataType = "decimal" → ¬ 0 < c.Precision → MapType std tm c = (("NUMERIC" : Str), tm)) ∧
    (ToLower std c.DataType = "numeric" → ¬ 0 < c.Precision → MapType std tm c = (("NUMERIC" : Str), tm)) ∧
    (ToLower std c.DataType = "money" → MapType std tm c = (("NUMERIC(19,4)" : Str), tm)) ∧
    (ToLower std c.DataType = "smallmoney" → MapType std tm c = (("NUMERIC(10,4)" : Str), tm)) ∧
    (ToLower std c.DataType = "float" → c.Precision ≤ 24 → MapType std tm c = (("REAL" : Str), tm)) ∧
    (ToLower std c.DataType = "float" → ¬ c.Precision ≤ 24 → MapType std tm c = (("DOUBLE PRECISION" : Str), tm)) ∧
    (ToLower std c.DataType = "real" → MapType std tm c = (("REAL" : Str), tm)) ∧
    (ToLower std c.DataType = "date" → MapType std tm c = (("DATE" : Str), tm)) ∧
    (ToLower std c.DataType = "time" → 0 < c.Scale ∧ c.Scale ≤ 6 → MapType std tm c = (("TIME(" : Str) ++ fmtD c.Scale ++ ")", tm)) ∧
    (ToLower std c.DataType = "time" → ¬ (0 < c.Scale ∧ c.Scale ≤ 6) → MapType std tm c = (("TIME" : Str), tm)) ∧
    (ToLower std c.DataType = "datetime" → MapType std tm c = (("TIMESTAMP(3)" : Str), tm)) ∧
    (ToLower std c.DataType = "smalldatetime" → MapType std tm c = (("TIMESTAMP(0)" : Str), tm)) ∧
    (ToLower std c.DataType = "char" → 0 < c.MaxLength → MapType std tm c = (("CHAR(" : Str) ++ fmtD c.MaxLength ++ ")", tm)) ∧
    (ToLower std c.DataType = "varchar" → 0 < c.MaxLength → MapType std tm c = (("VARCHAR(" : Str) ++ fmtD c.MaxLength ++ ")", tm)) ∧
    (ToLower std c.DataType = "varchar" → c.MaxLength = -1 → MapType std tm c = (("TEXT" : Str), tm)) ∧
    (ToLower std c.DataType = "text" → MapType std tm c = (("TEXT" : Str), tm)) ∧
    (ToLower std c.DataType = "binary" → MapType std tm c = (("BYTEA" : Str), tm)) ∧
    (ToLower std c.DataType = "varbinary" → MapType std tm c = (("BYTEA" : Str), tm)) ∧
    (ToLower std c.DataType = "image" → MapType std tm c = (("BYTEA" : Str), tm)) ∧
    (ToLower std c.DataType = "timestamp" → MapType std tm c = (("BYTEA" : Str), tm)) ∧
    (ToLower std c.DataType = "rowversion" → MapType std tm c = (("BYTEA" : Str), tm)) ∧
    (ToLower std c.DataType = "uniqueidentifier" → MapType std tm c = (("UUID" : Str), tm)) ∧
    (ToLower std c.DataType = "xml" → MapType std tm c = (("XML" : Str), tm)) ∧
    (ToLower std c.DataType = "sysname" → MapType std tm c = (("VARCHAR(128)" : Str), tm)) ∧
    (ToLower std c.DataType = "sql_variant" →
      ∃ w : Str, MapType std tm c = (("TEXT" : Str), tm.warn w)) ∧
    (ToLower std c.DataType = "hierarchyid" →
      ∃ w : Str, MapType std tm c = (("TEXT" : Str), tm.warn w)) ∧
    (ToLower std c.DataType = "geography" →
      ∃ w : Str, MapType std tm c = (("GEOGRAPHY" : Str), tm.warn w)) ∧
    (ToLower std c.DataType = "geometry" →
      ∃ w : Str, MapType std tm c = (("GEOMETRY" : Str), tm.warn w)) ∧
    (ToLower std c.DataType ∉ knownTypeNames →
      ∃ w : Str, MapType std tm c = (("TEXT" : Str), tm.warn w)) ∧
    ((∀ r ∈ c.DataType, r.toNat < 128) →
      MapType std tm { c with DataType := ToLower std c.DataType } = MapType std tm c) ∧
    (∀ n : Str, ToLower std n = ToLower std c.DataType →
      MapType std tm { c with DataType := n } = MapType std tm c) := by
  refine ⟨?_, ?_, ?_, ?_, ?_, ?_, ?_, ?_, ?_, ?_, ?_, ?_, ?_, ?_, ?_, ?_, ?_, ?_, ?_, ?_, ?_, ?_, ?_, ?_, ?_, ?_, ?_, ?_, ?_, ?_, ?_, ?_, ?_, ?_⟩
  · intro h
    exact MapType_of_switch std tm c _ (by rw [h]; simp [mapTypeSwitch])
  · intro h hp
    exact MapType_of_switch std tm c _ (by rw [h]; simp [mapTypeSwitch, hp])
  · intro h hp
    exact MapType_of_switch std tm c _ (by rw [h]; simp [mapTypeSwitch, hp])
  · intro h hp
    exact MapType_of_switch std tm c _ (by rw [h]; simp [mapTypeSwitch, hp])
  · intro h hp
    exact MapType_of_switch std tm c _ (by rw [h]; simp [mapTypeSwitch, hp])
  · intro h
    exact MapType_of_switch std tm c _ (by rw [h]; simp [mapTypeSwitch])
  · intro h
    exact MapType_of_switch std tm c _ (by rw [h]; simp [mapTypeSwitch])
  · intro h hp
    exact MapType_of_switch std tm c _ (by rw [h]; simp [mapTypeSwitch, hp])
  · intro h hp
    exact MapType_of_switch std tm c _ (by rw [h]; simp [mapTypeSwitch, hp])
  · intro h
    exact MapType_of_switch std tm c _ (by rw [h]; simp [mapTypeSwitch])
  · intro h
    exact MapType_of_switch std tm c _ (by rw [h]; simp [mapTypeSwitch])
  · intro h hp
    exact MapType_of_switch std tm c _ (by rw [h]; simp [mapTypeSwitch, hp])
  · intro h hp
    exact MapType_of_switch std tm c _ (by rw [h]; simp [mapTypeSwitch, hp])
  · intro h
    exact MapType_of_switch std tm c _ (by rw [h]; simp [mapTypeSwitch])
  · intro h
    exact MapType_of_switch std tm c _ (by rw [h]; simp [mapTypeSwitch])
  · intro h hp
    exact MapType_of_switch std tm c _ (by rw [h]; simp [mapTypeSwitch, hp])
  · intro h hp
    have hne : ¬ c.MaxLength = -1 := by omega
    exact MapType_of_switch std tm c _ (by rw [h]; simp [mapTypeSwitch, hp, hne])
  · intro h hp
    exact MapType_of_switch std tm c _ (by rw [h]; simp [mapTypeSwitch, hp])
  · intro h
    exact MapType_of_switch std tm c _ (by rw [h]; simp [mapTypeSwitch])
  · intro h
    exact MapType_of_switch std tm c _ (by rw [h]; simp [mapTypeSwitch])
  · intro h
    exact MapType_of_switch std tm c _ (by rw [h]; simp [mapTypeSwitch])
  · intro h
    exact MapType_of_switch std tm c _ (by rw [h]; simp [mapTypeSwitch])
  · intro h
    exact MapType_of_switch std tm c _ (by rw [h]; simp [mapTypeSwitch])
  · intro h
    exact MapType_of_switch std tm c _ (by rw [h]; simp [mapTypeSwitch])
  · intro h
    exact MapType_of_switch std tm c _ (by rw [h]; simp [mapTypeSwitch])
  · intro h
    exact MapType_of_switch std tm c _ (by rw [h]; simp [mapTypeSwitch])
  · intro h
    exact MapType_of_switch std tm c _ (by rw [h]; simp [mapTypeSwitch])
  · intro h
    exact ⟨("Column " : Str) ++ c.Name ++ ": sql_variant converted to TEXT (lossy conversion)",
      MapType_of_switch_warn std tm c _ _ (by rw [h]; simp [mapTypeSwitch])⟩
  · intro h
    exact ⟨("Column " : Str) ++ c.Name ++ ": hierarchyid converted to TEXT (custom handling may be needed)",
      MapType_of_switch_warn std tm c _ _ (by rw [h]; simp [mapTypeSwitch])⟩
  · intro h
    exact ⟨("Column " : Str) ++ c.Name ++ ": geography type requires PostGIS extension",
      MapType_of_switch_warn std tm c _ _ (by rw [h]; simp [mapTypeSwitch])⟩
  · intro h
    exact ⟨("Column " : Str) ++ c.Name ++ ": geometry type requires PostGIS extension",
      MapType_of_switch_warn std tm c _ _ (by rw [h]; simp [mapTypeSwitch])⟩
  · intro h
    simp only [knownTypeNames, List.map, List.mem_cons, List.mem_singleton, List.not_mem_nil,
      or_false, not_or] at h
    obtain ⟨k1, k2, k3, k4, k5, k6, k7, k8, k9, k10, k11, k12, k13, k14, k15, k16, k17, k18,
      k19, k20, k21, k22, k23, k24, k25, k26, k27, k28, k29, k30, k31, k32, k33, k34, k35⟩ := h
    refine ⟨("Column " : Str) ++ c.Name ++ ": unknown type \x27" ++ ToLower std c.DataType
      ++ "\x27 defaulting to TEXT", MapType_of_switch_warn std tm c _ _ ?_⟩
    unfold mapTypeSwitch
    simp only [if_neg k1, if_neg k2, if_neg k3, if_neg k4, if_neg k5, k6, k7, if_neg k8,
      if_neg k9, if_neg k10, if_neg k11, if_neg k12, if_neg k13, if_neg k14, if_neg k15,
      if_neg k16, if_neg k17, if_neg k18, if_neg k19, if_neg k20, if_neg k21, if_neg k22,
      if_neg k23, if_neg k24, if_neg k25, if_neg k26, if_neg k27, if_neg k28, if_neg k29,
      if_neg k30, if_neg k31, if_neg k32, k33, k34, if_neg k35, or_self, if_false]
  · intro h
    exact map_type_case_insensitive std tm c _ (ToLower_ascii_idem std c.DataType h)
  · intro n h
    exact map_type_case_insensitive std tm c n h

/-- C9 (witness). The type name `UniqueIdentifier` is mapped like its lower-cased
form, to UUID, without a warning. -/
theorem map_type_table_witness :
    MapType asciiStd NewTypeMapper (mkColumn "Ref" "UniqueIdentifier")
        = (("UUID" : Str), NewTypeMapper)
    ∧ MapType asciiStd NewTypeMapper
          { mkColumn "Ref" "UniqueIdentifier" with
            DataType := ToLower asciiStd (mkColumn "Ref" "UniqueIdentifier").DataType }
        = MapType asciiStd NewTypeMapper (mkColumn "Ref" "UniqueIdentifier") :=
  ⟨(map_type_table asciiStd NewTypeMapper (mkColumn "Ref" "UniqueIdentifier")).2.2.2.2.2.2.2.2.2.2.2.2.2.2.2.2.2.2.2.2.2.2.2.2.1
      (by decide),
    (map_type_table asciiStd NewTypeMapper (mkColumn "Ref" "UniqueIdentifier")).2.2.2.2.2.2.2.2.2.2.2.2.2.2.2.2.2.2.2.2.2.2.2.2.2.2.2.2.2.2.2.2.1
      (by decide)⟩

/-! ## C10: the foreign key statement -/

/-- C10. For every table and foreign key the statement is
`ALTER TABLE "s"."t" ADD CONSTRAINT "fk" FOREIGN KEY (` local columns `)
REFERENCES "rs"."rt" (` referenced columns `)`, each column double-quoted and the
columns separated by comma-space in order, followed by ` ON DELETE ` and the
delete action exactly when that token is neither empty nor `NO_ACTION`, then
` ON UPDATE ` and the update action under the same condition, and nothing else;
an emitted action is the token with every underscore replaced by a space. -/
theorem foreign_key_ddl_shape :
    (∀ (table : TableInfo) (fk : ForeignKey),
      GenerateForeignKeyDDL table fk
        = ("ALTER TABLE " : Str) ++ quoteIdent table.Schema ++ "." ++ quoteIdent table.Name
          ++ " ADD CONSTRAINT " ++ quoteIdent fk.Name
          ++ " FOREIGN KEY (" ++ Join (fk.Columns.map quoteIdent) ", "
          ++ ") REFERENCES " ++ quoteIdent fk.ReferencedSchema ++ "."
          ++ quoteIdent fk.ReferencedTable
          ++ " (" ++ Join (fk.ReferencedColumns.map quoteIdent) ", " ++ ")"
          ++ (if fk.OnDelete = "" ∨ fk.OnDelete = "NO_ACTION" then ("" : Str)
              else " ON DELETE " ++ ReplaceUnderscores fk.OnDelete)
          ++ (if fk.OnUpdate = "" ∨ fk.OnUpdate = "NO_ACTION" then ("" : Str)
              else " ON UPDATE " ++ ReplaceUnderscores fk.OnUpdate))
    ∧ (∀ s : Str, (ReplaceUnderscores s).length = s.length
        ∧ '_' ∉ ReplaceUnderscores s
        ∧ ∀ i : Nat, (ReplaceUnderscores s)[i]?
            = (s[i]?).map (fun r => if r = '_' then ' ' else r))
    ∧ ReplaceUnderscores "SET_NULL" = ("SET NULL" : Str)
    ∧ GenerateForeignKeyDDL ordersTable ordersCustomerFk
        = ("ALTER TABLE \"dbo\".\"Orders\" ADD CONSTRAINT \"FK_Orders_Customers\" FOREIGN KEY (\"CustomerId\") REFERENCES \"dbo\".\"Customers\" (\"Id\") ON DELETE SET NULL" : Str) := by
  refine ⟨?_, ?_, by decide, by decide⟩
  · intro table fk
    unfold GenerateForeignKeyDDL quoteIdent
    by_cases hd : fk.OnDelete = "" ∨ fk.OnDelete = "NO_ACTION"
    · have hd' : ¬ (fk.OnDelete ≠ "" ∧ fk.OnDelete ≠ "NO_ACTION") := by tauto
      by_cases hu : fk.OnUpdate = "" ∨ fk.OnUpdate = "NO_ACTION"
      · have hu' : ¬ (fk.OnUpdate ≠ "" ∧ fk.OnUpdate ≠ "NO_ACTION") := by tauto
        simp only [if_pos hd, if_neg hd', if_pos hu, if_neg hu']
        simp
      · have hu' : fk.OnUpdate ≠ "" ∧ fk.OnUpdate ≠ "NO_ACTION" := by tauto
        simp only [if_pos hd, if_neg hd', if_neg hu, if_pos hu']
        simp
    · have hd' : fk.OnDelete ≠ "" ∧ fk.OnDelete ≠ "NO_ACTION" := by tauto
      by_cases hu : fk.OnUpdate = "" ∨ fk.OnUpdate = "NO_ACTION"
      · have hu' : ¬ (fk.OnUpdate ≠ "" ∧ fk.OnUpdate ≠ "NO_ACTION") := by tauto
        simp only [if_neg hd, if_pos hd', if_pos hu, if_neg hu']
        simp
      · have hu' : fk.OnUpdate ≠ "" ∧ fk.OnUpdate ≠ "NO_ACTION" := by tauto
        simp only [if_neg hd, if_pos hd', if_neg hu, if_pos hu']
        simp
  · intro s
    refine ⟨by simp [ReplaceUnderscores], ?_, fun i => by simp [ReplaceUnderscores]⟩
    unfold ReplaceUnderscores
    intro hmem
    obtain ⟨r, _, hr⟩ := List.mem_map.mp hmem
    by_cases h : r = '_'
    · rw [if_pos h] at hr
      exact absurd hr (by decide)
    · rw [if_neg h] at hr
      exact h hr

/-! ## C11: SERIAL columns carry neither NOT NULL nor DEFAULT -/

theorem Join_pair (a b : Str) : Join [a, b] " " = a ++ " " ++ b := by
  simp [Join, List.intercalate]

theorem HasSuffix_serial_of_paren (x : Str) : HasSuffix (x ++ ")") "SERIAL" = false := by
  simp [HasSuffix, List.isSuffixOf, List.isPrefixOf]

/-- A mapped type that ends in `SERIAL` is one of the three SERIAL-family types. -/
theorem mapTypeSwitch_serial (dataType : Str) (col : ColumnInfo) :
    HasSuffix (mapTypeSwitch dataType col).1 "SERIAL" = false
      ∨ (mapTypeSwitch dataType col).1 ∈ serialTypes := by
  unfold mapTypeSwitch
  repeat' apply ite_pred (fun r : Str × List Str => HasSuffix r.1 "SERIAL" = false ∨ r.1 ∈ serialTypes)
  all_goals first
    | exact Or.inr (by decide)
    | exact Or.inl (HasSuffix_serial_of_paren _)
    | exact Or.inl rfl

/-- C11. A column whose mapped type is SERIAL, BIGSERIAL or SMALLSERIAL is defined
by its quoted name, one space and the type, whatever its nullability and default
text; every other column is defined by its quoted name, the type, ` NOT NULL`
exactly when it is not nullable, and then its DEFAULT clause, if any. -/
theorem serial_column_ddl (std : GoStd) (tm : TypeMapper) (c : ColumnInfo) :
    ((MapType std tm c).1 ∈ serialTypes →
      (GenerateColumnDDL std tm c).1 = quoteIdent c.Name ++ " " ++ (MapType std tm c).1)
    ∧ ((MapType std tm c).1 ∉ serialTypes →
      (GenerateColumnDDL std tm c).1
        = quoteIdent c.Name ++ " " ++ (MapType std tm c).1
          ++ (if c.IsNullable = false then (" NOT NULL" : Str) else "")
          ++ (match c.DefaultValue with
              | some dv =>
                if (MapDefaultValue std tm dv c.DataType).1 ≠ ""
                then (" DEFAULT " : Str) ++ (MapDefaultValue std tm dv c.DataType).1 else ""
              | none => "")) := by
  rw [GenerateColumnDDL_fst, MapType_fst]
  simp only [MapDefaultValue_fst]
  generalize hpg : (mapTypeSwitch (ToLower std c.DataType) c).1 = pg
  have hser : HasSuffix pg "SERIAL" = true → pg ∈ serialTypes := by
    intro h
    rcases mapTypeSwitch_serial (ToLower std c.DataType) c with h' | h'
    · rw [hpg, h] at h'
      exact absurd h' (by decide)
    · rw [hpg] at h'
      exact h'
  constructor
  · intro hmem
    have hs : HasSuffix pg "SERIAL" = true := by
      simp only [serialTypes, List.map, List.mem_cons, List.mem_singleton, List.not_mem_nil,
        or_false] at hmem
      rcases hmem with h | h | h <;> rw [h] <;> decide
    generalize HasSuffix pg "SERIAL" = ser at hs
    subst hs
    cases c.DefaultValue <;> cases c.IsNullable <;> simp [Join, List.intercalate]
  · intro hnot
    have hs : HasSuffix pg "SERIAL" = false := by
      cases h : HasSuffix pg "SERIAL"
      · rfl
      · exact absurd (hser h) hnot
    generalize HasSuffix pg "SERIAL" = ser at hs
    subst hs
    cases hd : c.DefaultValue with
    | none => cases c.IsNullable <;> simp [Join, List.intercalate]
    | some dv =>
      simp only []
      generalize (mapDefaultBody std dv c.DataType).1 = out
      by_cases ho : out = []
      · cases c.IsNullable <;> simp [ho, Join, List.intercalate]
      · cases c.IsNullable <;> simp [ho, Join, List.intercalate]

/-- C11 (witness). The identity column `Id INT NOT NULL DEFAULT ((1))` is defined
as `"Id" SERIAL`. -/
theorem serial_column_ddl_witness :
    (GenerateColumnDDL asciiStd NewTypeMapper
        { mkColumn "Id" "int" with
          IsIdentity := true, IsNullable := false, DefaultValue := some ("((1))" : Str) }).1
      = ("\"Id\" SERIAL" : Str) :=
  (serial_column_ddl asciiStd NewTypeMapper
      { mkColumn "Id" "int" with
        IsIdentity := true, IsNullable := false, DefaultValue := some ("((1))" : Str) }).1
    (by decide)

/-! ## C12: identifier quoting -/

/-- C12 (evaluation at the failing inputs). The generators enclose an identifier
in double quotes without doubling an embedded double quote: the column `a"b` is
written `"a"b"`, where the escape discipline gives `"a""b"`, and the same holds
for the schema, table, index, constraint and key-column names of the CREATE
TABLE, CREATE INDEX and ALTER TABLE statements. -/
theorem identifier_quote_not_doubled :
    (∀ s : Str, quoteIdent s = ("\"" : Str) ++ s ++ "\"")
    ∧ quoteIdent "a\"b" = ("\"a\"b\"" : Str)
    ∧ escapedIdent "a\"b" = ("\"a\"\"b\"" : Str)
    ∧ (∀ (std : GoStd) (tm : TypeMapper),
        (GenerateColumnDDL std tm quotedNameColumn).1 = ("\"a\"b\" INTEGER" : Str))
    ∧ (∀ (std : GoStd) (tm : TypeMapper),
        (GenerateCreateTableDDL std tm quotedNameTable).1
          = ("CREATE TABLE \"s\"x\".\"t\"y\" (\n    \"a\"b\" INTEGER,\n    PRIMARY KEY (\"a\"b\")\n)" : Str))
    ∧ GenerateIndexDDL quotedNameTable quotedNameIndex
        = ("CREATE INDEX \"i\"x\" ON \"s\"x\".\"t\"y\" (\"a\"b\")" : Str)
    ∧ GenerateForeignKeyDDL quotedNameTable quotedNameFk
        = ("ALTER TABLE \"s\"x\".\"t\"y\" ADD CONSTRAINT \"f\"k\" FOREIGN KEY (\"a\"b\") REFERENCES \"r\"s\".\"r\"t\" (\"c\"d\")" : Str) :=
  ⟨fun _ => rfl, by decide, by decide, fun _ _ => rfl, fun _ _ => rfl, by decide, by decide⟩

/-! ## C13: table selection -/

theorem matchesAny_iff (names : List Str) (fullName name : Str) :
    matchesAny names fullName name = true ↔ name ∈ names ∨ fullName ∈ names := by
  induction names with
  | nil => simp [matchesAny]
  | cons x xs ih =>
    unfold matchesAny
    by_cases h : x = fullName ∨ x = name
    · rw [if_pos h]
      rcases h with h | h <;> simp [h]
    · rw [if_neg h, ih]
      have h1 : ¬ fullName = x := fun e => h (Or.inl e.symm)
      have h2 : ¬ name = x := fun e => h (Or.inr e.symm)
      simp [h1, h2]

/-- The selection condition in closed form: the table is not named, bare or as
`schema.name`, in the exclude list, and the include list is empty or names it. -/
theorem selectStep_eq (config : MigrationConfig) (tables : List TableInfo) (t : TableInfo) :
    selectStep config tables t
      = if (¬ (t.Name ∈ config.ExcludeTables
                ∨ (t.Schema ++ "." ++ t.Name : Str) ∈ config.ExcludeTables))
            ∧ (config.IncludeTables = [] ∨ t.Name ∈ config.IncludeTables
                ∨ (t.Schema ++ "." ++ t.Name : Str) ∈ config.IncludeTables)
        then tables ++ [t] else tables := by
  unfold selectStep
  simp only []
  have hx := matchesAny_iff config.ExcludeTables (t.Schema ++ "." ++ t.Name) t.Name
  have hi := matchesAny_iff config.IncludeTables (t.Schema ++ "." ++ t.Name) t.Name
  generalize matchesAny config.ExcludeTables (t.Schema ++ "." ++ t.Name) t.Name = ex at hx ⊢
  generalize matchesAny config.IncludeTables (t.Schema ++ "." ++ t.Name) t.Name = inc at hi ⊢
  by_cases hnil : config.IncludeTables = []
  · have hlen : ¬ config.IncludeTables.length > 0 := by simp [hnil]
    cases ex <;> simp_all
  · have hlen : config.IncludeTables.length > 0 := List.length_pos.mpr hnil
    cases ex <;> cases inc <;> simp_all

theorem foldl_selectStep (config : MigrationConfig) (all acc : List TableInfo) :
    all.foldl (selectStep config) acc
      = acc ++ all.filter (fun t =>
          decide ((¬ (t.Name ∈ config.ExcludeTables
                ∨ (t.Schema ++ "." ++ t.Name : Str) ∈ config.ExcludeTables))
            ∧ (config.IncludeTables = [] ∨ t.Name ∈ config.IncludeTables
                ∨ (t.Schema ++ "." ++ t.Name : Str) ∈ config.IncludeTables))) := by
  induction all generalizing acc with
  | nil => simp
  | cons t ts ih =>
    rw [List.foldl_cons, ih, selectStep_eq]
    by_cases h : (¬ (t.Name ∈ config.ExcludeTables
                ∨ (t.Schema ++ "." ++ t.Name : Str) ∈ config.ExcludeTables))
            ∧ (config.IncludeTables = [] ∨ t.Name ∈ config.IncludeTables
                ∨ (t.Schema ++ "." ++ t.Name : Str) ∈ config.IncludeTables)
    · rw [if_pos h, List.filter_cons_of_pos (by simpa using h)]
      simp
    · rw [if_neg h, List.filter_cons_of_neg (by simpa using h)]

/-- C13 (counterexample). A table that the source lists twice is selected twice:
the selection is not free of duplicates. -/
theorem select_tables_keeps_duplicates :
    selectTables sampleConfig [usersTable, usersTable] = [usersTable, usersTable]
    ∧ ¬ (selectTables sampleConfig [usersTable, usersTable]).Nodup
    ∧ (getTablestoMigrate { quietWorld with getTables := fun _ => .ok [usersTable, usersTable] }
        (startedEngine sampleConfig)).1 = .ok [usersTable, usersTable] := by
  refine ⟨by rfl, ?_, by rfl⟩
  rw [show selectTables sampleConfig [usersTable, usersTable] = [usersTable, usersTable] from rfl]
  simp

/-- C13 (amended). For every list of source tables and every configuration, the
selected tables are exactly the source tables, in source order and each as often
as the source lists it, that are not named (bare or as `schema.name`) in the
exclude list and that, when the include list is non-empty, are named in it;
hence the selection has no duplicates when the source list has none.  With an
empty include list all non-excluded tables are taken, and a table matched by
the exclude list is never selected, even when the include list names it.  This
selection is what `getTablestoMigrate` returns when the source lists its tables. -/
theorem select_tables_filter (config : MigrationConfig) (allTables : List TableInfo) :
    selectTables config allTables
        = allTables.filter (fun t =>
            decide ((¬ (t.Name ∈ config.ExcludeTables
                  ∨ (t.Schema ++ "." ++ t.Name : Str) ∈ config.ExcludeTables))
              ∧ (config.IncludeTables = [] ∨ t.Name ∈ config.IncludeTables
                  ∨ (t.Schema ++ "." ++ t.Name : Str) ∈ config.IncludeTables)))
    ∧ List.Sublist (selectTables config allTables) allTables
    ∧ (∀ t : TableInfo,
        (selectTables config allTables).count t
          = if (¬ (t.Name ∈ config.ExcludeTables
                  ∨ (t.Schema ++ "." ++ t.Name : Str) ∈ config.ExcludeTables))
              ∧ (config.IncludeTables = [] ∨ t.Name ∈ config.IncludeTables
                  ∨ (t.Schema ++ "." ++ t.Name : Str) ∈ config.IncludeTables)
            then allTables.count t else 0)
    ∧ (allTables.Nodup → (selectTables config allTables).Nodup)
    ∧ (config.IncludeTables = [] →
        selectTables config allTables
          = allTables.filter (fun t =>
              decide (¬ (t.Name ∈ config.ExcludeTables
                ∨ (t.Schema ++ "." ++ t.Name : Str) ∈ config.ExcludeTables))))
    ∧ (∀ t ∈ selectTables config allTables,
        ¬ (t.Name ∈ config.ExcludeTables
          ∨ (t.Schema ++ "." ++ t.Name : Str) ∈ config.ExcludeTables))
    ∧ (∀ (w : World) (e : Engine), e.config = config →
        w.getTables e.trace = .ok allTables →
        (getTablestoMigrate w e).1 = .ok (selectTables config allTables)) := by
  have hf := foldl_selectStep config allTables []
  rw [List.nil_append] at hf
  have hsel : selectTables config allTables = _ := hf
  refine ⟨hsel, ?_, ?_, ?_, ?_, ?_, ?_⟩
  · rw [hsel]
    exact List.filter_sublist _
  · intro t
    rw [hsel]
    by_cases hk : (¬ (t.Name ∈ config.ExcludeTables
        ∨ (t.Schema ++ "." ++ t.Name : Str) ∈ config.ExcludeTables))
        ∧ (config.IncludeTables = [] ∨ t.Name ∈ config.IncludeTables
          ∨ (t.Schema ++ "." ++ t.Name : Str) ∈ config.IncludeTables)
    · rw [if_pos hk]
      exact List.count_filter (decide_eq_true hk)
    · rw [if_neg hk]
      apply List.count_eq_zero_of_not_mem
      intro hmem
      have := (List.mem_filter.mp hmem).2
      simp only [decide_eq_true_eq] at this
      exact hk this
  · intro hnd
    rw [hsel]
    exact hnd.filter _
  · intro hnil
    rw [hsel]
    apply List.filter_congr
    intro t _
    simp [hnil]
  · intro t ht
    rw [hsel] at ht
    have := (List.mem_filter.mp ht).2
    simp only [decide_eq_true_eq] at this
    exact this.1
  · intro w e hc hall
    unfold getTablestoMigrate
    rw [hall, hc]

/-! ## C20: value equality -/

/-- C20. Two NULLs are equal and a NULL never equals a non-NULL value; two
non-NULL values are equal exactly when their textual forms are identical or
one is `true` and the other `1`, or one is `false` and the other `0`.  In
particular `A@x` and `a@x` differ, and so do `1` and `1.0`. -/
theorem values_equal_spec :
    valuesEqual none none = true
    ∧ (∀ s : Str, valuesEqual none (some s) = false ∧ valuesEqual (some s) none = false)
    ∧ (∀ a b : Str, valuesEqual (some a) (some b) = true ↔
        (a = b ∨ (a = "true" ∧ b = "1") ∨ (a = "1" ∧ b = "true")
          ∨ (a = "false" ∧ b = "0") ∨ (a = "0" ∧ b = "false")))
    ∧ valuesEqual (some "A@x") (some "a@x") = false
    ∧ valuesEqual (some "1") (some "1.0") = false := by
  refine ⟨rfl, fun _ => ⟨rfl, rfl⟩, ?_, by decide, by decide⟩
  intro a b
  unfold valuesEqual
  simp only []
  split_ifs with h1 h2 h3 h4
  · simp [h1]
  · simp [h2]
  · simp [h3]
  · simp [h4]
  · simp only [decide_eq_true_eq]
    constructor
    · exact Or.inl
    · rintro (h | h | h | h | h)
      · exact h
      · exact absurd h h1
      · exact absurd h h3
      · exact absurd h h2
      · exact absurd h h4

/-! ## Stretches of a run -/

theorem copiedCount_append (a b : List Event) :
    copiedCount (a ++ b) = copiedCount a + copiedCount b := by
  induction a with
  | nil => simp [copiedCount]
  | cons ev rest ih =>
    cases ev with
    | copyFrom s n c rows r =>
      cases r <;> simp [copiedCount, ih, add_assoc]
    | _ => simp [copiedCount, ih]

theorem copiedCount_nonneg (a : List Event) : 0 ≤ copiedCount a := by
  induction a with
  | nil => simp [copiedCount]
  | cons ev rest ih =>
    cases ev with
    | copyFrom s n c rows r =>
      cases r <;> simp only [copiedCount] <;> omega
    | _ => simpa [copiedCount] using ih

theorem progressAccurate_append (m : Int) (a b : List Event) :
    progressAccurate m (a ++ b)
      ↔ progressAccurate m a ∧ progressAccurate (m + copiedCount a) b := by
  induction a generalizing m with
  | nil => simp [progressAccurate, copiedCount]
  | cons ev rest ih =>
    cases ev with
    | copyFrom s n c rows r =>
      cases r <;> simp [progressAccurate, copiedCount, ih, add_assoc]
    | updateMigrationProgress a1 a2 a3 a4 =>
      simp [progressAccurate, copiedCount, ih, and_assoc]
    | _ => simp [progressAccurate, copiedCount, ih]

theorem Stretch.refl (P : Event → Prop) (e : Engine) : Stretch P e e :=
  ⟨rfl, rfl, [], by simp, by simp, by simp [copiedCount], trivial⟩

theorem Stretch.trans {P : Event → Prop} {a b c : Engine} (h1 : Stretch P a b)
    (h2 : Stretch P b c) : Stretch P a c := by
  obtain ⟨c1, s1, n1, t1, p1, m1, r1⟩ := h1
  obtain ⟨c2, s2, n2, t2, p2, m2, r2⟩ := h2
  refine ⟨c2.trans c1, s2.trans s1, n1 ++ n2, ?_, ?_, ?_, ?_⟩
  · rw [t2, t1, List.append_assoc]
  · intro ev hev
    rcases List.mem_append.mp hev with h | h
    · exact p1 ev h
    · exact p2 ev h
  · rw [m2, m1, copiedCount_append]
    omega
  · rw [progressAccurate_append]
    refine ⟨r1, ?_⟩
    rw [← m1]
    exact r2

theorem Stretch.mono {P Q : Event → Prop} {a b : Engine} (h : Stretch P a b)
    (hPQ : ∀ ev, P ev → Q ev) : Stretch Q a b := by
  obtain ⟨c1, s1, n1, t1, p1, m1, r1⟩ := h
  exact ⟨c1, s1, n1, t1, fun ev hev => hPQ ev (p1 ev hev), m1, r1⟩

/-- Appending an event that is neither a bulk copy nor a progress write. -/
theorem Stretch.emit {P : Event → Prop} (e : Engine) (ev : Event) (hP : P ev)
    (h0 : copiedCount [ev] = 0) (hp : progressAccurate e.state.MigratedRows [ev]) :
    Stretch P e (e.emit ev) :=
  ⟨rfl, rfl, [ev], rfl, by simpa using hP, by rw [h0]; simp [Engine.emit], hp⟩

theorem Stretch.log {P : Event → Prop} (e : Engine) (level : LogLevel) (msg : Str)
    (hP : P (.log level msg)) : Stretch P e (e.log level msg) :=
  Stretch.emit e _ hP rfl trivial

theorem Stretch.setState {P : Event → Prop} (e : Engine) (f : MigrationState → MigrationState)
    (hs : (f e.state).Status = e.state.Status)
    (hm : (f e.state).MigratedRows = e.state.MigratedRows) :
    Stretch P e (e.setState f) :=
  ⟨rfl, hs, [], by simp [Engine.setState], by simp, by simp [Engine.setState, copiedCount, hm],
    trivial⟩

theorem Stretch.setMapper {P : Event → Prop} (e : Engine) (tm : TypeMapper) :
    Stretch P e (e.setMapper tm) :=
  ⟨rfl, rfl, [], by simp [Engine.setMapper], by simp,
    by simp [Engine.setMapper, copiedCount], trivial⟩

theorem Stretch.foldl {P : Event → Prop} {α : Type} (f : Engine → α → Engine)
    (h : ∀ e x, Stretch P e (f e x)) (xs : List α) (e : Engine) :
    Stretch P e (xs.foldl f e) := by
  induction xs generalizing e with
  | nil => exact Stretch.refl P e
  | cons x xs ih => exact (h e x).trans (ih (f e x))

/-- A call whose error, if any, is logged. -/
theorem Stretch.call {P : Event → Prop} (e : Engine) (ev : Event)
    (answer : List Event → Option Str) (level : LogLevel) (msg : Str → Str) (hP : P ev)
    (hL : ∀ m, P (.log level m)) (h0 : copiedCount [ev] = 0)
    (hp : progressAccurate e.state.MigratedRows [ev]) :
    Stretch P e (e.call ev answer level msg) := by
  unfold Engine.call
  split
  · exact (Stretch.emit e ev hP h0 hp).trans (Stretch.log _ _ _ (hL _))
  · exact Stretch.emit e ev hP h0 hp


/-! ### Peeling the last operation of a stretch -/

theorem Stretch.thenEmit {P : Event → Prop} {e e1 : Engine} (ev : Event)
    (h : Stretch P e e1) (hP : P ev) (h0 : copiedCount [ev] = 0)
    (hp : progressAccurate e1.state.MigratedRows [ev]) : Stretch P e (e1.emit ev) :=
  h.trans (Stretch.emit e1 ev hP h0 hp)

theorem Stretch.thenLog {P : Event → Prop} {e e1 : Engine} (level : LogLevel) (msg : Str)
    (h : Stretch P e e1) (hP : P (.log level msg)) : Stretch P e (e1.log level msg) :=
  h.trans (Stretch.log e1 level msg hP)

theorem Stretch.thenSetState {P : Event → Prop} {e e1 : Engine}
    (f : MigrationState → MigrationState) (h : Stretch P e e1)
    (hs : (f e1.state).Status = e1.state.Status)
    (hm : (f e1.state).MigratedRows = e1.state.MigratedRows) :
    Stretch P e (e1.setState f) :=
  h.trans (Stretch.setState e1 f hs hm)

/-! ### The phases as stretches -/

theorem early_log (level : LogLevel) (msg : Str) : Event.early (.log level msg) := ⟨rfl, rfl⟩

theorem late_log (level : LogLevel) (msg : Str) : Event.late (.log level msg) := ⟨rfl, rfl⟩

theorem GenerateIndexDDL_not_fk (table : TableInfo) (idx : IndexInfo) :
    HasPrefix (GenerateIndexDDL table idx) "ALTER TABLE " = false := by
  unfold GenerateIndexDDL
  cases idx.IsUnique <;> simp [HasPrefix, List.isPrefixOf]

theorem GenerateCreateTableDDL_not_fk (std : GoStd) (tm : TypeMapper) (table : TableInfo) :
    HasPrefix (GenerateCreateTableDDL std tm table).1 "ALTER TABLE " = false := by
  unfold GenerateCreateTableDDL
  simp [HasPrefix, List.isPrefixOf]

theorem createIndexes_stretch (w : World) (tableDetails : TableInfo) (indexes : List IndexInfo)
    (e : Engine) : Stretch Event.early e (createIndexes w tableDetails indexes e) := by
  unfold createIndexes
  apply Stretch.foldl
  intro e idx
  exact Stretch.call e _ _ _ _ ⟨rfl, GenerateIndexDDL_not_fk tableDetails idx⟩ (early_log _)
    rfl trivial

theorem createSchemaStep_stretch (w : World) (table : TableInfo) (e : Engine) :
    Stretch Event.early e (createSchemaStep w table e) :=
  Stretch.call e _ _ _ _ ⟨rfl, rfl⟩ (early_log _) rfl trivial

theorem dropTableStep_stretch (w : World) (table : TableInfo) (e : Engine) :
    Stretch Event.early e (dropTableStep w table e) := by
  unfold dropTableStep
  split
  · exact Stretch.call e _ _ _ _ ⟨rfl, rfl⟩ (early_log _) rfl trivial
  · exact Stretch.refl _ e

theorem flushWarnings_stretch (e : Engine) : Stretch Event.early e (flushWarnings e) := by
  unfold flushWarnings
  exact (Stretch.foldl _ (fun e x => Stretch.log e _ _ (early_log _ _)) _ e).trans
    (Stretch.setMapper _ _)

theorem createTableStep_stretch (w : World) (table tableDetails : TableInfo) (e : Engine) :
    Stretch Event.early e (createTableStep w table tableDetails e) := by
  have h1 : Stretch Event.early e
      ((e.setMapper (GenerateCreateTableDDL w.std e.typeMapper tableDetails).2).emit
        (.executeDDL (GenerateCreateTableDDL w.std e.typeMapper tableDetails).1)) :=
    (Stretch.setMapper e _).trans
      (Stretch.emit _ _ ⟨rfl, GenerateCreateTableDDL_not_fk _ _ _⟩ rfl trivial)
  unfold createTableStep
  simp only []
  split
  · exact h1.trans (Stretch.log _ _ _ (early_log _ _))
  · exact ((h1.trans (createIndexes_stretch _ _ _ _)).trans
      (Stretch.log _ _ _ (early_log _ _))).trans (flushWarnings_stretch _)

theorem migrateSchemaTable_stretch (w : World) (e : Engine) (table : TableInfo) :
    Stretch Event.early e (migrateSchemaTable w e table) := by
  have h1 : Stretch Event.early e (e.emit (.getTableDetails table.Schema table.Name)) :=
    Stretch.emit e _ ⟨rfl, rfl⟩ rfl trivial
  unfold migrateSchemaTable
  split
  · exact h1.trans (Stretch.log _ _ _ (early_log _ _))
  · exact ((h1.trans (createSchemaStep_stretch _ _ _)).trans
      (dropTableStep_stretch _ _ _)).trans (createTableStep_stretch _ _ _ _)

theorem migrateSchema_stretch (w : World) (tables : List TableInfo) (e : Engine) :
    Stretch Event.early e (migrateSchema w tables e).2 := by
  induction tables generalizing e with
  | nil => exact Stretch.refl _ e
  | cons table rest ih =>
    unfold migrateSchema
    split
    · exact Stretch.refl _ e
    · exact (migrateSchemaTable_stretch w e table).trans (ih _)

theorem recordBatch_copy (table : TableInfo) (tableName : Str) (cols : List Str)
    (rows : List Row) (n migratedRows : Int) (e : Engine) :
    Stretch Event.early e
      (recordBatch table tableName migratedRows rows.length
        (e.emit (.copyFrom table.Schema table.Name cols rows (.ok n)))) := by
  refine ⟨rfl, rfl, [.copyFrom table.Schema table.Name cols rows (.ok n),
    .progress tableName table.RowCount migratedRows], ?_, ?_, ?_, ?_⟩
  · simp [recordBatch, Engine.emit, Engine.setState]
  · intro ev hev
    simp only [List.mem_cons, List.mem_singleton, List.not_mem_nil, or_false] at hev
    rcases hev with h | h <;> rw [h] <;> exact ⟨rfl, rfl⟩
  · simp [recordBatch, Engine.emit, Engine.setState, copiedCount]
  · simp [progressAccurate]

theorem batchLoop_stretch (w : World) (table tableDetails : TableInfo) (tableName : Str)
    (fuel : Nat) (migratedRows offset : Int) (e : Engine) :
    Stretch Event.early e
      (batchLoop w table tableDetails tableName fuel migratedRows offset e).2.2 := by
  induction fuel generalizing migratedRows offset e with
  | zero => exact Stretch.refl _ e
  | succ fuel ih =>
    have h1 : Stretch Event.early e
        (e.emit (.readBatch table.Schema table.Name (prepareColumns tableDetails.Columns).1
          (orderByColumn tableDetails.Columns) offset e.config.BatchSize)) :=
      Stretch.emit e _ ⟨rfl, rfl⟩ rfl trivial
    unfold batchLoop
    split
    · exact Stretch.refl _ e
    · split
      · exact h1
      · split
        · exact h1
        · split
          · exact h1.trans (Stretch.emit _ _ ⟨rfl, rfl⟩ rfl trivial)
          · exact (h1.trans (recordBatch_copy _ _ _ _ _ _ _)).trans (ih _ _ _)

theorem syncSequences_stretch (w : World) (table : TableInfo) (tableName : Str)
    (cols : List ColumnInfo) (e : Engine) :
    Stretch Event.early e (syncSequences w table tableName cols e) := by
  unfold syncSequences
  apply Stretch.foldl
  intro e col
  split
  · exact Stretch.call e _ _ _ _ ⟨rfl, rfl⟩ (early_log _) rfl trivial
  · exact Stretch.refl _ e

theorem registerTable_stretch (table : TableInfo) (tableName : Str) (e : Engine) :
    Stretch Event.early e (registerTable table tableName e) :=
  (Stretch.log e _ _ (early_log _ _)).trans (Stretch.setState _ _ rfl rfl)

theorem disableTriggersStep_stretch (w : World) (table : TableInfo) (tableName : Str)
    (e : Engine) : Stretch Event.early e (disableTriggersStep w table tableName e) :=
  Stretch.call e _ _ _ _ ⟨rfl, rfl⟩ (early_log _) rfl trivial

theorem enableTriggersStep_stretch (w : World) (table : TableInfo) (tableName : Str)
    (e : Engine) : Stretch Event.early e (enableTriggersStep w table tableName e) :=
  Stretch.call e _ _ _ _ ⟨rfl, rfl⟩ (early_log _) rfl trivial

theorem completeTable_stretch (tableName : Str) (migratedRows : Int) (e : Engine) :
    Stretch Event.early e (completeTable tableName migratedRows e) := by
  unfold completeTable
  refine Stretch.thenLog _ _ ?_ (early_log _ _)
  refine Stretch.thenEmit _ ?_ ?_ ?_ ?_
  · exact Stretch.setState e _ rfl rfl
  · exact ⟨rfl, rfl⟩
  · rfl
  · trivial

theorem finishTable_stretch (w : World) (table tableDetails : TableInfo) (tableName : Str)
    (migratedRows : Int) (e : Engine) :
    Stretch Event.early e (finishTable w table tableDetails tableName migratedRows e) :=
  ((enableTriggersStep_stretch w table tableName e).trans
    (syncSequences_stretch _ _ _ _ _)).trans (completeTable_stretch _ _ _)

theorem streamTable_stretch (w : World) (fuel : Nat) (table tableDetails : TableInfo)
    (tableName : Str) (e : Engine) :
    Stretch Event.early e (streamTable w fuel table tableDetails tableName e).2 := by
  have h1 := (disableTriggersStep_stretch w table tableName e).trans
    (batchLoop_stretch w table tableDetails tableName fuel 0 0 _)
  unfold streamTable
  split
  · rename_i heq
    rw [heq] at h1
    exact h1.trans (finishTable_stretch _ _ _ _ _ _)
  · rename_i heq
    rw [heq] at h1
    exact h1

theorem migrateTableData_stretch (w : World) (fuel : Nat) (e : Engine) (table : TableInfo) :
    Stretch Event.early e (migrateTableData w fuel e table).2 := by
  have h1 : Stretch Event.early e
      ((registerTable table (table.Schema ++ "." ++ table.Name) e).emit
        (.getTableDetails table.Schema table.Name)) :=
    (registerTable_stretch _ _ e).trans (Stretch.emit _ _ ⟨rfl, rfl⟩ rfl trivial)
  unfold migrateTableData
  split
  · exact h1
  · exact h1.trans (streamTable_stretch _ _ _ _ _ _)

theorem updateProgress_stretch (w : World) (e : Engine) :
    Stretch Event.early e (updateProgress w e) :=
  Stretch.call e _ _ _ _ ⟨rfl, rfl⟩ (early_log _) rfl ⟨rfl, trivial⟩

theorem afterTable_stretch (w : World) (table : TableInfo) (out : Outcome) (e : Engine) :
    Stretch Event.early e (afterTable w table out e) := by
  unfold afterTable
  refine Stretch.trans (Stretch.trans ?_ (Stretch.setState _ _ rfl rfl))
    (updateProgress_stretch w _)
  split
  · exact Stretch.log e _ _ (early_log _ _)
  · exact Stretch.refl _ e

theorem migrateDataLoop_stretch (w : World) (fuel : Nat) (tables : List TableInfo)
    (e : Engine) : Stretch Event.early e (migrateDataLoop w fuel tables e).2 := by
  induction tables generalizing e with
  | nil => exact Stretch.refl _ e
  | cons table rest ih =>
    have h1 := migrateTableData_stretch w fuel e table
    unfold migrateDataLoop
    split
    · exact Stretch.refl _ e
    · split
      · rename_i heq
        rw [heq] at h1
        exact h1
      · rename_i heq
        rw [heq] at h1
        exact (h1.trans (afterTable_stretch _ _ _ _)).trans (ih _)

theorem migrateData_stretch (w : World) (fuel : Nat) (tables : List TableInfo) (e : Engine) :
    Stretch Event.early e (migrateData w fuel tables e).2 :=
  (Stretch.setState e _ rfl rfl).trans (migrateDataLoop_stretch w fuel tables _)

theorem createTableForeignKeys_stretch (w : World) (tableDetails : TableInfo)
    (fks : List ForeignKey) (e : Engine) :
    Stretch Event.late e (createTableForeignKeys w tableDetails fks e) := by
  unfold createTableForeignKeys
  apply Stretch.foldl
  intro e fk
  exact Stretch.call e _ _ _ _ ⟨rfl, rfl⟩ (late_log _) rfl trivial

theorem createForeignKeys_stretch (w : World) (tables : List TableInfo) (e : Engine) :
    Stretch Event.late e (createForeignKeys w tables e) := by
  unfold createForeignKeys
  apply Stretch.foldl
  intro e table
  have h1 : Stretch Event.late e (e.emit (.getTableDetails table.Schema table.Name)) :=
    Stretch.emit e _ ⟨rfl, rfl⟩ rfl trivial
  split
  · exact h1
  · exact h1.trans (createTableForeignKeys_stretch _ _ _ _)

theorem warnObjects_stretch (answer : List Event → Res (List (Str × Str))) (call : Event)
    (hc : Event.late call) (h0 : copiedCount [call] = 0)
    (hp : ∀ m, progressAccurate m [call]) (failure what advice : Str) (e : Engine) :
    Stretch Event.late e (warnObjects answer call failure what advice e) := by
  have h1 : Stretch Event.late e (e.emit call) := Stretch.emit e _ hc h0 (hp _)
  unfold warnObjects
  split
  · exact h1.trans (Stretch.log _ _ _ (late_log _ _))
  · exact h1.trans (Stretch.foldl _ (fun e x => Stretch.log e _ _ (late_log _ _)) _ _)

theorem migrateProgrammableObjects_stretch (w : World) (e : Engine) :
    Stretch Event.late e (migrateProgrammableObjects w e) := by
  have hv : ∀ e, Stretch Event.late e (warnViews w e) := by
    intro e
    unfold warnViews
    split
    · exact warnObjects_stretch w.getViews .getViews ⟨rfl, rfl⟩ rfl (fun _ => trivial) _ _ _ e
    · exact Stretch.refl _ e
  have hq : ∀ e, Stretch Event.late e (warnProcedures w e) := by
    intro e
    unfold warnProcedures
    split
    · exact warnObjects_stretch w.getStoredProcedures .getStoredProcedures ⟨rfl, rfl⟩ rfl (fun _ => trivial) _ _ _ e
    · exact Stretch.refl _ e
  have hf : ∀ e, Stretch Event.late e (warnFunctions w e) := by
    intro e
    unfold warnFunctions
    split
    · exact warnObjects_stretch w.getFunctions .getFunctions ⟨rfl, rfl⟩ rfl (fun _ => trivial) _ _ _ e
    · exact Stretch.refl _ e
  exact ((hv e).trans (hq _)).trans (hf _)

theorem phase3_stretch (w : World) (tables : List TableInfo) (e : Engine) :
    Stretch Event.late e (phase3 w tables e) := by
  unfold phase3
  split
  · exact (Stretch.log e _ _ (late_log _ _)).trans (createForeignKeys_stretch _ _ _)
  · exact Stretch.refl _ e

theorem phase4_stretch (w : World) (e : Engine) : Stretch Event.late e (phase4 w e) := by
  unfold phase4
  split
  · exact (Stretch.log e _ _ (late_log _ _)).trans (migrateProgrammableObjects_stretch _ _)
  · exact Stretch.refl _ e

/-! ## The shape of a whole run -/

theorem statusWrites_append (a b : List Event) :
    statusWrites (a ++ b) = statusWrites a ++ statusWrites b := by
  induction a with
  | nil => rfl
  | cons ev a ih => cases ev <;> simp [statusWrites, ih]

theorem statusWrites_of_none (a : List Event) (h : ∀ ev ∈ a, Event.isStatusWrite ev = false) :
    statusWrites a = [] := by
  induction a with
  | nil => rfl
  | cons ev a ih =>
    have h1 := h ev (List.mem_cons_self _ _)
    have h2 := ih (fun x hx => h x (List.mem_cons_of_mem _ hx))
    cases ev <;> simp_all [statusWrites, Event.isStatusWrite]

theorem RunSummary.stop (e : Engine) : RunSummary e .outOfFuel e :=
  ⟨[], [], by simp, by simp, by simp, rfl, rfl⟩

theorem RunSummary.prepend {e e1 e2 : Engine} {out : Outcome}
    (h : Stretch Event.early e e1) (s : RunSummary e1 out e2) : RunSummary e out e2 := by
  obtain ⟨_, hs, new, ht, hp, _, _⟩ := h
  obtain ⟨A, B, hAB, hA, hB, hout⟩ := s
  refine ⟨new ++ A, B, ?_, ?_, hB, ?_⟩
  · rw [hAB, ht]; simp
  · intro a ha
    rcases List.mem_append.1 ha with h1 | h1
    · exact hp a h1
    · exact hA a h1
  · cases out with
    | ok => exact hout
    | err m => exact hout
    | outOfFuel => exact ⟨hout.1, hout.2.trans hs⟩

theorem RunSummary.fail (e : Engine) (m message : Str) :
    RunSummary e (.err m) (failMigration message e) := by
  refine ⟨[], [.updateMigrationStatus .failed, .log .error message, .errorEvent message,
    .closeConnections], ?_, by simp, ?_, ?_, ?_, ?_⟩
  · simp [failMigration, Engine.fail, Engine.cleanup, Engine.emit, Engine.log, Engine.setState]
  · intro b hb
    simp only [List.mem_cons, List.mem_singleton, List.not_mem_nil, or_false] at hb
    rcases hb with h | h | h | h <;> rw [h] <;> rfl
  · rfl
  · rfl
  · intro b hb
    simp only [List.mem_cons, List.mem_singleton, List.not_mem_nil, or_false] at hb
    rcases hb with h | h | h | h <;> rw [h] <;> rfl

theorem RunSummary.finish (w : World) (tables : List TableInfo) (e : Engine) :
    RunSummary e .ok (finishMigration w tables e) := by
  obtain ⟨_, _, new, ht, hp, _, _⟩ := (phase3_stretch w tables e).trans (phase4_stretch w _)
  refine ⟨[], new ++ [.updateMigrationStatus .completed, .complete,
    .log .info "Migration completed successfully", .closeConnections], ?_, by simp, ?_, ?_, ?_⟩
  · simp [finishMigration, markCompleted, Engine.cleanup, Engine.emit, Engine.log,
      Engine.setState, ht]
  · intro b hb
    rcases List.mem_append.1 hb with h | h
    · exact (hp b h).2
    · simp only [List.mem_cons, List.mem_singleton, List.not_mem_nil, or_false] at h
      rcases h with h | h | h | h <;> rw [h] <;> rfl
  · rw [statusWrites_append, statusWrites_of_none new (fun ev hev => (hp ev hev).1)]
    rfl
  · rfl

theorem runData_summary (w : World) (fuel : Nat) (tables : List TableInfo) (e : Engine) :
    RunSummary e (runData w fuel tables e).1 (runData w fuel tables e).2 := by
  have h1 := (Stretch.log e .info "Phase 2: Migrating data..." (early_log _ _)).trans
    (migrateData_stretch w fuel tables _)
  unfold runData
  split
  · split
    · rename_i heq
      rw [heq] at h1
      exact RunSummary.prepend h1 (RunSummary.fail _ _ _)
    · rename_i heq
      rw [heq] at h1
      exact RunSummary.prepend h1 (RunSummary.stop _)
    · rename_i heq
      rw [heq] at h1
      exact RunSummary.prepend h1 (RunSummary.finish _ _ _)
  · exact RunSummary.finish _ _ _

theorem runSchema_summary (w : World) (fuel : Nat) (tables : List TableInfo) (e : Engine) :
    RunSummary e (runSchema w fuel tables e).1 (runSchema w fuel tables e).2 := by
  have h1 := (Stretch.log e .info "Phase 1: Migrating schema..." (early_log _ _)).trans
    (migrateSchema_stretch w tables _)
  unfold runSchema
  split
  · split
    · rename_i heq
      rw [heq] at h1
      exact RunSummary.prepend h1 (RunSummary.fail _ _ _)
    · rename_i heq
      rw [heq] at h1
      exact RunSummary.prepend h1 (runData_summary _ _ _ _)
  · exact runData_summary _ _ _ _

theorem runMigration_summary (w : World) (fuel : Nat) (e : Engine) :
    RunSummary e (runMigration w fuel e).1 (runMigration w fuel e).2 := by
  have h1 : Stretch Event.early e (e.emit .getTables) :=
    Stretch.emit e _ ⟨rfl, rfl⟩ rfl trivial
  unfold runMigration getTablestoMigrate
  split
  · rename_i heq
    split at heq
    · simp only [Prod.mk.injEq] at heq
      rw [← heq.2]
      exact RunSummary.prepend h1 (RunSummary.fail _ _ _)
    · simp at heq
  · rename_i heq
    split at heq
    · simp at heq
    · simp only [Prod.mk.injEq] at heq
      rw [← heq.2]
      refine RunSummary.prepend (h1.trans ?_) (runSchema_summary _ _ _ _)
      unfold announceTables
      exact Stretch.thenLog _ _ (Stretch.setState _ _ rfl rfl) (early_log _ _)

/-! ## Status writes (C14) -/

/-- C14 (counterexample). Nothing guards the status: `Pause` on a completed run
gives `paused`, `Resume` on a failed run gives `running`, `Cancel` on a completed
run gives `cancelled`; a run cancelled through `Cancel` that reaches a checkpoint
ends with status `failed`, and one that reaches no checkpoint ends `completed`. -/
theorem terminal_status_overwritten :
    (markCompleted (startedEngine sampleConfig)).state.Status = .completed
    ∧ (Pause (markCompleted (startedEngine sampleConfig))).state.Status = .paused
    ∧ (Cancel (markCompleted (startedEngine sampleConfig))).state.Status = .cancelled
    ∧ ((startedEngine sampleConfig).fail "boom").state.Status = .failed
    ∧ (Resume ((startedEngine sampleConfig).fail "boom")).state.Status = .running
    ∧ (Cancel (startedEngine sampleConfig)).state.Status = .cancelled
    ∧ (runMigration cancelledWorld 10 (Cancel (startedEngine sampleConfig))).2.state.Status
        = .failed
    ∧ statusWrites (runMigration cancelledWorld 10 (Cancel (startedEngine sampleConfig))).2.trace
        = [.running, .cancelled, .failed]
    ∧ (runMigration cancelledEmptyWorld 10 (Cancel (startedEngine sampleConfig))).2.state.Status
        = .completed := by
  refine ⟨rfl, rfl, rfl, rfl, rfl, rfl, ?_, ?_, ?_⟩
  · rfl
  · rfl
  · rfl

/-- C14 (amended). `Pause`, `Resume` and `Cancel` set the status to `paused`,
`running` and `cancelled` whatever it was and write it to storage once; a run of
`runMigration` writes `completed` exactly once when it reaches the completion
step, `failed` exactly once when it ends through `fail`, and no status at all
while it is still inside a batch loop, and its final status is the one written. -/
theorem status_written_once (w : World) (fuel : Nat) (e : Engine) :
    ((Pause e).state.Status = .paused
      ∧ (Pause e).trace
        = e.trace ++ [.updateMigrationStatus .paused, .log .info "Migration paused"])
    ∧ ((Resume e).state.Status = .running
      ∧ (Resume e).trace
        = e.trace ++ [.updateMigrationStatus .running, .log .info "Migration resumed"])
    ∧ ((Cancel e).state.Status = .cancelled
      ∧ (Cancel e).trace
        = e.trace ++ [.updateMigrationStatus .cancelled, .log .info "Migration cancelled"])
    ∧ ∃ new, (runMigration w fuel e).2.trace = e.trace ++ new
      ∧ match (runMigration w fuel e).1 with
        | .ok => statusWrites new = [.completed]
            ∧ (runMigration w fuel e).2.state.Status = .completed
        | .err _ => statusWrites new = [.failed]
            ∧ (runMigration w fuel e).2.state.Status = .failed
        | .outOfFuel => statusWrites new = []
            ∧ (runMigration w fuel e).2.state.Status = e.state.Status := by
  refine ⟨⟨rfl, ?_⟩, ⟨rfl, ?_⟩, ⟨rfl, ?_⟩, ?_⟩
  · simp [Pause, Engine.log, Engine.emit, Engine.setState]
  · simp [Resume, Engine.log, Engine.emit, Engine.setState]
  · simp [Cancel, Engine.log, Engine.emit, Engine.setState]
  · obtain ⟨A, B, hAB, hA, _, hout⟩ := runMigration_summary w fuel e
    refine ⟨A ++ B, hAB, ?_⟩
    have hA0 : statusWrites A = [] := statusWrites_of_none A (fun ev hev => (hA ev hev).1)
    generalize (runMigration w fuel e).1 = out at hout
    cases out with
    | ok => exact ⟨by rw [statusWrites_append, hA0, hout.1]; rfl, hout.2⟩
    | err m => exact ⟨by rw [statusWrites_append, hA0, hout.1]; rfl, hout.2.1⟩
    | outOfFuel => exact ⟨by rw [hout.1, List.append_nil, hA0], hout.2⟩

/-! ## Foreign keys after data (C19) -/

theorem GenerateForeignKeyDDL_is_fk (table : TableInfo) (fk : ForeignKey) :
    HasPrefix (GenerateForeignKeyDDL table fk) "ALTER TABLE " = true := by
  unfold GenerateForeignKeyDDL
  simp only []
  split <;> split <;> simp [HasPrefix, List.isPrefixOf]

theorem no_copy_after_fk (A B pre post : List Event) (ev : Event)
    (hA : ∀ a ∈ A, Event.early a) (hB : ∀ b ∈ B, Event.isCopy b = false)
    (h : A ++ B = pre ++ ev :: post) (hev : Event.isFkStatement ev = true) :
    ∀ x ∈ post, Event.isCopy x = false := by
  intro x hx
  rcases List.append_eq_append_iff.1 h with ⟨a', _, h2⟩ | ⟨c', h1, h2⟩
  · exact hB x (by rw [h2]; exact List.mem_append_right _ (List.mem_cons_of_mem _ hx))
  · cases c' with
    | nil =>
      simp only [List.nil_append] at h2
      exact hB x (by rw [← h2]; exact List.mem_cons_of_mem _ hx)
    | cons c c2 =>
      simp only [List.cons_append, List.cons.injEq] at h2
      have hc : Event.early ev := hA ev (by rw [h1, h2.1]; simp)
      rw [hc.2] at hev
      exact absurd hev (by decide)

/-- The order of the events of a run: no bulk copy follows a foreign-key
ALTER TABLE statement; a run that does not reach the completion step issues no
such statement, and a Phase 2 that ends with an error makes the run end that
way; the CREATE TABLE text does not depend on the table's foreign keys and does
not begin with ALTER TABLE, while every text of `GenerateForeignKeyDDL` does. -/
theorem run_orders_foreign_keys (w : World) (fuel : Nat) (e : Engine) :
    (∃ new, (runMigration w fuel e).2.trace = e.trace ++ new
      ∧ (∀ pre ev post, new = pre ++ ev :: post → Event.isFkStatement ev = true →
          ∀ x ∈ post, Event.isCopy x = false)
      ∧ ((runMigration w fuel e).1 ≠ .ok → ∀ ev ∈ new, Event.isFkStatement ev = false))
    ∧ (∀ tables m, e.config.IncludeData = true →
        (migrateData w fuel tables (e.log .info "Phase 2: Migrating data...")).1 = .err m →
        (runData w fuel tables e).1 = .err m
        ∧ ∃ new, (runData w fuel tables e).2.trace = e.trace ++ new
          ∧ ∀ ev ∈ new, Event.isFkStatement ev = false)
    ∧ (∀ (table : TableInfo) (fks : List ForeignKey),
        (GenerateCreateTableDDL w.std e.typeMapper { table with ForeignKeys := fks }).1
          = (GenerateCreateTableDDL w.std e.typeMapper table).1)
    ∧ (∀ table : TableInfo,
        Event.isFkStatement (.executeDDL (GenerateCreateTableDDL w.std e.typeMapper table).1)
          = false)
    ∧ (∀ (table : TableInfo) (fk : ForeignKey),
        Event.isFkStatement (.executeDDL (GenerateForeignKeyDDL table fk)) = true) := by
  have key : ∀ (e0 e1 : Engine) (out : Outcome), RunSummary e0 out e1 →
      ∃ new, e1.trace = e0.trace ++ new
        ∧ (∀ pre ev post, new = pre ++ ev :: post → Event.isFkStatement ev = true →
            ∀ x ∈ post, Event.isCopy x = false)
        ∧ (out ≠ .ok → ∀ ev ∈ new, Event.isFkStatement ev = false) := by
    intro e0 e1 out ⟨A, B, hAB, hA, hB, hout⟩
    refine ⟨A ++ B, hAB, fun pre ev post h hev => no_copy_after_fk A B pre post ev hA hB h hev,
      ?_⟩
    intro hne ev hev
    rcases List.mem_append.1 hev with h | h
    · exact (hA ev h).2
    · cases out with
      | ok => exact absurd rfl hne
      | err m => exact hout.2.2 ev h
      | outOfFuel => rw [hout.1] at h; cases h
  refine ⟨key _ _ _ (runMigration_summary w fuel e), ?_, ?_, ?_, ?_⟩
  · intro tables m hd hm
    have hout : (runData w fuel tables e).1 = .err m := by
      unfold runData
      rw [if_pos hd]
      rcases hmd : migrateData w fuel tables (e.log .info "Phase 2: Migrating data...")
        with ⟨o, e1⟩
      rw [hmd] at hm
      simp only at hm
      subst hm
      rfl
    obtain ⟨new, ht, _, hno⟩ := key _ _ _ (runData_summary w fuel tables e)
    exact ⟨hout, new, ht, hno (by rw [hout]; simp)⟩
  · intro table fks
    rfl
  · intro table
    exact (GenerateCreateTableDDL_not_fk _ _ _)
  · intro table fk
    exact GenerateForeignKeyDDL_is_fk table fk

/-- C19. The CREATE TABLE text can contain a FOREIGN KEY clause: identifiers are
written between double quotes without escaping, so the column name of
`clauseNameTable` closes its quote and the statement sent in Phase 1 reads
`"a" INTEGER, FOREIGN KEY ("a") REFERENCES "dbo"."U" ("b"), "c" INTEGER`.  The
other two parts hold for every run: no bulk copy follows a foreign-key
ALTER TABLE statement, and a run that does not reach the completion step, in
particular one whose Phase 2 ends with an error, issues no such statement; the
CREATE TABLE text does not depend on the foreign keys of the table. -/
theorem foreign_key_clause_in_create_table :
    (∀ (std : GoStd) (tm : TypeMapper),
        (GenerateCreateTableDDL std tm clauseNameTable).1
          = ("CREATE TABLE \"dbo\".\"T\" (\n    \"a\" INTEGER, FOREIGN KEY (\"a\") REFERENCES \"dbo\".\"U\" (\"b\"), \"c\" INTEGER\n)" : Str))
    ∧ (∀ (std : GoStd) (tm : TypeMapper),
        List.IsInfix ("FOREIGN KEY" : Str) (GenerateCreateTableDDL std tm clauseNameTable).1)
    ∧ (Event.executeDDL
          "CREATE TABLE \"dbo\".\"T\" (\n    \"a\" INTEGER, FOREIGN KEY (\"a\") REFERENCES \"dbo\".\"U\" (\"b\"), \"c\" INTEGER\n)")
        ∈ (runMigration clauseNameWorld 10 (startedEngine sampleConfig)).2.trace
    ∧ (runMigration clauseNameWorld 10 (startedEngine sampleConfig)).2.trace.all
        (fun ev => !Event.isFkStatement ev) = true
    ∧ (∀ (w : World) (fuel : Nat) (e : Engine),
        (∃ new, (runMigration w fuel e).2.trace = e.trace ++ new
          ∧ (∀ pre ev post, new = pre ++ ev :: post → Event.isFkStatement ev = true →
              ∀ x ∈ post, Event.isCopy x = false)
          ∧ ((runMigration w fuel e).1 ≠ .ok → ∀ ev ∈ new, Event.isFkStatement ev = false))
        ∧ (∀ tables m, e.config.IncludeData = true →
            (migrateData w fuel tables (e.log .info "Phase 2: Migrating data...")).1 = .err m →
            (runData w fuel tables e).1 = .err m
            ∧ ∃ new, (runData w fuel tables e).2.trace = e.trace ++ new
              ∧ ∀ ev ∈ new, Event.isFkStatement ev = false)
        ∧ (∀ (table : TableInfo) (fks : List ForeignKey),
            (GenerateCreateTableDDL w.std e.typeMapper { table with ForeignKeys := fks }).1
              = (GenerateCreateTableDDL w.std e.typeMapper table).1)
        ∧ (∀ table : TableInfo,
            Event.isFkStatement
              (.executeDDL (GenerateCreateTableDDL w.std e.typeMapper table).1) = false)
        ∧ (∀ (table : TableInfo) (fk : ForeignKey),
            Event.isFkStatement (.executeDDL (GenerateForeignKeyDDL table fk)) = true)) := by
  refine ⟨fun _ _ => rfl, fun _ _ => ?_, by decide, by rfl, run_orders_foreign_keys⟩
  exact ⟨("CREATE TABLE \"dbo\".\"T\" (\n    \"a\" INTEGER, " : Str),
    (" (\"a\") REFERENCES \"dbo\".\"U\" (\"b\"), \"c\" INTEGER\n)" : Str), rfl⟩

/-! ## Row accounting (C17) -/

theorem written_eq_copied (a : List Event) (h : copiesReturnLength a) :
    writtenCount a = copiedCount a := by
  induction a with
  | nil => rfl
  | cons ev a ih =>
    cases ev with
    | copyFrom s n c rows r =>
      cases r with
      | ok k =>
        simp only [copiesReturnLength] at h
        simp only [writtenCount, copiedCount, ih h.2, h.1]
      | err m => exact ih h
    | _ => exact ih h

theorem progressWrites_chain (m : Int) (a : List Event) (h : progressAccurate m a) :
    List.Chain (fun x y : Int => x ≤ y) m (progressWrites a) := by
  induction a generalizing m with
  | nil => exact List.Chain.nil
  | cons ev a ih =>
    cases ev with
    | copyFrom s n c rows r =>
      cases r with
      | ok k =>
        have h1 := ih (m + rows.length) h
        refine List.Chain.imp' (fun _ _ hab => hab) ?_ h1
        intro c hc
        have : (0 : Int) ≤ rows.length := Int.natCast_nonneg _
        omega
      | err msg => exact ih m h
    | updateMigrationProgress tt ct tr mr =>
      simp only [progressAccurate] at h
      simp only [progressWrites]
      rw [h.1]
      exact List.Chain.cons (le_refl m) (ih m h.2)
    | _ => exact ih m h

theorem accounting_of_stretch {P : Event → Prop} {e e' : Engine} (h : Stretch P e e') :
    ∃ new, e'.trace = e.trace ++ new
      ∧ e'.state.MigratedRows = e.state.MigratedRows + copiedCount new
      ∧ (copiesReturnLength new →
          e'.state.MigratedRows = e.state.MigratedRows + writtenCount new)
      ∧ e.state.MigratedRows ≤ e'.state.MigratedRows
      ∧ progressAccurate e.state.MigratedRows new
      ∧ List.Chain (fun x y : Int => x ≤ y) e.state.MigratedRows (progressWrites new) := by
  obtain ⟨_, _, new, ht, _, hm, hp⟩ := h
  refine ⟨new, ht, hm, ?_, ?_, hp, progressWrites_chain _ _ hp⟩
  · intro hc
    rw [written_eq_copied new hc]
    exact hm
  · have := copiedCount_nonneg new
    omega

/-- C17 (amended). Whatever the source and target answer, wherever the run is
cancelled and however long the batch loops are allowed to run, after `migrateData` (and
after `migrateTableData` for one table) `MigratedRows` is its initial value plus
the number of rows handed to the bulk-copy calls that returned without error
since; that is the sum of the row counts those calls returned whenever each
returned the number of rows it was handed; it has not decreased; and every
progress write carries the running total, so the written values never decrease. -/
theorem migrated_rows_accounting (w : World) (fuel : Nat) (tables : List TableInfo)
    (table : TableInfo) (e : Engine) :
    (∃ new, (migrateData w fuel tables e).2.trace = e.trace ++ new
      ∧ (migrateData w fuel tables e).2.state.MigratedRows
          = e.state.MigratedRows + copiedCount new
      ∧ (copiesReturnLength new →
          (migrateData w fuel tables e).2.state.MigratedRows
            = e.state.MigratedRows + writtenCount new)
      ∧ e.state.MigratedRows ≤ (migrateData w fuel tables e).2.state.MigratedRows
      ∧ progressAccurate e.state.MigratedRows new
      ∧ List.Chain (fun x y : Int => x ≤ y) e.state.MigratedRows (progressWrites new))
    ∧ (∃ new, (migrateTableData w fuel e table).2.trace = e.trace ++ new
      ∧ (migrateTableData w fuel e table).2.state.MigratedRows
          = e.state.MigratedRows + copiedCount new
      ∧ (copiesReturnLength new →
          (migrateTableData w fuel e table).2.state.MigratedRows
            = e.state.MigratedRows + writtenCount new)
      ∧ e.state.MigratedRows ≤ (migrateTableData w fuel e table).2.state.MigratedRows
      ∧ progressAccurate e.state.MigratedRows new
      ∧ List.Chain (fun x y : Int => x ≤ y) e.state.MigratedRows (progressWrites new)) :=
  ⟨accounting_of_stretch (migrateData_stretch w fuel tables e),
    accounting_of_stretch (migrateTableData_stretch w fuel e table)⟩

/-- C17 at a run cancelled once the first batch of two rows has been copied:
the run ends with the cancellation error and `MigratedRows` is 2. -/
theorem migrated_rows_accounting_witness :
    (migrateTableData cancelAfterFirstBatchWorld 10 (startedEngine sampleConfig)
        customersTable).1 = .err ctxErr
    ∧ (migrateTableData cancelAfterFirstBatchWorld 10 (startedEngine sampleConfig)
        customersTable).2.state.MigratedRows = 2
    ∧ ∃ new, (migrateTableData cancelAfterFirstBatchWorld 10 (startedEngine sampleConfig)
          customersTable).2.trace = (startedEngine sampleConfig).trace ++ new
        ∧ (migrateTableData cancelAfterFirstBatchWorld 10 (startedEngine sampleConfig)
          customersTable).2.state.MigratedRows
            = (startedEngine sampleConfig).state.MigratedRows + copiedCount new :=
  ⟨rfl, rfl,
    (migrated_rows_accounting cancelAfterFirstBatchWorld 10 [] customersTable
      (startedEngine sampleConfig)).2.imp (fun _ h => ⟨h.1, h.2.1⟩)⟩

/-- C17 (counterexample). Where every bulk copy reports one row written, the
three rows of `Customers` are handed over in batches of two and one: the run ends
without error with `MigratedRows = 3`, the number of rows handed over, while the
calls report 2 rows written. -/
theorem migrated_rows_exceed_written :
    (migrateTableData shortCopyWorld 10 (startedEngine sampleConfig) customersTable).1 = .ok
    ∧ (migrateTableData shortCopyWorld 10 (startedEngine sampleConfig)
        customersTable).2.state.MigratedRows = 3
    ∧ copiedCount (migrateTableData shortCopyWorld 10 (startedEngine sampleConfig)
        customersTable).2.trace = 3
    ∧ writtenCount (migrateTableData shortCopyWorld 10 (startedEngine sampleConfig)
        customersTable).2.trace = 2
    ∧ reportedRowsMigrated (migrateTableData shortCopyWorld 10 (startedEngine sampleConfig)
        customersTable).2.trace = [3] := by
  refine ⟨by rfl, by rfl, by rfl, by rfl, by rfl⟩

/-! ## Triggers and table states on a failed batch (C15, C16) -/

/-- C15. When the first read fails, when the first bulk copy fails, and when the
run is cancelled after the first batch, `migrateTableData` returns the error
having called `DisableTriggers` on the table and never `EnableTriggers`; on the
run without failure both are called. -/
theorem triggers_left_disabled :
    ((migrateTableData readFailWorld 10 (startedEngine sampleConfig) customersTable).1
        = .err "failed to read batch at offset 0: connection reset"
      ∧ (migrateTableData readFailWorld 10 (startedEngine sampleConfig)
          customersTable).2.trace.any (Event.isDisableTriggers "dbo" "Customers") = true
      ∧ (migrateTableData readFailWorld 10 (startedEngine sampleConfig)
          customersTable).2.trace.any (Event.isEnableTriggers "dbo" "Customers") = false)
    ∧ ((migrateTableData copyFailWorld 10 (startedEngine sampleConfig) customersTable).1
        = .err "failed to insert batch at offset 0: disk full"
      ∧ (migrateTableData copyFailWorld 10 (startedEngine sampleConfig)
          customersTable).2.trace.any (Event.isDisableTriggers "dbo" "Customers") = true
      ∧ (migrateTableData copyFailWorld 10 (startedEngine sampleConfig)
          customersTable).2.trace.any (Event.isEnableTriggers "dbo" "Customers") = false)
    ∧ ((migrateTableData cancelAfterFirstBatchWorld 10 (startedEngine sampleConfig)
          customersTable).1 = .err ctxErr
      ∧ (migrateTableData cancelAfterFirstBatchWorld 10 (startedEngine sampleConfig)
          customersTable).2.trace.any (Event.isDisableTriggers "dbo" "Customers") = true
      ∧ (migrateTableData cancelAfterFirstBatchWorld 10 (startedEngine sampleConfig)
          customersTable).2.trace.any (Event.isEnableTriggers "dbo" "Customers") = false)
    ∧ ((migrateTableData quietWorld 10 (startedEngine sampleConfig) customersTable).1 = .ok
      ∧ (migrateTableData quietWorld 10 (startedEngine sampleConfig)
          customersTable).2.trace.any (Event.isEnableTriggers "dbo" "Customers") = true) := by
  refine ⟨⟨?_, ?_, ?_⟩, ⟨?_, ?_, ?_⟩, ⟨?_, ?_, ?_⟩, ?_, ?_⟩ <;> rfl

/-- C16. With the two tables `Customers` and `Orders`, where every bulk copy into
`Customers` fails (and likewise where every read of it fails): the overall status
stays `running`, `Orders` is migrated and its substate ends `completed`, the error
is logged, but the substate of `Customers` ends with status `running` and an empty
error message. -/
theorem failed_table_state_left_running :
    ((migrateData copyFailWorld 10 [customersTable, ordersWithFk]
        (startedEngine sampleConfig)).1 = .ok
      ∧ (migrateData copyFailWorld 10 [customersTable, ordersWithFk]
        (startedEngine sampleConfig)).2.state.Status = .running
      ∧ ((tablesFind (migrateData copyFailWorld 10 [customersTable, ordersWithFk]
        (startedEngine sampleConfig)).2.state.Tables "dbo.Customers").map
          (fun ts => (ts.Status, ts.Error))) = some (.running, [])
      ∧ ((tablesFind (migrateData copyFailWorld 10 [customersTable, ordersWithFk]
        (startedEngine sampleConfig)).2.state.Tables "dbo.Orders").map
          (fun ts => (ts.Status, ts.MigratedRows))) = some (.completed, 3)
      ∧ (Event.log .error
          "Failed to migrate data for dbo.Customers: failed to insert batch at offset 0: disk full")
        ∈ (migrateData copyFailWorld 10 [customersTable, ordersWithFk]
          (startedEngine sampleConfig)).2.trace)
    ∧ ((migrateData readFailWorld 10 [customersTable, ordersWithFk]
        (startedEngine sampleConfig)).2.state.Status = .running
      ∧ ((tablesFind (migrateData readFailWorld 10 [customersTable, ordersWithFk]
        (startedEngine sampleConfig)).2.state.Tables "dbo.Customers").map
          (fun ts => (ts.Status, ts.Error))) = some (.running, [])
      ∧ ((tablesFind (migrateData readFailWorld 10 [customersTable, ordersWithFk]
        (startedEngine sampleConfig)).2.state.Tables "dbo.Orders").map
          (fun ts => (ts.Status, ts.MigratedRows))) = some (.completed, 3)) := by
  refine ⟨⟨?_, ?_, ?_, ?_, ?_⟩, ?_, ?_, ?_⟩
  · rfl
  · rfl
  · rfl
  · rfl
  · decide
  · rfl
  · rfl
  · rfl

/-! ## Batch streaming (C18) -/

theorem copiedBatches_append (a b : List Event) :
    copiedBatches (a ++ b) = copiedBatches a ++ copiedBatches b := by
  induction a with
  | nil => rfl
  | cons ev a ih => cases ev <;> simp [copiedBatches, ih]

theorem readOffsets_append (a b : List Event) :
    readOffsets (a ++ b) = readOffsets a ++ readOffsets b := by
  induction a with
  | nil => rfl
  | cons ev a ih => cases ev <;> simp [readOffsets, ih]

theorem reportedRowsMigrated_append (a b : List Event) :
    reportedRowsMigrated (a ++ b) = reportedRowsMigrated a ++ reportedRowsMigrated b := by
  induction a with
  | nil => rfl
  | cons ev a ih => cases ev <;> simp [reportedRowsMigrated, ih]

theorem quiet_reads (a : List Event) (h : ∀ ev ∈ a, Event.quiet ev) :
    copiedBatches a = [] ∧ readOffsets a = [] ∧ reportedRowsMigrated a = [] := by
  induction a with
  | nil => exact ⟨rfl, rfl, rfl⟩
  | cons ev a ih =>
    have h1 := h ev (List.mem_cons_self _ _)
    have h2 := ih (fun x hx => h x (List.mem_cons_of_mem _ hx))
    cases ev <;> first | exact h1.elim | exact h2

theorem take_append_drop_length (l : List Row) (k : Nat) :
    l.take k ++ l.drop (l.take k).length = l := by
  rcases le_total k l.length with h | h
  · rw [List.length_take, min_eq_left h, List.take_append_drop]
  · rw [List.take_of_length_le h, List.drop_length, List.append_nil]

theorem streamPrelude_quiet (w : World) (table : TableInfo) (tableName : Str) (e : Engine) :
    Stretch Event.quiet e
      (disableTriggersStep w table tableName
        ((registerTable table tableName e).emit (.getTableDetails table.Schema table.Name))) := by
  have h1 : Stretch Event.quiet e (registerTable table tableName e) :=
    (Stretch.log e _ _ trivial).trans (Stretch.setState _ _ rfl rfl)
  have h2 : Stretch Event.quiet e
      ((registerTable table tableName e).emit (.getTableDetails table.Schema table.Name)) :=
    Stretch.thenEmit _ h1 trivial rfl trivial
  exact h2.trans (Stretch.call _ _ _ _ _ trivial (fun _ => trivial) rfl trivial)

theorem streamEpilogue_quiet (w : World) (table tableDetails : TableInfo) (tableName : Str)
    (e : Engine) :
    Stretch Event.quiet e
      (syncSequences w table tableName tableDetails.Columns
        (enableTriggersStep w table tableName e)) := by
  have h1 : Stretch Event.quiet e (enableTriggersStep w table tableName e) :=
    Stretch.call _ _ _ _ _ trivial (fun _ => trivial) rfl trivial
  refine h1.trans ?_
  unfold syncSequences
  apply Stretch.foldl
  intro e col
  split
  · exact Stretch.call e _ _ _ _ trivial (fun _ => trivial) rfl trivial
  · exact Stretch.refl _ e

theorem offsets_step (o len N k : Nat) (B : Int) (hB : 1 ≤ B) (hoN : o < N)
    (hlen : len = min B.toNat (N - o)) :
    ((o : Int) :: (List.range (k + 1)).map
        (fun i : Nat => min (((o + len : Nat) : Int) + (i : Int) * B) (N : Int)))
      = (List.range (k + 1 + 1)).map (fun i : Nat => min ((o : Int) + (i : Int) * B) (N : Int)) := by
  rw [List.range_succ_eq_map (k + 1), List.map_cons, List.map_map]
  congr 1
  · simp only [Nat.cast_zero, zero_mul, add_zero]
    omega
  · apply List.map_congr_left
    intro i _
    simp only [Function.comp, Nat.succ_eq_add_one, Nat.cast_add, Nat.cast_one]
    have h0 : (0 : Int) ≤ (i : Int) * B := mul_nonneg (Int.natCast_nonneg _) (by omega)
    have h1 : ((i : Int) + 1) * B = (i : Int) * B + B := by ring
    rw [h1]
    generalize (i : Int) * B = t at h0
    have hBn : (B.toNat : Int) = B := Int.toNat_of_nonneg (by omega)
    rcases le_total B.toNat (N - o) with h | h
    · rw [min_eq_left h] at hlen
      omega
    · rw [min_eq_right h] at hlen
      omega

theorem batchLoop_complete (w : World) (table tableDetails : TableInfo) (tableName : Str)
    (rows : List Row) (B : Int) (hB : 1 ≤ B)
    (hread : ∀ h cols ord (off lim : Int),
      w.readBatch h table.Schema table.Name cols ord off lim
        = .ok ((rows.drop off.toNat).take lim.toNat))
    (hcopy : ∀ h cols batch, ∃ n, w.copyFrom h table.Schema table.Name cols batch = .ok n)
    (hdone : ∀ h, w.done h = false)
    (fuel : Nat) (o : Nat) (migratedRows : Int) (e : Engine) (hc : e.config.BatchSize = B)
    (ho : o ≤ rows.length) (hfuel : rows.length - o < fuel) :
    (batchLoop w table tableDetails tableName fuel migratedRows o e).1 = .ok
    ∧ (batchLoop w table tableDetails tableName fuel migratedRows o e).2.1
        = migratedRows + ((rows.length - o : Nat) : Int)
    ∧ ∃ new, (batchLoop w table tableDetails tableName fuel migratedRows o e).2.2.trace
        = e.trace ++ new
      ∧ (copiedBatches new).flatten = rows.drop o
      ∧ (∀ b ∈ copiedBatches new, 1 ≤ b.length ∧ (b.length : Int) ≤ B)
      ∧ readOffsets new = (List.range ((copiedBatches new).length + 1)).map
          (fun i : Nat => min ((o : Int) + (i : Int) * B) (rows.length : Int))
      ∧ reportedRowsMigrated new = [] := by
  induction fuel generalizing o migratedRows e with
  | zero => omega
  | succ fuel ih =>
    unfold batchLoop
    rw [hdone, hread, hc]
    simp only [Bool.false_eq_true, if_false, Int.toNat_ofNat]
    generalize hb : (rows.drop o).take B.toNat = batch
    have hlen : batch.length = min B.toNat (rows.length - o) := by
      rw [← hb, List.length_take, List.length_drop]
    have hBn : 1 ≤ B.toNat := by omega
    by_cases ho' : o = rows.length
    · have h0 : batch.length = 0 := by rw [hlen, ho']; simp
      rw [if_pos h0]
      refine ⟨rfl, by simp [ho'], [_], rfl, ?_, ?_, ?_, rfl⟩
      · simp [copiedBatches, ho']
      · simp [copiedBatches]
      · simp [copiedBatches, readOffsets, ho', List.range_succ]
    · have hlt : o < rows.length := by omega
      have h0 : ¬ batch.length = 0 := by rw [hlen]; omega
      rw [if_neg h0]
      obtain ⟨n, hn⟩ := hcopy
        (e.emit (.readBatch table.Schema table.Name (prepareColumns tableDetails.Columns).1
          (orderByColumn tableDetails.Columns) o B)).trace
        (tableDetails.Columns.map (fun col => col.Name)) batch
      rw [hn]
      simp only []
      rw [← Nat.cast_add o batch.length]
      have hle : o + batch.length ≤ rows.length := by rw [hlen]; omega
      obtain ⟨r1, r2, new, r3, r4, r5, r6, r7⟩ :=
        ih (o + batch.length) (migratedRows + batch.length)
          (recordBatch table tableName (migratedRows + batch.length) batch.length
            ((e.emit (.readBatch table.Schema table.Name (prepareColumns tableDetails.Columns).1
              (orderByColumn tableDetails.Columns) o B)).emit
              (.copyFrom table.Schema table.Name
                (tableDetails.Columns.map (fun col => col.Name)) batch (.ok n))))
          hc hle (by omega)
      refine ⟨r1, ?_, ?_⟩
      · rw [r2]
        omega
      · refine ⟨.readBatch table.Schema table.Name (prepareColumns tableDetails.Columns).1
            (orderByColumn tableDetails.Columns) o B ::
          .copyFrom table.Schema table.Name (tableDetails.Columns.map (fun col => col.Name))
            batch (.ok n) ::
          .progress tableName table.RowCount (migratedRows + batch.length) :: new,
          ?_, ?_, ?_, ?_, ?_⟩
        · rw [r3]
          simp [recordBatch, Engine.emit, Engine.setState]
        · simp only [copiedBatches, List.flatten_cons, r4]
          have key : rows.drop (o + batch.length) = (rows.drop o).drop batch.length := by
            rw [List.drop_drop, add_comm]
          have := take_append_drop_length (rows.drop o) B.toNat
          rw [hb] at this
          rw [key]
          exact this
        · intro b hb'
          simp only [copiedBatches, List.mem_cons] at hb'
          rcases hb' with h | h
          · subst h
            refine ⟨by omega, ?_⟩
            have : (B.toNat : Int) = B := Int.toNat_of_nonneg (by omega)
            omega
          · exact r5 b h
        · simp only [copiedBatches, readOffsets,
            List.length_cons, r6]
          exact offsets_step o batch.length rows.length _ B hB hlt hlen
        · simp only [reportedRowsMigrated, r7]

/-- C18 (counterexample). Three rows read in batches of two: the reads are at
offsets 0, 2 and 3, the last one at the row count and not at twice the batch size. -/
theorem read_offsets_not_multiples :
    sampleConfig.BatchSize = 2
    ∧ readOffsets (migrateTableData quietWorld 10 (startedEngine sampleConfig)
        customersTable).2.trace = [0, 2, 3]
    ∧ copiedBatches (migrateTableData quietWorld 10 (startedEngine sampleConfig)
        customersTable).2.trace
        = [[[some ("1" : Str)], [some ("2" : Str)]], [[some ("3" : Str)]]] := by
  refine ⟨rfl, ?_, ?_⟩
  · rfl
  · rfl

/-- C18 (amended). For a table whose ordered content is the fixed list `rows`,
read by offset and limit, with a batch size of at least 1, no failing read or
copy and no cancellation: with fuel for more than `rows.length` rounds
`migrateTableData` returns without error; the batches it hands to bulk copy,
concatenated in call order, are `rows`; each batch has between 1 and `BatchSize`
rows; there is one read per batch and one more, the read number `i` being at
offset `min (i * BatchSize) rows.length`; and the one table-complete event
reports `rows.length` rows. -/
theorem batch_streaming_complete (w : World) (fuel : Nat) (e : Engine)
    (table tableDetails : TableInfo) (rows : List Row)
    (hB : 1 ≤ e.config.BatchSize)
    (hdetails : ∀ h, w.getTableDetails h table.Schema table.Name = .ok tableDetails)
    (hread : ∀ h cols ord (off lim : Int),
      w.readBatch h table.Schema table.Name cols ord off lim
        = .ok ((rows.drop off.toNat).take lim.toNat))
    (hcopy : ∀ h cols batch, ∃ n, w.copyFrom h table.Schema table.Name cols batch = .ok n)
    (hdone : ∀ h, w.done h = false)
    (hfuel : rows.length < fuel) :
    (migrateTableData w fuel e table).1 = .ok
    ∧ ∃ new, (migrateTableData w fuel e table).2.trace = e.trace ++ new
      ∧ (copiedBatches new).flatten = rows
      ∧ (∀ b ∈ copiedBatches new, 1 ≤ b.length ∧ (b.length : Int) ≤ e.config.BatchSize)
      ∧ readOffsets new = (List.range ((copiedBatches new).length + 1)).map
          (fun i : Nat => min ((i : Int) * e.config.BatchSize) (rows.length : Int))
      ∧ reportedRowsMigrated new = [(rows.length : Int)] := by
  obtain ⟨hc1, _, pre, hpre, qpre, _, _⟩ :=
    streamPrelude_quiet w table (table.Schema ++ "." ++ table.Name) e
  obtain ⟨p1, p2, p3⟩ := quiet_reads pre qpre
  have h := batchLoop_complete w table tableDetails (table.Schema ++ "." ++ table.Name) rows
    e.config.BatchSize hB hread hcopy hdone fuel 0 0 _ (congrArg MigrationConfig.BatchSize hc1) (Nat.zero_le _)
    (by omega)
  simp only [Nat.cast_zero, zero_add, Nat.sub_zero, List.drop_zero] at h
  unfold migrateTableData
  rw [hdetails]
  simp only []
  unfold streamTable
  rcases hbl : batchLoop w table tableDetails (table.Schema ++ "." ++ table.Name) fuel 0 0
    (disableTriggersStep w table (table.Schema ++ "." ++ table.Name)
      ((registerTable table (table.Schema ++ "." ++ table.Name) e).emit
        (.getTableDetails table.Schema table.Name))) with ⟨out, mr, e2⟩
  rw [hbl] at h
  simp only at h
  obtain ⟨h1, h2, new, h3, h4, h5, h6, h7⟩ := h
  subst h1
  subst h2
  simp only []
  obtain ⟨_, _, post, hpost, qpost, _, _⟩ :=
    streamEpilogue_quiet w table tableDetails (table.Schema ++ "." ++ table.Name) e2
  obtain ⟨q1, q2, q3⟩ := quiet_reads post qpost
  refine ⟨trivial, pre ++ (new ++ (post ++ [.tableComplete (table.Schema ++ "." ++ table.Name)
      (rows.length : Int), .log .info ("Completed " ++ (table.Schema ++ "." ++ table.Name)
      ++ ": " ++ fmtD (rows.length : Int) ++ " rows migrated")])), ?_, ?_, ?_, ?_, ?_⟩
  · simp only [finishTable, completeTable, Engine.log, Engine.emit, Engine.setState]
    rw [hpost, h3, hpre]
    simp only [List.append_assoc, List.cons_append, List.nil_append]
  · simp only [copiedBatches_append, p1, q1, copiedBatches, List.nil_append, List.append_nil]
    exact h4
  · simp only [copiedBatches_append, p1, q1, copiedBatches, List.nil_append, List.append_nil]
    exact h5
  · simp only [copiedBatches_append, readOffsets_append, p1, q1, p2, q2, copiedBatches,
      readOffsets, List.nil_append, List.append_nil]
    exact h6
  · simp only [reportedRowsMigrated_append, p3, q3, h7, reportedRowsMigrated, List.nil_append]

/-- C18 at the table `Customers` holding three rows, batch size 2, fuel 4. -/
theorem batch_streaming_complete_witness :
    (migrateTableData quietWorld 4 (startedEngine sampleConfig) customersTable).1 = .ok
    ∧ ∃ new, (migrateTableData quietWorld 4 (startedEngine sampleConfig)
          customersTable).2.trace = (startedEngine sampleConfig).trace ++ new
      ∧ (copiedBatches new).flatten = threeRows
      ∧ (∀ b ∈ copiedBatches new,
          1 ≤ b.length ∧ (b.length : Int) ≤ (startedEngine sampleConfig).config.BatchSize)
      ∧ readOffsets new = (List.range ((copiedBatches new).length + 1)).map
          (fun i : Nat =>
            min ((i : Int) * (startedEngine sampleConfig).config.BatchSize)
              (threeRows.length : Int))
      ∧ reportedRowsMigrated new = [(threeRows.length : Int)] :=
  batch_streaming_complete quietWorld 4 (startedEngine sampleConfig) customersTable
    customersTable threeRows (by decide) (fun _ => rfl) (fun _ _ _ _ _ => rfl)
    (fun _ _ batch => ⟨batch.length, rfl⟩) (fun _ => rfl) (by decide)

/-! ## Value equality is an equivalence (C29) -/

theorem valuesEqual_some_iff (a b : Str) :
    valuesEqual (some a) (some b) = true ↔
      (a = b ∨ (a = "true" ∧ b = "1") ∨ (a = "1" ∧ b = "true")
        ∨ (a = "false" ∧ b = "0") ∨ (a = "0" ∧ b = "false")) := by
  unfold valuesEqual
  simp only []
  split_ifs with h1 h2 h3 h4
  · simp [h1]
  · simp [h2]
  · simp [h3]
  · simp [h4]
  · simp only [decide_eq_true_eq]
    constructor
    · exact Or.inl
    · rintro (h | h | h | h | h)
      · exact h
      · exact absurd h h1
      · exact absurd h h3
      · exact absurd h h2
      · exact absurd h h4

theorem valuesEqual_refl (a : Value) : valuesEqual a a = true := by
  cases a with
  | none => rfl
  | some s => exact (valuesEqual_some_iff s s).2 (Or.inl rfl)

theorem valuesEqual_symm_of (a b : Value) (h : valuesEqual a b = true) :
    valuesEqual b a = true := by
  cases a with
  | none => cases b with
    | none => rfl
    | some t => exact absurd h (by simp [valuesEqual])
  | some s => cases b with
    | none => exact absurd h (by simp [valuesEqual])
    | some t =>
      rw [valuesEqual_some_iff] at h ⊢
      rcases h with h | h | h | h | h
      · exact Or.inl h.symm
      · exact Or.inr (Or.inr (Or.inl ⟨h.2, h.1⟩))
      · exact Or.inr (Or.inl ⟨h.2, h.1⟩)
      · exact Or.inr (Or.inr (Or.inr (Or.inr ⟨h.2, h.1⟩)))
      · exact Or.inr (Or.inr (Or.inr (Or.inl ⟨h.2, h.1⟩)))

theorem valuesEqual_comm (a b : Value) : valuesEqual a b = valuesEqual b a := by
  cases h : valuesEqual a b with
  | true => exact (valuesEqual_symm_of a b h).symm
  | false =>
    cases h2 : valuesEqual b a with
    | false => rfl
    | true => rw [valuesEqual_symm_of b a h2] at h; cases h

theorem valuesEqual_trans (a b c : Value) (hab : valuesEqual a b = true)
    (hbc : valuesEqual b c = true) : valuesEqual a c = true := by
  cases a with
  | none =>
    cases b with
    | none => exact hbc
    | some t => exact absurd hab (by simp [valuesEqual])
  | some s =>
    cases b with
    | none => exact absurd hab (by simp [valuesEqual])
    | some t =>
      cases c with
      | none => exact absurd hbc (by simp [valuesEqual])
      | some u =>
        rw [valuesEqual_some_iff] at hab hbc ⊢
        rcases hab with h | h | h | h | h <;> rcases hbc with k | k | k | k | k <;> simp_all

theorem columnDiffs_foldl_columns (sourceValues targetValues : List Value)
    (ics : List (Nat × Str)) (acc : List ColumnDifference) :
    (ics.foldl
      (fun (diffs : List ColumnDifference) (ic : Nat × Str) =>
        if valuesEqual (sourceValues.getD ic.1 none) (targetValues.getD ic.1 none) then diffs
        else
          diffs ++ [{ Column := ic.2, SourceValue := fmtV (sourceValues.getD ic.1 none),
                      TargetValue := fmtV (targetValues.getD ic.1 none) }])
      acc)
    = acc ++ (ics.filter (fun ic =>
          !valuesEqual (sourceValues.getD ic.1 none) (targetValues.getD ic.1 none))).map
        (fun ic => { Column := ic.2, SourceValue := fmtV (sourceValues.getD ic.1 none),
                     TargetValue := fmtV (targetValues.getD ic.1 none) }) := by
  induction ics generalizing acc with
  | nil => simp
  | cons ic rest ih =>
    rw [List.foldl_cons, ih]
    cases h : valuesEqual (sourceValues.getD ic.1 none) (targetValues.getD ic.1 none) with
    | true =>
      simp only [if_true, List.filter_cons, h, Bool.not_true, Bool.false_eq_true, if_false]
    | false =>
      simp only [Bool.false_eq_true, if_false, List.filter_cons, h, Bool.not_false, if_true,
        List.map_cons, List.append_assoc, List.singleton_append]

/-- The differences `compareRow` reports, in closed form: the columns, in column
order, whose two values are unequal, each with the text of both values. -/
theorem columnDiffs_eq (columns : List Str) (sourceValues targetValues : List Value) :
    columnDiffs columns sourceValues targetValues
      = (columns.enum.filter (fun ic =>
          !valuesEqual (sourceValues.getD ic.1 none) (targetValues.getD ic.1 none))).map
        (fun ic => { Column := ic.2, SourceValue := fmtV (sourceValues.getD ic.1 none),
                     TargetValue := fmtV (targetValues.getD ic.1 none) }) := by
  unfold columnDiffs
  rw [columnDiffs_foldl_columns]
  rfl

theorem columnDiffs_columns_comm (columns : List Str) (a b : List Value) :
    (columnDiffs columns a b).map ColumnDifference.Column
      = (columnDiffs columns b a).map ColumnDifference.Column := by
  rw [columnDiffs_eq, columnDiffs_eq, List.map_map, List.map_map]
  have hf : (fun ic : Nat × Str => !valuesEqual (a.getD ic.1 none) (b.getD ic.1 none))
      = (fun ic : Nat × Str => !valuesEqual (b.getD ic.1 none) (a.getD ic.1 none)) := by
    funext ic
    rw [valuesEqual_comm]
  rw [hf]
  rfl

theorem columnDiffs_swap (columns : List Str) (a b : List Value) :
    columnDiffs columns b a
      = (columnDiffs columns a b).map
          (fun d => { Column := d.Column, SourceValue := d.TargetValue,
                      TargetValue := d.SourceValue }) := by
  rw [columnDiffs_eq, columnDiffs_eq, List.map_map]
  have hf : (fun ic : Nat × Str => !valuesEqual (b.getD ic.1 none) (a.getD ic.1 none))
      = (fun ic : Nat × Str => !valuesEqual (a.getD ic.1 none) (b.getD ic.1 none)) := by
    funext ic
    rw [valuesEqual_comm]
  rw [hf]
  rfl

/-- C29 (amended). `valuesEqual` is reflexive, symmetric and transitive on
nullable values given by their text; hence, for two rows found on both sides,
the comparison does not depend on which is taken as source and which as target:
exchanging them exchanges the two values of each reported difference and leaves
the reported columns, their number, and whether the rows match as they were. -/
theorem values_equal_equivalence :
    (∀ a : Value, valuesEqual a a = true)
    ∧ (∀ a b : Value, valuesEqual a b = valuesEqual b a)
    ∧ (∀ a b c : Value, valuesEqual a b = true → valuesEqual b c = true →
        valuesEqual a c = true)
    ∧ (∀ (columns : List Str) (a b : List Value),
        columnDiffs columns b a
          = (columnDiffs columns a b).map
              (fun d => { Column := d.Column, SourceValue := d.TargetValue,
                          TargetValue := d.SourceValue }))
    ∧ (∀ (columns : List Str) (a b : List Value),
        (columnDiffs columns a b).map ColumnDifference.Column
          = (columnDiffs columns b a).map ColumnDifference.Column)
    ∧ (∀ (columns : List Str) (a b : List Value),
        (columnDiffs columns a b).length = (columnDiffs columns b a).length)
    ∧ (∀ (columns : List Str) (a b : List Value),
        columnDiffs columns a b = [] ↔ columnDiffs columns b a = []) :=
  ⟨valuesEqual_refl, valuesEqual_comm, valuesEqual_trans, columnDiffs_swap,
    columnDiffs_columns_comm,
    fun columns a b => by
      have := congrArg List.length (columnDiffs_columns_comm columns a b)
      simpa using this,
    fun columns a b => by
      have := congrArg List.length (columnDiffs_columns_comm columns a b)
      simp only [List.length_map] at this
      rw [← List.length_eq_zero, ← List.length_eq_zero (l := columnDiffs columns b a), this]⟩

/-- C29 (counterexample). The row with key 7 held by one side only: with that side
as source the sample check counts one mismatch, of type `missing`; with the
sides exchanged no key is sampled and it counts none. -/
theorem sample_outcome_depends_on_side :
    ((validateSampleData (keyedWorld contactSeven []) ⟨fullValidation, []⟩ contactsTable
        (freshResult contactsTable)).1 = .done
      ∧ (validateSampleData (keyedWorld contactSeven []) ⟨fullValidation, []⟩ contactsTable
        (freshResult contactsTable)).2.1.SampleMismatches = 1
      ∧ (validateSampleData (keyedWorld contactSeven []) ⟨fullValidation, []⟩ contactsTable
        (freshResult contactsTable)).2.1.MismatchedRows
        = [{ PrimaryKey := [some ("7" : Str)], DetailType := "missing",
             ColumnDifferences := [] }])
    ∧ ((validateSampleData (keyedWorld [] contactSeven) ⟨fullValidation, []⟩ contactsTable
        (freshResult contactsTable)).1 = .done
      ∧ (validateSampleData (keyedWorld [] contactSeven) ⟨fullValidation, []⟩ contactsTable
        (freshResult contactsTable)).2.1.SampleMismatches = 0
      ∧ (validateSampleData (keyedWorld [] contactSeven) ⟨fullValidation, []⟩ contactsTable
        (freshResult contactsTable)).2.1.MismatchedRows = []) := by
  refine ⟨⟨by rfl, by rfl, by rfl⟩, by rfl, by rfl, by rfl⟩

/-! ## Row comparison (C24) -/

theorem columnDiffs_nil_iff (columns : List Str) (sourceValues targetValues : List Value) :
    columnDiffs columns sourceValues targetValues = [] ↔
      ∀ i, i < columns.length →
        valuesEqual (sourceValues.getD i none) (targetValues.getD i none) = true := by
  rw [columnDiffs_eq, List.map_eq_nil_iff, List.filter_eq_nil_iff]
  constructor
  · intro h i hi
    have := h (i, columns[i]) (List.mk_mem_enum_iff_getElem?.2 (List.getElem?_eq_getElem hi))
    simpa using this
  · intro h ic hic
    have hlt : ic.1 < columns.length := by
      have := List.mk_mem_enum_iff_getElem?.1 (show (ic.1, ic.2) ∈ columns.enum from hic)
      exact (List.getElem?_eq_some_iff.1 this).1
    simpa using h ic.1 hlt

/-- C24. For a sampled key whose row is found on both sides, `compareRow` reports
a match exactly when every column's two values are equal under `valuesEqual`,
and then no detail; otherwise it reports a detail of type `value_diff` for that
key whose differences are the columns with unequal values, in column order, each
with the text of the source and of the target value.  With the rows `(7, A@x)`
and `(7, a@x)` the detail is `[{Email, A@x, a@x}]`, the sample check counts one
mismatch and the final status of the table is `mismatch`. -/
theorem compare_row_differences (w : VWorld) (v : Validator) (table : TableInfo)
    (columns pkColumns : List Str) (keyValues sourceValues targetValues : List Value)
    (hs : ∀ h, w.sourceRow h table.Schema table.Name columns pkColumns keyValues
      = .ok sourceValues)
    (ht : ∀ h, w.targetRow h table.Schema table.Name columns pkColumns keyValues
      = .ok targetValues) :
    ((compareRow w v table columns pkColumns keyValues).1.1 = true ↔
      ∀ i, i < columns.length →
        valuesEqual (sourceValues.getD i none) (targetValues.getD i none) = true)
    ∧ ((compareRow w v table columns pkColumns keyValues).1.1 = true →
        (compareRow w v table columns pkColumns keyValues).1.2 = none)
    ∧ ((compareRow w v table columns pkColumns keyValues).1.1 = false →
        (compareRow w v table columns pkColumns keyValues).1.2
          = some
            { PrimaryKey := keyValues, DetailType := "value_diff",
              ColumnDifferences :=
                (columns.enum.filter (fun ic =>
                  !valuesEqual (sourceValues.getD ic.1 none) (targetValues.getD ic.1 none))).map
                  (fun ic =>
                    { Column := ic.2, SourceValue := fmtV (sourceValues.getD ic.1 none),
                      TargetValue := fmtV (targetValues.getD ic.1 none) }) })
    ∧ (compareRow emailCaseWorld ⟨fullValidation, []⟩ contactsTable
          (List.map String.toList ["Id", "Email"]) [("Id" : Str)] [some ("7" : Str)]).1
        = (false, some
            { PrimaryKey := [some ("7" : Str)], DetailType := "value_diff",
              ColumnDifferences :=
                [{ Column := "Email", SourceValue := "A@x", TargetValue := "a@x" }] })
    ∧ (validateTable emailCaseWorld ⟨fullValidation, []⟩ contactsTable).2.1.SampleMismatches = 1
    ∧ (validateTable emailCaseWorld ⟨fullValidation, []⟩ contactsTable).2.1.MismatchedRows
        = [{ PrimaryKey := [some ("7" : Str)], DetailType := "value_diff",
             ColumnDifferences :=
               [{ Column := "Email", SourceValue := "A@x", TargetValue := "a@x" }] }]
    ∧ (validateTable emailCaseWorld ⟨fullValidation, []⟩ contactsTable).2.1.Status
        = ("mismatch" : Str) := by
  have hrow : (compareRow w v table columns pkColumns keyValues).1
      = if (columnDiffs columns sourceValues targetValues).length > 0 then
          (false, some { PrimaryKey := keyValues, DetailType := "value_diff",
                         ColumnDifferences := columnDiffs columns sourceValues targetValues })
        else (true, none) := by
    unfold compareRow
    rw [hs, ht]
  have hnil := columnDiffs_nil_iff columns sourceValues targetValues
  refine ⟨?_, ?_, ?_, by rfl, by rfl, by rfl, by rfl⟩
  · rw [hrow, ← hnil]
    cases hd : columnDiffs columns sourceValues targetValues with
    | nil => simp
    | cons d ds => simp
  · rw [hrow]
    cases hd : columnDiffs columns sourceValues targetValues with
    | nil => simp
    | cons d ds => simp
  · rw [hrow, ← columnDiffs_eq]
    cases hd : columnDiffs columns sourceValues targetValues with
    | nil => simp
    | cons d ds => simp

/-- C24 at the rows `(7, a@x)` and `(7, a@x)` of `agreeingWorld`: the comparison
reports a match and no detail. -/
theorem compare_row_differences_witness :
    (compareRow agreeingWorld ⟨fullValidation, []⟩ contactsTable
        (List.map String.toList ["Id", "Email"]) [("Id" : Str)] [some ("7" : Str)]).1.1 = true
    ∧ (compareRow agreeingWorld ⟨fullValidation, []⟩ contactsTable
        (List.map String.toList ["Id", "Email"]) [("Id" : Str)] [some ("7" : Str)]).1.2
        = none := by
  have h := compare_row_differences agreeingWorld ⟨fullValidation, []⟩ contactsTable
    (List.map String.toList ["Id", "Email"]) [("Id" : Str)] [some ("7" : Str)]
    [some ("7" : Str), some ("a@x" : Str)] [some ("7" : Str), some ("a@x" : Str)]
    (fun _ => rfl) (fun _ => rfl)
  exact ⟨by rfl, h.2.1 (by rfl)⟩

/-! ## Checksum column selection (C25) -/

theorem checksumColumns_foldl (std : GoStd) (cols : List ColumnInfo) (acc : List Str × Str) :
    cols.foldl
      (fun (acc : List Str × Str) col =>
        if skippedForChecksum std col then acc
        else if col.IsPrimaryKey ∧ acc.2 = "" then (acc.1 ++ [col.Name], col.Name)
        else (acc.1 ++ [col.Name], acc.2))
      acc
    = (acc.1 ++ (cols.filter (fun c => !skippedForChecksum std c)).map ColumnInfo.Name,
        if acc.2 = "" then
          (((cols.filter (fun c => !skippedForChecksum std c)).find?
            (fun c => c.IsPrimaryKey && decide (c.Name ≠ ("" : Str)))).map ColumnInfo.Name).getD ""
        else acc.2) := by
  have e : String.toList "" = ([] : List Char) := rfl
  simp only [e]
  induction cols generalizing acc with
  | nil =>
    obtain ⟨a1, a2⟩ := acc
    by_cases h : a2 = [] <;> simp [h]
  | cons col rest ih =>
    obtain ⟨a1, a2⟩ := acc
    rw [List.foldl_cons, ih]
    cases hs : skippedForChecksum std col with
    | true => simp [hs]
    | false =>
      cases hp : col.IsPrimaryKey <;> by_cases ha : a2 = [] <;> by_cases hn : col.Name = []
        <;> simp [hs, hp, ha, hn]

theorem checksumColumns_eq (std : GoStd) (cols : List ColumnInfo) :
    checksumColumns std cols
      = ((cols.filter (fun c => !skippedForChecksum std c)).map ColumnInfo.Name,
          (((cols.filter (fun c => !skippedForChecksum std c)).find?
            (fun c => c.IsPrimaryKey && decide (c.Name ≠ ("" : Str)))).map ColumnInfo.Name).getD "") := by
  unfold checksumColumns
  rw [checksumColumns_foldl]
  rfl

theorem find_named_key (cols : List ColumnInfo) (h : ∀ c ∈ cols, c.Name ≠ ("" : Str)) :
    cols.find? (fun c => c.IsPrimaryKey && decide (c.Name ≠ ("" : Str)))
      = cols.find? (fun c => c.IsPrimaryKey) := by
  induction cols with
  | nil => rfl
  | cons c rest ih =>
    have hc := h c (List.mem_cons_self _ _)
    have hr := ih (fun x hx => h x (List.mem_cons_of_mem _ hx))
    simp only [List.find?_cons, hr, hc, ne_eq, not_false_eq_true, decide_True, Bool.and_true]

theorem compareChecksums_events (w : VWorld) (v : Validator) (table : TableInfo)
    (result : ValidationResult) (columns : List Str) (orderByCol : Str) :
    ∃ new, (compareChecksums w v table result columns orderByCol).2.2.trace = v.trace ++ new
      ∧ ∀ ev ∈ new, VEvent.isChecksumOf table.Schema table.Name columns orderByCol ev = true := by
  unfold compareChecksums calculateSourceChecksum calculateSimpleChecksum
  cases h1 : w.sourceChecksum v.trace table.Schema table.Name columns orderByCol with
  | err m =>
    simp only []
    cases h2 : w.sourceRows
        (v.emit (.sourceChecksum table.Schema table.Name columns orderByCol)).trace
        table.Schema table.Name columns orderByCol with
    | err m2 =>
      exact ⟨[.sourceChecksum table.Schema table.Name columns orderByCol,
        .sourceRows table.Schema table.Name columns orderByCol],
        by simp [Validator.emit], by simp [VEvent.isChecksumOf]⟩
    | ok rows =>
      simp only []
      cases h3 : w.targetChecksum
          ((v.emit (.sourceChecksum table.Schema table.Name columns orderByCol)).emit
            (.sourceRows table.Schema table.Name columns orderByCol)).trace
          table.Schema table.Name columns orderByCol <;>
        exact ⟨[.sourceChecksum table.Schema table.Name columns orderByCol,
          .sourceRows table.Schema table.Name columns orderByCol,
          .targetChecksum table.Schema table.Name columns orderByCol],
          by simp [Validator.emit], by simp [VEvent.isChecksumOf]⟩
  | ok checksum =>
    simp only []
    cases h3 : w.targetChecksum
        (v.emit (.sourceChecksum table.Schema table.Name columns orderByCol)).trace
        table.Schema table.Name columns orderByCol <;>
      exact ⟨[.sourceChecksum table.Schema table.Name columns orderByCol,
        .targetChecksum table.Schema table.Name columns orderByCol],
        by simp [Validator.emit], by simp [VEvent.isChecksumOf]⟩

/-- What `compareChecksums` does, answer by answer: the aggregate query of the
source is sent first; when it fails the fallback query is sent; when a source
checksum was obtained the target query is sent; the result records the two
checksums and whether they are equal. -/
theorem compareChecksums_cases (w : VWorld) (v : Validator) (table : TableInfo)
    (result : ValidationResult) (columns : List Str) (orderByCol : Str) :
    (∀ sc tc,
        w.sourceChecksum v.trace table.Schema table.Name columns orderByCol = .ok sc →
        w.targetChecksum (v.emit (.sourceChecksum table.Schema table.Name columns orderByCol)).trace
          table.Schema table.Name columns orderByCol = .ok tc →
        compareChecksums w v table result columns orderByCol
          = (none,
              { result with
                SourceChecksum := sc, TargetChecksum := tc, ChecksumMatch := decide (sc = tc) },
              (v.emit (.sourceChecksum table.Schema table.Name columns orderByCol)).emit
                (.targetChecksum table.Schema table.Name columns orderByCol)))
    ∧ (∀ sc m,
        w.sourceChecksum v.trace table.Schema table.Name columns orderByCol = .ok sc →
        w.targetChecksum (v.emit (.sourceChecksum table.Schema table.Name columns orderByCol)).trace
          table.Schema table.Name columns orderByCol = .err m →
        compareChecksums w v table result columns orderByCol
          = (some m, { result with SourceChecksum := sc },
              (v.emit (.sourceChecksum table.Schema table.Name columns orderByCol)).emit
                (.targetChecksum table.Schema table.Name columns orderByCol)))
    ∧ (∀ m rows tc,
        w.sourceChecksum v.trace table.Schema table.Name columns orderByCol = .err m →
        w.sourceRows (v.emit (.sourceChecksum table.Schema table.Name columns orderByCol)).trace
          table.Schema table.Name columns orderByCol = .ok rows →
        w.targetChecksum
          ((v.emit (.sourceChecksum table.Schema table.Name columns orderByCol)).emit
            (.sourceRows table.Schema table.Name columns orderByCol)).trace
          table.Schema table.Name columns orderByCol = .ok tc →
        compareChecksums w v table result columns orderByCol
          = (none,
              { result with
                SourceChecksum := w.md5Hex (rows.map fmtRow).flatten, TargetChecksum := tc,
                ChecksumMatch := decide (w.md5Hex (rows.map fmtRow).flatten = tc) },
              ((v.emit (.sourceChecksum table.Schema table.Name columns orderByCol)).emit
                (.sourceRows table.Schema table.Name columns orderByCol)).emit
                (.targetChecksum table.Schema table.Name columns orderByCol)))
    ∧ (∀ m rows m2,
        w.sourceChecksum v.trace table.Schema table.Name columns orderByCol = .err m →
        w.sourceRows (v.emit (.sourceChecksum table.Schema table.Name columns orderByCol)).trace
          table.Schema table.Name columns orderByCol = .ok rows →
        w.targetChecksum
          ((v.emit (.sourceChecksum table.Schema table.Name columns orderByCol)).emit
            (.sourceRows table.Schema table.Name columns orderByCol)).trace
          table.Schema table.Name columns orderByCol = .err m2 →
        compareChecksums w v table result columns orderByCol
          = (some m2, { result with SourceChecksum := w.md5Hex (rows.map fmtRow).flatten },
              ((v.emit (.sourceChecksum table.Schema table.Name columns orderByCol)).emit
                (.sourceRows table.Schema table.Name columns orderByCol)).emit
                (.targetChecksum table.Schema table.Name columns orderByCol)))
    ∧ (∀ m m2,
        w.sourceChecksum v.trace table.Schema table.Name columns orderByCol = .err m →
        w.sourceRows (v.emit (.sourceChecksum table.Schema table.Name columns orderByCol)).trace
          table.Schema table.Name columns orderByCol = .err m2 →
        compareChecksums w v table result columns orderByCol
          = (some m2, result,
              (v.emit (.sourceChecksum table.Schema table.Name columns orderByCol)).emit
                (.sourceRows table.Schema table.Name columns orderByCol))) := by
  refine ⟨?_, ?_, ?_, ?_, ?_⟩
  · intro sc tc h1 h2
    unfold compareChecksums calculateSourceChecksum
    rw [h1]
    simp only []
    rw [h2]
  · intro sc m h1 h2
    unfold compareChecksums calculateSourceChecksum
    rw [h1]
    simp only []
    rw [h2]
  · intro m rows tc h1 h2 h3
    unfold compareChecksums calculateSourceChecksum calculateSimpleChecksum
    rw [h1]
    simp only []
    rw [h2]
    simp only []
    rw [h3]
  · intro m rows m2 h1 h2 h3
    unfold compareChecksums calculateSourceChecksum calculateSimpleChecksum
    rw [h1]
    simp only []
    rw [h2]
    simp only []
    rw [h3]
  · intro m m2 h1 h2
    unfold compareChecksums calculateSourceChecksum calculateSimpleChecksum
    rw [h1]
    simp only []
    rw [h2]
/-- C25. `validateChecksum` keeps exactly the columns, in column order, whose
lower-cased type name is none of image, varbinary, binary, text, ntext.  If none
remains it returns the error "no comparable columns found", sends no query and
leaves the result (hence `ChecksumMatch`) as it was.  Otherwise the order-by
column is the first kept column flagged as primary key and having a non-empty
name, or the first kept column when there is none; when no column name is empty
that is the first kept column flagged as primary key.  With the kept list and
that order-by column it sends the aggregate checksum query to the source, the
fallback query when the aggregate one fails, and, once a source checksum is
obtained, the checksum query to the target; it records both checksums and sets
`ChecksumMatch` to whether they are equal, or returns the error of the query
that failed.  No other query is sent.  On `Contacts` extended by an IMAGE column
the two queries carry the columns `Id`, `Email` and the order-by column `Id`. -/
theorem checksum_column_selection (w : VWorld) (v : Validator) (table : TableInfo)
    (result : ValidationResult) :
    (∀ c : ColumnInfo, skippedForChecksum w.std c = true ↔
        ToLower w.std c.DataType ∈
          List.map String.toList ["image", "varbinary", "binary", "text", "ntext"])
    ∧ (checksumColumns w.std table.Columns).1
        = (table.Columns.filter (fun c => !skippedForChecksum w.std c)).map ColumnInfo.Name
    ∧ (table.Columns.filter (fun c => !skippedForChecksum w.std c) = [] →
        validateChecksum w v table result = (some ("no comparable columns found" : Str), result, v))
    ∧ (table.Columns.filter (fun c => !skippedForChecksum w.std c) ≠ [] →
        validateChecksum w v table result
          = compareChecksums w v table result
              ((table.Columns.filter (fun c => !skippedForChecksum w.std c)).map
                ColumnInfo.Name)
              (checksumOrderBy w.std table.Columns))
    ∧ checksumOrderBy w.std table.Columns
        = (match (table.Columns.filter (fun c => !skippedForChecksum w.std c)).find?
              (fun c => c.IsPrimaryKey && decide (c.Name ≠ ("" : Str))) with
          | some c => c.Name
          | none =>
            (((table.Columns.filter (fun c => !skippedForChecksum w.std c)).head?).map
              ColumnInfo.Name).getD "")
    ∧ ((∀ c ∈ table.Columns, c.Name ≠ ("" : Str)) →
        checksumOrderBy w.std table.Columns
          = (match (table.Columns.filter (fun c => !skippedForChecksum w.std c)).find?
                (fun c => c.IsPrimaryKey) with
            | some c => c.Name
            | none =>
              (((table.Columns.filter (fun c => !skippedForChecksum w.std c)).head?).map
                ColumnInfo.Name).getD ""))
    ∧ (∀ (columns : List Str) (orderByCol : Str),
        ∃ new, (compareChecksums w v table result columns orderByCol).2.2.trace
            = v.trace ++ new
          ∧ ∀ ev ∈ new,
              VEvent.isChecksumOf table.Schema table.Name columns orderByCol ev = true)
    ∧ (∀ (columns : List Str) (orderByCol : Str),
        columns
          = (table.Columns.filter (fun c => !skippedForChecksum w.std c)).map ColumnInfo.Name →
        orderByCol = checksumOrderBy w.std table.Columns → columns ≠ [] →
        (∀ sc tc,
          w.sourceChecksum v.trace table.Schema table.Name columns orderByCol = .ok sc →
          w.targetChecksum
            (v.emit (.sourceChecksum table.Schema table.Name columns orderByCol)).trace
            table.Schema table.Name columns orderByCol = .ok tc →
          validateChecksum w v table result
            = (none,
                { result with
                  SourceChecksum := sc, TargetChecksum := tc,
                  ChecksumMatch := decide (sc = tc) },
                (v.emit (.sourceChecksum table.Schema table.Name columns orderByCol)).emit
                  (.targetChecksum table.Schema table.Name columns orderByCol)))
        ∧ (∀ sc m,
          w.sourceChecksum v.trace table.Schema table.Name columns orderByCol = .ok sc →
          w.targetChecksum
            (v.emit (.sourceChecksum table.Schema table.Name columns orderByCol)).trace
            table.Schema table.Name columns orderByCol = .err m →
          validateChecksum w v table result
            = (some m, { result with SourceChecksum := sc },
                (v.emit (.sourceChecksum table.Schema table.Name columns orderByCol)).emit
                  (.targetChecksum table.Schema table.Name columns orderByCol)))
        ∧ (∀ m rows tc,
          w.sourceChecksum v.trace table.Schema table.Name columns orderByCol = .err m →
          w.sourceRows (v.emit (.sourceChecksum table.Schema table.Name columns orderByCol)).trace
            table.Schema table.Name columns orderByCol = .ok rows →
          w.targetChecksum
            ((v.emit (.sourceChecksum table.Schema table.Name columns orderByCol)).emit
              (.sourceRows table.Schema table.Name columns orderByCol)).trace
            table.Schema table.Name columns orderByCol = .ok tc →
          validateChecksum w v table result
            = (none,
                { result with
                  SourceChecksum := w.md5Hex (rows.map fmtRow).flatten, TargetChecksum := tc,
                  ChecksumMatch := decide (w.md5Hex (rows.map fmtRow).flatten = tc) },
                ((v.emit (.sourceChecksum table.Schema table.Name columns orderByCol)).emit
                  (.sourceRows table.Schema table.Name columns orderByCol)).emit
                  (.targetChecksum table.Schema table.Name columns orderByCol)))
        ∧ (∀ m rows m2,
          w.sourceChecksum v.trace table.Schema table.Name columns orderByCol = .err m →
          w.sourceRows (v.emit (.sourceChecksum table.Schema table.Name columns orderByCol)).trace
            table.Schema table.Name columns orderByCol = .ok rows →
          w.targetChecksum
            ((v.emit (.sourceChecksum table.Schema table.Name columns orderByCol)).emit
              (.sourceRows table.Schema table.Name columns orderByCol)).trace
            table.Schema table.Name columns orderByCol = .err m2 →
          validateChecksum w v table result
            = (some m2, { result with SourceChecksum := w.md5Hex (rows.map fmtRow).flatten },
                ((v.emit (.sourceChecksum table.Schema table.Name columns orderByCol)).emit
                  (.sourceRows table.Schema table.Name columns orderByCol)).emit
                  (.targetChecksum table.Schema table.Name columns orderByCol)))
        ∧ (∀ m m2,
          w.sourceChecksum v.trace table.Schema table.Name columns orderByCol = .err m →
          w.sourceRows (v.emit (.sourceChecksum table.Schema table.Name columns orderByCol)).trace
            table.Schema table.Name columns orderByCol = .err m2 →
          validateChecksum w v table result
            = (some m2, result,
                (v.emit (.sourceChecksum table.Schema table.Name columns orderByCol)).emit
                  (.sourceRows table.Schema table.Name columns orderByCol))))
    ∧ ((validateChecksum emailCaseWorld ⟨fullValidation, []⟩
          { contactsTable with Columns := contactsTable.Columns ++ [mkColumn "Photo" "IMAGE"] }
          (freshResult contactsTable)).2.2.trace
        = [.sourceChecksum "dbo" "Contacts" (List.map String.toList ["Id", "Email"]) "Id",
           .targetChecksum "dbo" "Contacts" (List.map String.toList ["Id", "Email"]) "Id"]
      ∧ (validateChecksum emailCaseWorld ⟨fullValidation, []⟩
          { contactsTable with Columns := contactsTable.Columns ++ [mkColumn "Photo" "IMAGE"] }
          (freshResult contactsTable)).2.1.ChecksumMatch = false
      ∧ (validateChecksum agreeingWorld ⟨fullValidation, []⟩
          { contactsTable with Columns := contactsTable.Columns ++ [mkColumn "Photo" "IMAGE"] }
          (freshResult contactsTable)).2.1.ChecksumMatch = true) := by
  have hcols := checksumColumns_eq w.std table.Columns
  have horder : checksumOrderBy w.std table.Columns
      = (match (table.Columns.filter (fun c => !skippedForChecksum w.std c)).find?
            (fun c => c.IsPrimaryKey && decide (c.Name ≠ ("" : Str))) with
        | some c => c.Name
        | none =>
          (((table.Columns.filter (fun c => !skippedForChecksum w.std c)).head?).map
            ColumnInfo.Name).getD "") := by
    unfold checksumOrderBy
    rw [hcols]
    simp only []
    cases hf : (table.Columns.filter (fun c => !skippedForChecksum w.std c)).find?
        (fun c => c.IsPrimaryKey && decide (c.Name ≠ ("" : Str))) with
    | none =>
      simp only [Option.map_none', Option.getD_none, if_true]
      cases table.Columns.filter (fun c => !skippedForChecksum w.std c) <;> rfl
    | some c =>
      have hc := List.find?_some hf
      simp only [Bool.and_eq_true, decide_eq_true_eq] at hc
      simp only [Option.map_some', Option.getD_some, if_neg hc.2]
  refine ⟨?_, by rw [hcols], ?_, ?_, horder, ?_, ?_, ?_, ⟨by rfl, by rfl, by rfl⟩⟩
  · intro c
    simp [skippedForChecksum]
  · intro hnone
    unfold validateChecksum
    rw [hcols, hnone]
    rfl
  · intro hsome
    unfold validateChecksum
    rw [hcols]
    simp only []
    rw [if_neg]
    rw [List.length_map]
    exact fun h => hsome (List.length_eq_zero.1 h)
  · intro hnames
    rw [horder, find_named_key _ (fun c hc => hnames c (List.mem_of_mem_filter hc))]
  · intro columns orderByCol
    exact compareChecksums_events w v table result columns orderByCol

  · intro columns orderByCol hc ho hne
    have hvc : validateChecksum w v table result
        = compareChecksums w v table result columns orderByCol := by
      unfold validateChecksum
      rw [hcols]
      simp only []
      rw [if_neg, hc, ho]
      rw [← hc]
      exact fun h => hne (List.length_eq_zero.1 h)
    have h := compareChecksums_cases w v table result columns orderByCol
    rw [← hvc] at h
    exact h

/-! ## Sample reporting (C23) -/

theorem sampleColumns_foldl (cols : List ColumnInfo) (acc : List Str × List Str) :
    cols.foldl
      (fun (acc : List Str × List Str) col =>
        if col.IsPrimaryKey then (acc.1 ++ [col.Name], acc.2 ++ [col.Name])
        else (acc.1 ++ [col.Name], acc.2))
      acc
    = (acc.1 ++ cols.map ColumnInfo.Name,
        acc.2 ++ (cols.filter (fun c => c.IsPrimaryKey)).map ColumnInfo.Name) := by
  induction cols generalizing acc with
  | nil => simp
  | cons col rest ih =>
    rw [List.foldl_cons, ih]
    cases hp : col.IsPrimaryKey <;> simp [hp]

theorem sampleColumns_eq (cols : List ColumnInfo) :
    sampleColumns cols
      = (cols.map ColumnInfo.Name, (cols.filter (fun c => c.IsPrimaryKey)).map ColumnInfo.Name) := by
  unfold sampleColumns
  rw [sampleColumns_foldl]
  rfl

theorem compareRow_detail (w : VWorld) (v : Validator) (table : TableInfo)
    (columns pkColumns : List Str) (keyValues : List Value)
    (h : (compareRow w v table columns pkColumns keyValues).1.1 = false) :
    ∃ d, (compareRow w v table columns pkColumns keyValues).1.2 = some d := by
  unfold compareRow at h ⊢
  cases hs : w.sourceRow v.trace table.Schema table.Name columns pkColumns keyValues with
  | err m => exact ⟨_, rfl⟩
  | ok sourceValues =>
    simp only [hs] at h ⊢
    cases ht : w.targetRow
        (v.emit (.sourceRow table.Schema table.Name columns pkColumns keyValues)).trace
        table.Schema table.Name columns pkColumns keyValues with
    | err m => exact ⟨_, rfl⟩
    | ok targetValues =>
      simp only [ht] at h ⊢
      by_cases hlen : (columnDiffs columns sourceValues targetValues).length > 0
      · rw [if_pos hlen]
        exact ⟨_, rfl⟩
      · rw [if_neg hlen] at h
        cases h

theorem sampleOutcomes_length (w : VWorld) (table : TableInfo) (columns pkColumns : List Str)
    (keys : List (List Value)) (v : Validator) :
    (sampleOutcomes w table columns pkColumns keys v).length = keys.length := by
  induction keys generalizing v with
  | nil => rfl
  | cons k rest ih => simp [sampleOutcomes, ih]

theorem sampleOutcomes_detail (w : VWorld) (table : TableInfo) (columns pkColumns : List Str)
    (keys : List (List Value)) (v : Validator) :
    ∀ o ∈ sampleOutcomes w table columns pkColumns keys v, o.1 = false → ∃ d, o.2 = some d := by
  induction keys generalizing v with
  | nil => intro o ho; cases ho
  | cons k rest ih =>
    intro o ho hf
    simp only [sampleOutcomes, List.mem_cons] at ho
    rcases ho with h | h
    · subst h
      exact compareRow_detail w v table columns pkColumns k hf
    · exact ih _ o h hf

theorem compareSamples_tally (w : VWorld) (table : TableInfo) (columns pkColumns : List Str)
    (keys : List (List Value)) (tally : SampleTally) (v : Validator) :
    (compareSamples w table columns pkColumns keys tally v).1
      = { matchCount := tally.matchCount
            + ((sampleOutcomes w table columns pkColumns keys v).filter (fun o => o.1)).length,
          mismatchCount := tally.mismatchCount
            + ((sampleOutcomes w table columns pkColumns keys v).filter (fun o => !o.1)).length,
          mismatchDetails := tally.mismatchDetails
            ++ (sampleOutcomes w table columns pkColumns keys v).filterMap
                (fun o => if o.1 then none else o.2) } := by
  induction keys generalizing tally v with
  | nil => simp [compareSamples, sampleOutcomes]
  | cons k rest ih =>
    rw [compareSamples, ih]
    simp only [sampleOutcomes]
    rcases hrow : (compareRow w v table columns pkColumns k).1 with ⟨m, d⟩
    cases m with
    | true =>
      simp only [tallyRow, if_true, List.filter_cons, List.filterMap_cons, Bool.not_true,
        Bool.false_eq_true, if_false, List.length_cons, Nat.cast_add, Nat.cast_one]
      congr 1
      omega
    | false =>
      obtain ⟨d', hd⟩ := compareRow_detail w v table columns pkColumns k (by rw [hrow])
      rw [hrow] at hd
      simp only at hd
      subst hd
      simp only [tallyRow, Bool.false_eq_true, if_false, List.filter_cons, List.filterMap_cons,
        Bool.not_false, if_true, List.length_cons, Nat.cast_add, Nat.cast_one,
        List.append_assoc, List.singleton_append]
      congr 1
      omega

theorem sampleWithKeys_done (w : VWorld) (v : Validator) (table : TableInfo)
    (result : ValidationResult) (columns : List Str) (pk : Str) (pks : List Str)
    (keys : List (List Value)) (hkeys : ∀ h s n k l o, w.sampleKeys h s n k l o = .ok keys) :
    sampleWithKeys w v table result columns (pk :: pks)
      = (.done,
          storeTally result
            (compareSamples w table columns (pk :: pks) keys ⟨0, 0, []⟩
              (v.emit (.sampleKeys table.Schema table.Name (effectiveSampleSize v.config)
                ((pk :: pks).map (fun pk => ("[" : Str) ++ pk ++ "]"))
                (("[" : Str) ++ pk ++ "]")))).1,
          (compareSamples w table columns (pk :: pks) keys ⟨0, 0, []⟩
            (v.emit (.sampleKeys table.Schema table.Name (effectiveSampleSize v.config)
              ((pk :: pks).map (fun pk => ("[" : Str) ++ pk ++ "]"))
              (("[" : Str) ++ pk ++ "]")))).2) := by
  unfold sampleWithKeys
  simp only [List.map_cons, List.getElem?_cons_zero]
  rw [hkeys]

/-- The key columns `validateSampleData` uses on a table with at least one
column: the columns flagged as primary key, or the first column when none is. -/
theorem validateSampleData_keys (w : VWorld) (v : Validator) (table : TableInfo)
    (result : ValidationResult) (hcols : table.Columns ≠ []) :
    ∃ pk pks,
      pk :: pks
        = (if table.Columns.filter (fun c => c.IsPrimaryKey) = [] then
            (table.Columns.take 1).map ColumnInfo.Name
          else (table.Columns.filter (fun c => c.IsPrimaryKey)).map ColumnInfo.Name)
      ∧ validateSampleData w v table result
        = sampleWithKeys w v table result (table.Columns.map ColumnInfo.Name) (pk :: pks) := by
  unfold validateSampleData
  rw [sampleColumns_eq]
  simp only []
  cases hf : table.Columns.filter (fun c => c.IsPrimaryKey) with
  | nil =>
    cases hc : table.Columns with
    | nil => exact absurd hc hcols
    | cons c rest =>
      refine ⟨c.Name, [], by simp, ?_⟩
      simp
  | cons p ps =>
    refine ⟨p.Name, ps.map ColumnInfo.Name, by simp, ?_⟩
    simp

/-- C23. On a table with at least one column whose sample keys `keys` were read:
`validateSampleData` returns without error; the key query carries the configured
sample size when positive and 100 otherwise; with `outcomes` the results of
`compareRow` on the keys in sample order, `SampleMatches` and `SampleMismatches`
count the matching and the mismatching rows and add up to the number of keys;
every mismatching row contributes a detail, so the accumulated details are as
many as `SampleMismatches`; and `MismatchedRows` is their first 10, of length
`min 10 k`. -/
theorem sample_reporting (w : VWorld) (v : Validator) (table : TableInfo)
    (result : ValidationResult) (keys : List (List Value))
    (hcols : table.Columns ≠ [])
    (hkeys : ∀ h s n k l o, w.sampleKeys h s n k l o = .ok keys) :
    (validateSampleData w v table result).1 = .done
    ∧ ∃ pkColumns orderBy outcomes details,
      pkColumns
        = (if table.Columns.filter (fun c => c.IsPrimaryKey) = [] then
            (table.Columns.take 1).map ColumnInfo.Name
          else (table.Columns.filter (fun c => c.IsPrimaryKey)).map ColumnInfo.Name)
      ∧ outcomes
        = sampleOutcomes w table (table.Columns.map ColumnInfo.Name) pkColumns keys
            (v.emit (.sampleKeys table.Schema table.Name
              (if v.config.SampleSize ≤ 0 then 100 else v.config.SampleSize)
              (pkColumns.map (fun pk => ("[" : Str) ++ pk ++ "]")) orderBy))
      ∧ details = outcomes.filterMap (fun o => if o.1 then none else o.2)
      ∧ outcomes.length = keys.length
      ∧ (validateSampleData w v table result).2.1.SampleMatches
          = (outcomes.filter (fun o => o.1)).length
      ∧ (validateSampleData w v table result).2.1.SampleMismatches
          = (outcomes.filter (fun o => !o.1)).length
      ∧ (validateSampleData w v table result).2.1.SampleMatches
          + (validateSampleData w v table result).2.1.SampleMismatches = keys.length
      ∧ (details.length : Int) = (validateSampleData w v table result).2.1.SampleMismatches
      ∧ (validateSampleData w v table result).2.1.MismatchedRows = details.take 10
      ∧ (validateSampleData w v table result).2.1.MismatchedRows.length
          = min 10 details.length
      ∧ (validateSampleData w v table result).2.1.MismatchedRows.length ≤ 10 := by
  obtain ⟨pk, pks, hpk, hv⟩ := validateSampleData_keys w v table result hcols
  rw [hv, sampleWithKeys_done w v table result _ pk pks keys hkeys, compareSamples_tally]
  have hlen := sampleOutcomes_length w table (table.Columns.map ColumnInfo.Name) (pk :: pks) keys
    (v.emit (.sampleKeys table.Schema table.Name (effectiveSampleSize v.config)
      ((pk :: pks).map (fun pk => ("[" : Str) ++ pk ++ "]")) (("[" : Str) ++ pk ++ "]")))
  have hdet := sampleOutcomes_detail w table (table.Columns.map ColumnInfo.Name) (pk :: pks) keys
    (v.emit (.sampleKeys table.Schema table.Name (effectiveSampleSize v.config)
      ((pk :: pks).map (fun pk => ("[" : Str) ++ pk ++ "]")) (("[" : Str) ++ pk ++ "]")))
  generalize hout : sampleOutcomes w table (table.Columns.map ColumnInfo.Name) (pk :: pks) keys
    (v.emit (.sampleKeys table.Schema table.Name (effectiveSampleSize v.config)
      ((pk :: pks).map (fun pk => ("[" : Str) ++ pk ++ "]")) (("[" : Str) ++ pk ++ "]")))
    = outcomes at hlen hdet
  have hsplit : ∀ os : List (Bool × Option MismatchDetail),
      (os.filter (fun o => o.1)).length + (os.filter (fun o => !o.1)).length = os.length := by
    intro os
    induction os with
    | nil => rfl
    | cons o os ih => cases h : o.1 <;> simp [h] <;> omega
  have hcount : ∀ os : List (Bool × Option MismatchDetail),
      (∀ o ∈ os, o.1 = false → ∃ d, o.2 = some d) →
      (os.filterMap (fun o => if o.1 then none else o.2)).length
        = (os.filter (fun o => !o.1)).length := by
    intro os
    induction os with
    | nil => intro _; rfl
    | cons o os ih =>
      intro h
      have ih' := ih (fun x hx => h x (List.mem_cons_of_mem _ hx))
      cases ho : o.1 with
      | true => simp [ho, ih']
      | false =>
        obtain ⟨d, hd⟩ := h o (List.mem_cons_self _ _) ho
        simp [ho, hd, ih']
  refine ⟨rfl, pk :: pks, ("[" : Str) ++ pk ++ "]", outcomes,
    outcomes.filterMap (fun o => if o.1 then none else o.2), hpk, ?_, rfl, hlen, ?_, ?_, ?_, ?_,
    ?_, ?_, ?_⟩
  · exact hout.symm
  · simp [storeTally]
  · simp [storeTally]
  · simp only [storeTally, zero_add]
    rw [← hlen, ← hsplit outcomes]
    push_cast
    rfl
  · simp only [storeTally, zero_add, hcount outcomes hdet]
  · simp only [storeTally, List.nil_append]
    split
    · rfl
    · rename_i h
      rw [List.take_of_length_le (by omega)]
  · simp only [storeTally, List.nil_append]
    split
    · rw [List.length_take]
    · rename_i h
      omega
  · simp only [storeTally, List.nil_append]
    split
    · rw [List.length_take]; omega
    · omega

/-- C23 where twelve keys are sampled and none is found on the target: the check
returns without error, counts 0 matches and 12 mismatches, and reports the
first 10 details. -/
theorem sample_reporting_witness :
    (validateSampleData missingRowsWorld ⟨fullValidation, []⟩ contactsTable
        (freshResult contactsTable)).1 = .done
    ∧ (validateSampleData missingRowsWorld ⟨fullValidation, []⟩ contactsTable
        (freshResult contactsTable)).2.1.SampleMatches = 0
    ∧ (validateSampleData missingRowsWorld ⟨fullValidation, []⟩ contactsTable
        (freshResult contactsTable)).2.1.SampleMismatches = 12
    ∧ (validateSampleData missingRowsWorld ⟨fullValidation, []⟩ contactsTable
        (freshResult contactsTable)).2.1.MismatchedRows.length = 10
    ∧ (validateSampleData missingRowsWorld ⟨fullValidation, []⟩ contactsTable
        (freshResult contactsTable)).2.1.MismatchedRows.map (fun d => d.PrimaryKey)
        = twelveKeys.take 10 :=
  ⟨(sample_reporting missingRowsWorld ⟨fullValidation, []⟩ contactsTable
      (freshResult contactsTable) twelveKeys (List.cons_ne_nil _ _)
      (fun _ _ _ _ _ _ => rfl)).1,
    by rfl, by rfl, by rfl, by rfl⟩

/-! ## Final status of a table (C21, C22) -/

theorem rowCountStep_keeps (w : VWorld) (table : TableInfo) (rv : ValidationResult × Validator) :
    (rowCountStep w table rv).2.config = rv.2.config
    ∧ (rowCountStep w table rv).1.ChecksumMatch = rv.1.ChecksumMatch
    ∧ (rv.2.config.RowCountValidation = false → rowCountStep w table rv = rv) := by
  unfold rowCountStep validateRowCount
  cases hc : rv.2.config.RowCountValidation with
  | false => simp
  | true =>
    simp only [if_true]
    cases w.sourceRowCount rv.2.trace table.Schema table.Name with
    | err m => exact ⟨rfl, rfl, fun h => by cases h⟩
    | ok sc =>
      simp only []
      cases w.targetRowCount (rv.2.emit (.sourceRowCount table.Schema table.Name)).trace
          table.Schema table.Name with
      | err m => exact ⟨rfl, rfl, fun h => by cases h⟩
      | ok tc => exact ⟨rfl, rfl, fun h => by cases h⟩

theorem compareChecksums_keeps (w : VWorld) (v : Validator) (table : TableInfo)
    (result : ValidationResult) (columns : List Str) (orderByCol : Str) :
    (compareChecksums w v table result columns orderByCol).2.1.RowCountMatch
      = result.RowCountMatch := by
  unfold compareChecksums calculateSourceChecksum calculateSimpleChecksum
  cases w.sourceChecksum v.trace table.Schema table.Name columns orderByCol with
  | err m =>
    simp only []
    cases w.sourceRows (v.emit (.sourceChecksum table.Schema table.Name columns orderByCol)).trace
        table.Schema table.Name columns orderByCol with
    | err m2 => rfl
    | ok rows =>
      simp only []
      cases w.targetChecksum
          ((v.emit (.sourceChecksum table.Schema table.Name columns orderByCol)).emit
            (.sourceRows table.Schema table.Name columns orderByCol)).trace
          table.Schema table.Name columns orderByCol <;> rfl
  | ok checksum =>
    simp only []
    cases w.targetChecksum
        (v.emit (.sourceChecksum table.Schema table.Name columns orderByCol)).trace
        table.Schema table.Name columns orderByCol <;> rfl

theorem checksumStep_keeps (w : VWorld) (tableDetails : TableInfo)
    (rv : ValidationResult × Validator) :
    (checksumStep w tableDetails rv).1.RowCountMatch = rv.1.RowCountMatch
    ∧ (rv.2.config.ChecksumValidation = false → checksumStep w tableDetails rv = rv) := by
  unfold checksumStep
  cases hc : rv.2.config.ChecksumValidation with
  | false => simp
  | true =>
    simp only [if_true]
    refine ⟨?_, fun h => by cases h⟩
    have hk := compareChecksums_keeps w rv.2 tableDetails rv.1
      (checksumColumns w.std tableDetails.Columns).1 (checksumOrderBy w.std tableDetails.Columns)
    unfold validateChecksum
    split_ifs
    · rfl
    · rcases hcc : compareChecksums w rv.2 tableDetails rv.1
        (checksumColumns w.std tableDetails.Columns).1
        (checksumOrderBy w.std tableDetails.Columns) with ⟨o, r, v⟩
      rw [hcc] at hk
      cases o <;> exact hk

theorem sampleWithKeys_keeps (w : VWorld) (v : Validator) (table : TableInfo)
    (result : ValidationResult) (columns pkColumns : List Str) :
    (sampleWithKeys w v table result columns pkColumns).2.1.RowCountMatch = result.RowCountMatch
    ∧ (sampleWithKeys w v table result columns pkColumns).2.1.ChecksumMatch
        = result.ChecksumMatch := by
  unfold sampleWithKeys
  cases (pkColumns.map (fun pk => ("[" : Str) ++ pk ++ "]"))[0]? with
  | none => exact ⟨rfl, rfl⟩
  | some orderBy =>
    simp only []
    cases w.sampleKeys v.trace table.Schema table.Name (effectiveSampleSize v.config)
        (pkColumns.map (fun pk => ("[" : Str) ++ pk ++ "]")) orderBy with
    | err m => exact ⟨rfl, rfl⟩
    | ok keys => exact ⟨rfl, rfl⟩

theorem sampleStep_keeps (w : VWorld) (tableDetails : TableInfo)
    (rv : ValidationResult × Validator) :
    (sampleStep w tableDetails rv).2.1.RowCountMatch = rv.1.RowCountMatch
    ∧ (sampleStep w tableDetails rv).2.1.ChecksumMatch = rv.1.ChecksumMatch := by
  have hk : (validateSampleData w rv.2 tableDetails rv.1).2.1.RowCountMatch = rv.1.RowCountMatch
      ∧ (validateSampleData w rv.2 tableDetails rv.1).2.1.ChecksumMatch
          = rv.1.ChecksumMatch := by
    unfold validateSampleData
    split_ifs
    · cases (sampleColumns tableDetails.Columns).1[0]? with
      | none => exact ⟨rfl, rfl⟩
      | some first => exact sampleWithKeys_keeps _ _ _ _ _ _
    · exact sampleWithKeys_keeps _ _ _ _ _ _
  unfold sampleStep
  split_ifs
  · rcases hvs : validateSampleData w rv.2 tableDetails rv.1 with ⟨o, r, v⟩
    rw [hvs] at hk
    cases o <;> exact hk
  · exact ⟨rfl, rfl⟩

/-- A final status other than `mismatch` requires both the row-count and the
checksum sub-check to be enabled. -/
theorem validateTable_disabled (w : VWorld) (v : Validator) (table : TableInfo)
    (hdone : (validateTable w v table).1 = .done)
    (hoff : v.config.RowCountValidation = false ∨ v.config.ChecksumValidation = false) :
    (validateTable w v table).2.1.Status = ("mismatch" : Str) := by
  unfold validateTable at hdone ⊢
  cases hd : w.getTableDetails v.trace table.Schema table.Name with
  | err m => rw [hd] at hdone; cases hdone
  | ok tableDetails =>
    simp only [hd] at hdone ⊢
    have h1 := rowCountStep_keeps w table
      (freshResult table, v.emit (.getTableDetails table.Schema table.Name))
    have h2 := checksumStep_keeps w tableDetails (rowCountStep w table
      (freshResult table, v.emit (.getTableDetails table.Schema table.Name)))
    have h3 := sampleStep_keeps w tableDetails (checksumStep w tableDetails (rowCountStep w table
      (freshResult table, v.emit (.getTableDetails table.Schema table.Name))))
    have hflag : (sampleStep w tableDetails (checksumStep w tableDetails (rowCountStep w table
        (freshResult table, v.emit (.getTableDetails table.Schema table.Name))))).2.1.RowCountMatch
          = false
        ∨ (sampleStep w tableDetails (checksumStep w tableDetails (rowCountStep w table
          (freshResult table,
            v.emit (.getTableDetails table.Schema table.Name))))).2.1.ChecksumMatch = false := by
      rcases hoff with h | h
      · left
        rw [h3.1, h2.1, h1.2.2 h]
        rfl
      · right
        rw [h3.2, h2.2 (by rw [h1.1]; exact h), h1.2.1]
        rfl
    rcases hss : sampleStep w tableDetails (checksumStep w tableDetails (rowCountStep w table
      (freshResult table, v.emit (.getTableDetails table.Schema table.Name)))) with ⟨o, r, v2⟩
    rw [hss] at hflag hdone
    cases o with
    | done =>
      simp only at hflag ⊢
      unfold finalStatus
      rcases hflag with h | h <;> simp [h]
    | failed m => cases hdone
    | indexOutOfRange i n => cases hdone

/-- C21. With only the row-count check enabled and equal row counts the final
status is `mismatch`, not `success`; with all checks enabled and agreeing but the
source row count unreadable it is `mismatch`, not `warning`; with all checks
enabled and agreeing it is `success`.  For every table and every answer of the
databases, a validation with the row-count or the checksum check disabled ends
with status `mismatch`. -/
theorem disabled_check_gives_mismatch :
    ((validateTable agreeingWorld ⟨rowCountOnly, []⟩ contactsTable).1 = .done
      ∧ (validateTable agreeingWorld ⟨rowCountOnly, []⟩ contactsTable).2.1.RowCountMatch = true
      ∧ (validateTable agreeingWorld ⟨rowCountOnly, []⟩ contactsTable).2.1.Status
          = ("mismatch" : Str))
    ∧ ((validateTable countErrorWorld ⟨fullValidation, []⟩ contactsTable).1 = .done
      ∧ (validateTable countErrorWorld ⟨fullValidation, []⟩ contactsTable).2.1.ChecksumMatch
          = true
      ∧ (validateTable countErrorWorld ⟨fullValidation, []⟩ contactsTable).2.1.SampleMismatches
          = 0
      ∧ (validateTable countErrorWorld ⟨fullValidation, []⟩ contactsTable).2.1.Status
          = ("mismatch" : Str))
    ∧ (validateTable agreeingWorld ⟨fullValidation, []⟩ contactsTable).2.1.Status
        = ("success" : Str)
    ∧ (∀ (w : VWorld) (v : Validator) (table : TableInfo),
        (validateTable w v table).1 = .done →
        (v.config.RowCountValidation = false ∨ v.config.ChecksumValidation = false) →
        (validateTable w v table).2.1.Status = ("mismatch" : Str)) :=
  ⟨⟨by rfl, by rfl, by rfl⟩, ⟨by rfl, by rfl, by rfl, by rfl⟩, by rfl, validateTable_disabled⟩

/-- C22. Where the aggregate query of the source fails and the checksum comes
from the client-side fallback, the row counts match and the sampled row matches:
the fallback query was sent, the two checksums differ, and the final status is
`mismatch`, not `warning`. -/
theorem fallback_checksum_gives_mismatch :
    (validateTable fallbackWorld ⟨fullValidation, []⟩ contactsTable).1 = .done
    ∧ (VEvent.sourceRows "dbo" "Contacts" (List.map String.toList ["Id", "Email"]) "Id")
        ∈ (validateTable fallbackWorld ⟨fullValidation, []⟩ contactsTable).2.2.trace
    ∧ (validateTable fallbackWorld ⟨fullValidation, []⟩ contactsTable).2.1.SourceChecksum
        = ("0cc175b9c0f1b6a831c399e269772661" : Str)
    ∧ (validateTable fallbackWorld ⟨fullValidation, []⟩ contactsTable).2.1.RowCountMatch = true
    ∧ (validateTable fallbackWorld ⟨fullValidation, []⟩ contactsTable).2.1.SampleMismatches = 0
    ∧ (validateTable fallbackWorld ⟨fullValidation, []⟩ contactsTable).2.1.ChecksumMatch = false
    ∧ (validateTable fallbackWorld ⟨fullValidation, []⟩ contactsTable).2.1.Status
        = ("mismatch" : Str) := by
  refine ⟨by rfl, by decide, by rfl, by rfl, by rfl, by rfl, by rfl⟩

/-! ## Index expressions of the sample check (C30) -/

/-- C30. On a table descriptor without columns `validateSampleData` stops on the
index expression `columns[0]`, out of range on the empty list, and so does
`validateTable` with the sample check enabled; on every table with at least one
column neither `columns[0]` nor `pkList[0]` is out of range. -/
theorem sample_key_index_out_of_range :
    (∀ (w : VWorld) (v : Validator) (table : TableInfo) (result : ValidationResult),
        table.Columns = [] →
        validateSampleData w v table result = (.indexOutOfRange 0 0, result, v))
    ∧ (validateSampleData emptyColumnsWorld ⟨fullValidation, []⟩ emptyTable
        (freshResult emptyTable)).1 = .indexOutOfRange 0 0
    ∧ (validateTable emptyColumnsWorld ⟨fullValidation, []⟩ contactsTable).1
        = .indexOutOfRange 0 0
    ∧ (∀ (w : VWorld) (v : Validator) (table : TableInfo) (result : ValidationResult),
        table.Columns ≠ [] →
        ∀ i n, (validateSampleData w v table result).1 ≠ .indexOutOfRange i n) := by
  refine ⟨?_, by rfl, by rfl, ?_⟩
  · intro w v table result hcols
    unfold validateSampleData
    rw [hcols]
    rfl
  · intro w v table result hcols i n
    obtain ⟨pk, pks, _, hv⟩ := validateSampleData_keys w v table result hcols
    rw [hv]
    unfold sampleWithKeys
    simp only [List.map_cons, List.getElem?_cons_zero]
    cases w.sampleKeys v.trace table.Schema table.Name (effectiveSampleSize v.config)
        ((("[" : Str) ++ pk ++ "]") :: pks.map (fun pk => ("[" : Str) ++ pk ++ "]"))
        (("[" : Str) ++ pk ++ "]") with
    | err m => simp
    | ok keys => simp

/-! ## Tables skipped in Phase 1, empty tables, and converter warnings (C26, C27, C28) -/

theorem batchLoop_first_read (w : World) (table tableDetails : TableInfo) (tableName : Str)
    (fuel : Nat) (migratedRows offset : Int) (e : Engine) (hdone : w.done e.trace = false) :
    (Event.readBatch table.Schema table.Name (prepareColumns tableDetails.Columns).1
        (orderByColumn tableDetails.Columns) offset e.config.BatchSize)
      ∈ (batchLoop w table tableDetails tableName (fuel + 1) migratedRows offset e).2.2.trace := by
  unfold batchLoop
  rw [hdone]
  simp only [Bool.false_eq_true, if_false]
  split
  · simp [Engine.emit]
  · split
    · simp [Engine.emit]
    · split
      · simp [Engine.emit]
      · obtain ⟨_, _, new, ht, _⟩ := batchLoop_stretch w table tableDetails tableName fuel
          (migratedRows + _) (offset + _)
          (recordBatch table tableName (migratedRows + _) _
            ((e.emit (.readBatch table.Schema table.Name (prepareColumns tableDetails.Columns).1
              (orderByColumn tableDetails.Columns) offset e.config.BatchSize)).emit
              (.copyFrom table.Schema table.Name
                (tableDetails.Columns.map (fun col => col.Name)) _ (.ok _))))
        rw [ht]
        simp [recordBatch, Engine.emit, Engine.setState]

theorem migrateTableData_reads_empty (w : World) (fuel : Nat) (e : Engine)
    (table tableDetails : TableInfo)
    (hd : ∀ h, w.getTableDetails h table.Schema table.Name = .ok tableDetails)
    (hcols : tableDetails.Columns = []) (hdone : ∀ h, w.done h = false) :
    (Event.readBatch table.Schema table.Name [] "" 0 e.config.BatchSize)
      ∈ (migrateTableData w (fuel + 1) e table).2.trace := by
  have hpre := disableTriggersStep_stretch w table (table.Schema ++ "." ++ table.Name)
    ((registerTable table (table.Schema ++ "." ++ table.Name) e).emit
      (.getTableDetails table.Schema table.Name))
  have hcfg : (disableTriggersStep w table (table.Schema ++ "." ++ table.Name)
      ((registerTable table (table.Schema ++ "." ++ table.Name) e).emit
        (.getTableDetails table.Schema table.Name))).config = e.config := hpre.1
  have hread := batchLoop_first_read w table tableDetails (table.Schema ++ "." ++ table.Name)
    fuel 0 0 _ (hdone (disableTriggersStep w table (table.Schema ++ "." ++ table.Name)
      ((registerTable table (table.Schema ++ "." ++ table.Name) e).emit
        (.getTableDetails table.Schema table.Name))).trace)
  rw [hcfg, hcols] at hread
  have hcol : (prepareColumns ([] : List ColumnInfo)).1 = [] := rfl
  have hord : orderByColumn ([] : List ColumnInfo) = ("" : Str) := rfl
  rw [hcol, hord] at hread
  unfold migrateTableData
  rw [hd]
  simp only []
  unfold streamTable
  rcases hbl : batchLoop w table tableDetails (table.Schema ++ "." ++ table.Name) (fuel + 1) 0 0
    (disableTriggersStep w table (table.Schema ++ "." ++ table.Name)
      ((registerTable table (table.Schema ++ "." ++ table.Name) e).emit
        (.getTableDetails table.Schema table.Name))) with ⟨out, mr, e2⟩
  rw [hbl] at hread
  simp only at hread
  cases out with
  | ok =>
    simp only []
    obtain ⟨_, _, new, ht, _⟩ := finishTable_stretch w table tableDetails
      (table.Schema ++ "." ++ table.Name) mr e2
    rw [ht]
    exact List.mem_append_left _ hread
  | err m => exact hread
  | outOfFuel => exact hread

/-- C27. For a table whose descriptor has no column, `migrateTableData` still
reads: whenever the descriptor is obtained and the run is not cancelled, a
read-batch call with an empty column list and an empty order-by column is issued
at offset 0.  With the tables `Empty` and `Customers`, where that read fails as
a query without column list does: triggers of `Empty` have been disabled, the
read is issued, no bulk copy is issued for `Empty`, and the run continues with
`Customers`, which ends `completed`. -/
theorem empty_table_still_read :
    (∀ (w : World) (fuel : Nat) (e : Engine) (table tableDetails : TableInfo),
        (∀ h, w.getTableDetails h table.Schema table.Name = .ok tableDetails) →
        tableDetails.Columns = [] → (∀ h, w.done h = false) →
        (Event.readBatch table.Schema table.Name [] "" 0 e.config.BatchSize)
          ∈ (migrateTableData w (fuel + 1) e table).2.trace)
    ∧ (Event.readBatch "dbo" "Empty" [] "" 0 2)
        ∈ (migrateData emptyTableWorld 10 [emptyTable, customersTable]
            (startedEngine sampleConfig)).2.trace
    ∧ (Event.disableTriggers "dbo" "Empty")
        ∈ (migrateData emptyTableWorld 10 [emptyTable, customersTable]
            (startedEngine sampleConfig)).2.trace
    ∧ (migrateData emptyTableWorld 10 [emptyTable, customersTable]
        (startedEngine sampleConfig)).2.trace.any (Event.isCopyOf "dbo" "Empty") = false
    ∧ (Event.log .error
          "Failed to migrate data for dbo.Empty: failed to read batch at offset 0: incorrect syntax near FROM")
        ∈ (migrateData emptyTableWorld 10 [emptyTable, customersTable]
            (startedEngine sampleConfig)).2.trace
    ∧ ((tablesFind (migrateData emptyTableWorld 10 [emptyTable, customersTable]
        (startedEngine sampleConfig)).2.state.Tables "dbo.Customers").map
          (fun ts => (ts.Status, ts.MigratedRows))) = some (.completed, 3) := by
  refine ⟨?_, by decide, by decide, by rfl, by decide, by rfl⟩
  intro w fuel e table tableDetails hd hcols hdone
  exact migrateTableData_reads_empty w fuel e table tableDetails hd hcols hdone

/-- C28. Where the CREATE TABLE of `Events` fails, the warning the converter
produced for its column `At` is not logged and stays in the converter after
`migrateSchema`; with `Customers` following, it is logged after `Created table
dbo.Customers`, in the flush of that table.  Where the CREATE TABLE succeeds the
warning is logged and the converter's list is empty afterwards. -/
theorem warnings_kept_after_failed_create :
    ((migrateSchema createFailWorld [eventsTable] (startedEngine sampleConfig)).1 = none
      ∧ (migrateSchema createFailWorld [eventsTable]
          (startedEngine sampleConfig)).2.typeMapper.GetWarnings
          = [("Column At: datetime2(7) precision truncated to 6 (PostgreSQL max)" : Str)]
      ∧ loggedAt .warn (migrateSchema createFailWorld [eventsTable]
          (startedEngine sampleConfig)).2.trace = []
      ∧ loggedAt .error (migrateSchema createFailWorld [eventsTable]
          (startedEngine sampleConfig)).2.trace
          = [("Failed to create table dbo.Events: permission denied" : Str)])
    ∧ ((migrateSchema createFailWorld [eventsTable, customersTable]
          (startedEngine sampleConfig)).2.trace.reverse.take 2
        = [Event.log .warn "Column At: datetime2(7) precision truncated to 6 (PostgreSQL max)",
           Event.log .info "Created table dbo.Customers"])
    ∧ ((migrateSchema eventsWorld [eventsTable]
          (startedEngine sampleConfig)).2.typeMapper.GetWarnings = []
      ∧ loggedAt .warn (migrateSchema eventsWorld [eventsTable]
          (startedEngine sampleConfig)).2.trace
          = [("Column At: datetime2(7) precision truncated to 6 (PostgreSQL max)" : Str)]) := by
  refine ⟨⟨by rfl, by rfl, by rfl, by rfl⟩, by rfl, by rfl, by rfl⟩

end DbTool
